import Mathlib

/-!
# CAPI to MAPI conversion of OpenStack machines

A shallow embedding of `pkg/conversion/capi2mapi/openstack.go`, of the network
and security-group fuzz functions of
`pkg/conversion/mapi2capi/openstack_fuzz_test.go`, and of the update validation
of the IPClaim webhook (`ipclaim_webhook.go`).

* A Go pointer `*T` is an `Option T` (`none` is the nil pointer).
* A Go slice `[]T` is a `GoSlice T`, which keeps the nil slice apart from the
  empty non-nil slice, since the code tests slices against nil.
* A Go `map[string]string` is an association list with unique keys.
* A function that can dereference a nil pointer returns in `Run`: either it
  returns a value or it panics.
* The API types (`capov1`, `mapiv1alpha1`, `field`) come from libraries; the
  structures below carry the fields that the conversion reads or writes, with
  the Go zero value as the default of every field.
-/

namespace Capi2Mapi

/-! ## Go runtime model -/

/-- Outcome of running a Go function: a returned value, or a run-time panic
(here always a nil pointer dereference). -/
inductive Run (α : Type) where
  | ret (a : α)
  | panic
  deriving DecidableEq, Repr

/-- Sequencing: a panic aborts everything that follows. -/
def Run.bind {α β : Type} (r : Run α) (f : α → Run β) : Run β :=
  match r with
  | .ret a => f a
  | .panic => .panic

instance : Monad Run where
  pure := Run.ret
  bind := Run.bind

/-- Whether the run returned (did not panic). -/
def Run.returns {α : Type} : Run α → Bool
  | .ret _ => true
  | .panic => false

/-- Dereference of a pointer: panics on nil. -/
def deref {α : Type} : Option α → Run α
  | some a => .ret a
  | none => .panic

/-- A Go slice: `nil` is the nil slice, `ofList []` an empty non-nil slice. -/
inductive GoSlice (α : Type) where
  | nil
  | ofList (elems : List α)
  deriving DecidableEq, Repr

namespace GoSlice

/-- The elements of the slice, in order. -/
def toList {α : Type} : GoSlice α → List α
  | .nil => []
  | .ofList xs => xs

/-- Go `len(s)`. -/
def len {α : Type} (s : GoSlice α) : Nat := s.toList.length

/-- Go `s == nil`. -/
def isNil {α : Type} : GoSlice α → Bool
  | .nil => true
  | .ofList _ => false

/-- Go `append(s, xs...)`: appending no element gives `s` back (a nil slice
stays nil), appending some gives a non-nil slice. -/
def append {α : Type} (s : GoSlice α) (xs : List α) : GoSlice α :=
  match xs with
  | [] => s
  | _ :: _ => .ofList (s.toList ++ xs)

/-- Go `append(s, x)`. -/
def push {α : Type} (s : GoSlice α) (x : α) : GoSlice α := s.append [x]

end GoSlice

/-- A Go `map[string]string`, as an association list with unique keys. -/
abbrev GoMap := List (String × String)

/-- Go `m[k] = v`. -/
def GoMap.set (m : GoMap) (k v : String) : GoMap :=
  match m with
  | [] => [(k, v)]
  | (k0, v0) :: rest => if k0 = k then (k, v) :: rest else (k0, v0) :: GoMap.set rest k v

/-- Go `m[k]` with the presence flag. -/
def GoMap.get (m : GoMap) (k : String) : Option String :=
  match m with
  | [] => none
  | (k0, v0) :: rest => if k0 = k then some v0 else GoMap.get rest k

/-- Go `corev1.TypedLocalObjectReference`. -/
structure corev1.TypedLocalObjectReference where
  APIGroup : Option String := none
  Kind : String := ""
  Name : String := ""
  deriving DecidableEq, Repr

/-! ## Cluster API provider OpenStack types (`capov1`) -/

namespace capov1

/-- Go `capov1.NetworkFilter` (the tag lists are of `NeutronTag`, a string type). -/
structure NetworkFilter where
  Name : String := ""
  Description : String := ""
  ProjectID : String := ""
  Tags : GoSlice String := .nil
  TagsAny : GoSlice String := .nil
  NotTags : GoSlice String := .nil
  NotTagsAny : GoSlice String := .nil
  deriving DecidableEq, Repr

/-- Go `capov1.NetworkParam`. -/
structure NetworkParam where
  ID : Option String := none
  Filter : Option NetworkFilter := none
  deriving DecidableEq, Repr

/-- Go `capov1.SubnetFilter`. -/
structure SubnetFilter where
  Name : String := ""
  Description : String := ""
  ProjectID : String := ""
  IPVersion : Int := 0
  GatewayIP : String := ""
  CIDR : String := ""
  IPv6AddressMode : String := ""
  IPv6RAMode : String := ""
  Tags : GoSlice String := .nil
  TagsAny : GoSlice String := .nil
  NotTags : GoSlice String := .nil
  NotTagsAny : GoSlice String := .nil
  deriving DecidableEq, Repr

/-- Go `capov1.SubnetParam`. -/
structure SubnetParam where
  ID : Option String := none
  Filter : Option SubnetFilter := none
  deriving DecidableEq, Repr

/-- Go `capov1.FixedIP`. -/
structure FixedIP where
  Subnet : Option SubnetParam := none
  IPAddress : Option String := none
  deriving DecidableEq, Repr

/-- Go `capov1.SecurityGroupFilter`. -/
structure SecurityGroupFilter where
  Name : String := ""
  Description : String := ""
  ProjectID : String := ""
  Tags : GoSlice String := .nil
  TagsAny : GoSlice String := .nil
  NotTags : GoSlice String := .nil
  NotTagsAny : GoSlice String := .nil
  deriving DecidableEq, Repr

/-- Go `capov1.SecurityGroupParam`. -/
structure SecurityGroupParam where
  ID : Option String := none
  Filter : Option SecurityGroupFilter := none
  deriving DecidableEq, Repr

/-- Go `capov1.AddressPair`. -/
structure AddressPair where
  IPAddress : String := ""
  MACAddress : Option String := none
  deriving DecidableEq, Repr

/-- Go `capov1.BindingProfile`. -/
structure BindingProfile where
  OVSHWOffload : Option Bool := none
  TrustedVF : Option Bool := none
  deriving DecidableEq, Repr

/-- Go `capov1.ValueSpec`. -/
structure ValueSpec where
  Name : String := ""
  Key : String := ""
  Value : String := ""
  deriving DecidableEq, Repr

/-- Go `capov1.PortOpts`, with the embedded `ResolvedPortSpecFields` flattened. -/
structure PortOpts where
  Network : Option NetworkParam := none
  Description : Option String := none
  NameSuffix : Option String := none
  FixedIPs : GoSlice FixedIP := .nil
  SecurityGroups : GoSlice SecurityGroupParam := .nil
  Tags : GoSlice String := .nil
  Trunk : Option Bool := none
  HostID : Option String := none
  VNICType : Option String := none
  AllowedAddressPairs : GoSlice AddressPair := .nil
  MACAddress : Option String := none
  AdminStateUp : Option Bool := none
  Profile : Option BindingProfile := none
  DisablePortSecurity : Option Bool := none
  PropagateUplinkStatus : Option Bool := none
  ValueSpecs : GoSlice ValueSpec := .nil
  deriving DecidableEq, Repr

/-- Go `capov1.ServerGroupFilter`. -/
structure ServerGroupFilter where
  Name : Option String := none
  deriving DecidableEq, Repr

/-- Go `capov1.ServerGroupParam`. -/
structure ServerGroupParam where
  ID : Option String := none
  Filter : Option ServerGroupFilter := none
  deriving DecidableEq, Repr

/-- Go `capov1.ImageFilter`. -/
structure ImageFilter where
  Name : Option String := none
  Tags : GoSlice String := .nil
  deriving DecidableEq, Repr

/-- The resource reference an image can be given by. -/
structure ResourceReference where
  Name : String := ""
  deriving DecidableEq, Repr

/-- Go `capov1.ImageParam`. -/
structure ImageParam where
  ID : Option String := none
  ImageRef : Option ResourceReference := none
  Filter : Option ImageFilter := none
  deriving DecidableEq, Repr

/-- Go `capov1.VolumeAZSource`, a string type. -/
abbrev VolumeAZSource := String

/-- Go `capov1.VolumeAZFromName`. -/
def VolumeAZFromName : VolumeAZSource := "Name"

/-- Go `capov1.VolumeAvailabilityZone`. -/
structure VolumeAvailabilityZone where
  From : VolumeAZSource := ""
  Name : Option String := none
  deriving DecidableEq, Repr

/-- Go `capov1.BlockDeviceVolume`. -/
structure BlockDeviceVolume where
  Type_ : String := ""
  AvailabilityZone : Option VolumeAvailabilityZone := none
  deriving DecidableEq, Repr

/-- Go `capov1.BlockDeviceType`, a string type. -/
abbrev BlockDeviceType := String

/-- Go `capov1.VolumeBlockDevice`. -/
def VolumeBlockDevice : BlockDeviceType := "Volume"

/-- Go `capov1.LocalBlockDevice`. -/
def LocalBlockDevice : BlockDeviceType := "Local"

/-- Go `capov1.BlockDeviceStorage`. -/
structure BlockDeviceStorage where
  Type_ : BlockDeviceType := ""
  Volume : Option BlockDeviceVolume := none
  deriving DecidableEq, Repr

/-- Go `capov1.AdditionalBlockDevice`. -/
structure AdditionalBlockDevice where
  Name : String := ""
  SizeGiB : Int := 0
  Storage : BlockDeviceStorage := {}
  deriving DecidableEq, Repr

/-- Go `capov1.RootVolume`, with the embedded `BlockDeviceVolume` flattened. -/
structure RootVolume where
  SizeGiB : Int := 0
  Type_ : String := ""
  AvailabilityZone : Option VolumeAvailabilityZone := none
  deriving DecidableEq, Repr

/-- Go `capov1.ServerMetadata`. -/
structure ServerMetadata where
  Key : String := ""
  Value : String := ""
  deriving DecidableEq, Repr

/-- Go `capov1.OpenStackIdentityReference`. -/
structure OpenStackIdentityReference where
  Name : String := ""
  CloudName : String := ""
  deriving DecidableEq, Repr

/-- Go `capov1.OpenStackMachineSpec`: the fields the conversion reads, and
`FloatingIPPoolRef`, a field of the spec that the conversion never reads. -/
structure OpenStackMachineSpec where
  FlavorID : Option String := none
  Flavor : Option String := none
  Image : ImageParam := {}
  SSHKeyName : String := ""
  Ports : GoSlice PortOpts := .nil
  SecurityGroups : GoSlice SecurityGroupParam := .nil
  Trunk : Bool := false
  Tags : GoSlice String := .nil
  ServerMetadata : GoSlice ServerMetadata := .nil
  ConfigDrive : Option Bool := none
  RootVolume : Option RootVolume := none
  AdditionalBlockDevices : GoSlice AdditionalBlockDevice := .nil
  ServerGroup : Option ServerGroupParam := none
  IdentityRef : Option OpenStackIdentityReference := none
  FloatingIPPoolRef : Option corev1.TypedLocalObjectReference := none
  deriving DecidableEq, Repr

/-- Go `capov1.OpenStackMachine`. -/
structure OpenStackMachine where
  Spec : OpenStackMachineSpec := {}
  deriving DecidableEq, Repr

/-- Go `capov1.OpenStackCluster`: the conversion only tests it against nil. -/
structure OpenStackCluster where
  Name : String := ""
  deriving DecidableEq, Repr

/-- Go `capov1.OpenStackMachineTemplateResource`. -/
structure OpenStackMachineTemplateResource where
  Spec : OpenStackMachineSpec := {}
  deriving DecidableEq, Repr

/-- Go `capov1.OpenStackMachineTemplateSpec`. -/
structure OpenStackMachineTemplateSpec where
  Template : OpenStackMachineTemplateResource := {}
  deriving DecidableEq, Repr

/-- Go `capov1.OpenStackMachineTemplate`. -/
structure OpenStackMachineTemplate where
  Spec : OpenStackMachineTemplateSpec := {}
  deriving DecidableEq, Repr

end capov1

/-! ## Kubernetes library types (`metav1`, `corev1`) -/

/-- Go `metav1.TypeMeta`. -/
structure metav1.TypeMeta where
  Kind : String := ""
  APIVersion : String := ""
  deriving DecidableEq, Repr

/-- Go `metav1.ObjectMeta`: the fields the conversion reads or writes. -/
structure metav1.ObjectMeta where
  Name : String := ""
  Namespace : String := ""
  Labels : Option GoMap := none
  Annotations : Option GoMap := none
  deriving DecidableEq, Repr

/-- Go `corev1.SecretReference`. -/
structure corev1.SecretReference where
  Name : String := ""
  Namespace : String := ""
  deriving DecidableEq, Repr

/-- Go `corev1.ObjectReference`. -/
structure corev1.ObjectReference where
  Kind : String := ""
  Namespace : String := ""
  Name : String := ""
  UID : String := ""
  APIVersion : String := ""
  ResourceVersion : String := ""
  FieldPath : String := ""
  deriving DecidableEq, Repr

/-! ## Machine API OpenStack provider types (`mapiv1alpha1`) -/

namespace mapiv1alpha1

/-- Go `mapiv1alpha1.Filter`, the network filter of the provider spec. -/
structure Filter where
  ID : String := ""
  Name : String := ""
  Description : String := ""
  TenantID : String := ""
  ProjectID : String := ""
  DeprecatedAdminStateUp : Option Bool := none
  DeprecatedShared : Option Bool := none
  DeprecatedStatus : String := ""
  DeprecatedMarker : String := ""
  DeprecatedLimit : Int := 0
  DeprecatedSortKey : String := ""
  DeprecatedSortDir : String := ""
  Tags : String := ""
  TagsAny : String := ""
  NotTags : String := ""
  NotTagsAny : String := ""
  deriving DecidableEq, Repr

/-- Go `mapiv1alpha1.SubnetFilter`. -/
structure SubnetFilter where
  ID : String := ""
  Name : String := ""
  Description : String := ""
  ProjectID : String := ""
  IPVersion : Int := 0
  GatewayIP : String := ""
  CIDR : String := ""
  IPv6AddressMode : String := ""
  IPv6RAMode : String := ""
  Tags : String := ""
  TagsAny : String := ""
  NotTags : String := ""
  NotTagsAny : String := ""
  deriving DecidableEq, Repr

/-- Go `mapiv1alpha1.SubnetParam`. -/
structure SubnetParam where
  UUID : String := ""
  Filter : SubnetFilter := {}
  PortTags : GoSlice String := .nil
  PortSecurity : Option Bool := none
  deriving DecidableEq, Repr

/-- Go `mapiv1alpha1.NetworkParam`. -/
structure NetworkParam where
  UUID : String := ""
  FixedIp : String := ""
  Filter : Filter := {}
  Subnets : GoSlice SubnetParam := .nil
  NoAllowedAddressPairs : Bool := false
  PortTags : GoSlice String := .nil
  VNICType : String := ""
  Profile : Option GoMap := none
  PortSecurity : Option Bool := none
  deriving DecidableEq, Repr

/-- Go `mapiv1alpha1.FixedIPs`. -/
structure FixedIPs where
  SubnetID : String := ""
  IPAddress : String := ""
  deriving DecidableEq, Repr

/-- Go `mapiv1alpha1.AddressPair`. -/
structure AddressPair where
  IPAddress : String := ""
  MACAddress : String := ""
  deriving DecidableEq, Repr

/-- Go `mapiv1alpha1.PortOpts`; `SecurityGroups` is a pointer to a slice. -/
structure PortOpts where
  NetworkID : String := ""
  NameSuffix : String := ""
  Description : String := ""
  AdminStateUp : Option Bool := none
  MACAddress : String := ""
  FixedIPs : GoSlice FixedIPs := .nil
  TenantID : String := ""
  ProjectID : String := ""
  SecurityGroups : Option (GoSlice String) := none
  AllowedAddressPairs : GoSlice AddressPair := .nil
  Tags : GoSlice String := .nil
  VNICType : String := ""
  Profile : Option GoMap := none
  PortSecurity : Option Bool := none
  Trunk : Option Bool := none
  DeprecatedHostID : String := ""
  deriving DecidableEq, Repr

/-- Go `mapiv1alpha1.SecurityGroupFilter`. -/
structure SecurityGroupFilter where
  ID : String := ""
  Name : String := ""
  Description : String := ""
  TenantID : String := ""
  ProjectID : String := ""
  DeprecatedLimit : Int := 0
  DeprecatedMarker : String := ""
  DeprecatedSortKey : String := ""
  DeprecatedSortDir : String := ""
  Tags : String := ""
  TagsAny : String := ""
  NotTags : String := ""
  NotTagsAny : String := ""
  deriving DecidableEq, Repr

/-- Go `mapiv1alpha1.SecurityGroupParam`. -/
structure SecurityGroupParam where
  UUID : String := ""
  Name : String := ""
  Filter : SecurityGroupFilter := {}
  deriving DecidableEq, Repr

/-- Go `mapiv1alpha1.BlockDeviceVolume`. -/
structure BlockDeviceVolume where
  Type_ : String := ""
  AvailabilityZone : String := ""
  deriving DecidableEq, Repr

/-- Go `mapiv1alpha1.BlockDeviceStorage`. -/
structure BlockDeviceStorage where
  Type_ : String := ""
  Volume : Option BlockDeviceVolume := none
  deriving DecidableEq, Repr

/-- Go `mapiv1alpha1.AdditionalBlockDevice`. -/
structure AdditionalBlockDevice where
  Name : String := ""
  SizeGiB : Int := 0
  Storage : BlockDeviceStorage := {}
  deriving DecidableEq, Repr

/-- Go `mapiv1alpha1.RootVolume`. -/
structure RootVolume where
  DeprecatedSourceType : String := ""
  SourceUUID : String := ""
  DeprecatedDeviceType : String := ""
  Size : Int := 0
  VolumeType : String := ""
  Zone : String := ""
  deriving DecidableEq, Repr

/-- Go `mapiv1alpha1.OpenstackProviderSpec`. The embedded `ObjectMeta` is never
written by the conversion and is left out. -/
structure OpenstackProviderSpec where
  TypeMeta : metav1.TypeMeta := {}
  CloudsSecret : Option corev1.SecretReference := none
  CloudName : String := ""
  Flavor : String := ""
  Image : String := ""
  KeyName : String := ""
  SshUserName : String := ""
  Networks : GoSlice NetworkParam := .nil
  Ports : GoSlice PortOpts := .nil
  FloatingIP : String := ""
  AvailabilityZone : String := ""
  SecurityGroups : GoSlice SecurityGroupParam := .nil
  UserDataSecret : Option corev1.SecretReference := none
  Trunk : Bool := false
  Tags : GoSlice String := .nil
  ServerMetadata : Option GoMap := none
  ConfigDrive : Option Bool := none
  RootVolume : Option RootVolume := none
  AdditionalBlockDevices : GoSlice AdditionalBlockDevice := .nil
  ServerGroupID : String := ""
  ServerGroupName : String := ""
  PrimarySubnet : String := ""
  deriving DecidableEq, Repr

end mapiv1alpha1

/-! ## Field errors (`k8s.io/apimachinery/pkg/util/validation/field`) -/

/-- The value handed to `field.Invalid` as the offending value (a Go
`interface` value): one constructor per type the code passes. -/
inductive BadValue where
  | stringPtr (v : Option String)
  | boolPtr (v : Option Bool)
  | strings (v : GoSlice String)
  | additionalBlockDevice (v : capov1.AdditionalBlockDevice)
  | imageParam (v : capov1.ImageParam)
  | networkParam (v : mapiv1alpha1.NetworkParam)
  | fixedIP (v : capov1.FixedIP)
  | valueSpecs (v : GoSlice capov1.ValueSpec)
  | securityGroupParam (v : capov1.SecurityGroupParam)
  | serverGroupParamPtr (v : Option capov1.ServerGroupParam)
  | objectReference (v : corev1.ObjectReference)
  deriving DecidableEq, Repr

namespace field

/-- One step of a `field.Path`: a named child, or a subscript (then `name` is
empty and `index` holds the subscript text). -/
structure PathElem where
  name : String := ""
  index : String := ""
  deriving DecidableEq, Repr

/-- A `field.Path`, as its steps from the root down. -/
structure Path where
  elems : List PathElem
  deriving DecidableEq, Repr

/-- Go `field.NewPath(name, moreNames...)`. -/
def NewPath (name : String) (moreNames : List String := []) : Path :=
  ⟨(name :: moreNames).map (fun n => { name := n })⟩

/-- Go `(*Path).Child(name, moreNames...)`. -/
def Path.Child (p : Path) (name : String) (moreNames : List String := []) : Path :=
  ⟨p.elems ++ (name :: moreNames).map (fun n => { name := n })⟩

/-- Go `(*Path).Index(i)`: the subscript is the decimal text of `i`. -/
def Path.Index (p : Path) (i : Nat) : Path :=
  ⟨p.elems ++ [{ index := Nat.repr i }]⟩

/-- Text of the steps of a path; `isRoot` says that no step came before. -/
def renderElems (isRoot : Bool) : List PathElem → String
  | [] => ""
  | e :: rest =>
    let dot := if !isRoot && e.name.length > 0 then "." else ""
    let body := if e.name.length > 0 then e.name else "[" ++ e.index ++ "]"
    dot ++ body ++ renderElems false rest

/-- Go `(*Path).String()`: named steps joined by dots, subscripts in brackets. -/
def Path.render (p : Path) : String := renderElems true p.elems

/-- Go `field.ErrorType`. -/
inductive ErrorType where
  | ErrorTypeNotFound
  | ErrorTypeRequired
  | ErrorTypeDuplicate
  | ErrorTypeInvalid
  | ErrorTypeNotSupported
  | ErrorTypeForbidden
  deriving DecidableEq, Repr

/-- Go `field.Error`: the path is stored as its text, as in the library. -/
structure Error where
  Type_ : ErrorType
  Field : String
  BadValue : BadValue
  Detail : String
  deriving DecidableEq, Repr

/-- Go `field.ErrorList`. -/
abbrev ErrorList := GoSlice Error

/-- Go `field.Invalid(path, value, detail)`. -/
def Invalid (fldPath : Path) (value : BadValue) (detail : String) : Error :=
  { Type_ := .ErrorTypeInvalid, Field := fldPath.render, BadValue := value, Detail := detail }

end field

/-- A warning string. Every warning of the conversion is the text
`(*field.Error).Error()` of a field error; the text formatting belongs to the
library, so the warning is kept as the error whose text it is. -/
structure Warning where
  ofError : field.Error
  deriving DecidableEq, Repr

/-! ## Core machine types (`capiv1`, `mapiv1`) -/

namespace capiv1

/-- Go `capiv1.Bootstrap`. -/
structure Bootstrap where
  DataSecretName : Option String := none
  deriving DecidableEq, Repr

/-- Go `capiv1.MachineSpec`: the fields the conversion reads. -/
structure MachineSpec where
  ClusterName : String := ""
  Bootstrap : Bootstrap := {}
  ProviderID : Option String := none
  FailureDomain : Option String := none
  deriving DecidableEq, Repr

/-- Go `capiv1.Machine`. -/
structure Machine where
  ObjectMeta : metav1.ObjectMeta := {}
  Spec : MachineSpec := {}
  deriving DecidableEq, Repr

/-- Go `capiv1.MachineTemplateSpec`. -/
structure MachineTemplateSpec where
  ObjectMeta : metav1.ObjectMeta := {}
  Spec : MachineSpec := {}
  deriving DecidableEq, Repr

/-- Go `capiv1.MachineSetSpec`: the template, and the replica and selector
fields that a machine-set conversion copies. -/
structure MachineSetSpec where
  ClusterName : String := ""
  Replicas : Option Int := none
  Selector : Option GoMap := none
  Template : MachineTemplateSpec := {}
  deriving DecidableEq, Repr

/-- Go `capiv1.MachineSet`. -/
structure MachineSet where
  ObjectMeta : metav1.ObjectMeta := {}
  Spec : MachineSetSpec := {}
  deriving DecidableEq, Repr

end capiv1

namespace mapiv1

/-- Go `runtime.RawExtension`: `Raw` holds the serialised bytes. -/
structure RawExtension where
  Raw : GoSlice Nat := .nil
  deriving DecidableEq, Repr

/-- Go `mapiv1.ProviderSpec`. -/
structure ProviderSpec where
  Value : Option RawExtension := none
  deriving DecidableEq, Repr

/-- Go `mapiv1.MachineSpec`: the fields a converted machine carries. -/
structure MachineSpec where
  ObjectMeta : metav1.ObjectMeta := {}
  ProviderID : Option String := none
  ProviderSpec : ProviderSpec := {}
  deriving DecidableEq, Repr

/-- Go `mapiv1.Machine`. -/
structure Machine where
  TypeMeta : metav1.TypeMeta := {}
  ObjectMeta : metav1.ObjectMeta := {}
  Spec : MachineSpec := {}
  deriving DecidableEq, Repr

/-- Go `mapiv1.MachineTemplateSpec`. -/
structure MachineTemplateSpec where
  ObjectMeta : metav1.ObjectMeta := {}
  Spec : MachineSpec := {}
  deriving DecidableEq, Repr

/-- Go `mapiv1.MachineSetSpec`: the template, and the replica and selector
fields that a machine-set conversion copies. -/
structure MachineSetSpec where
  Replicas : Option Int := none
  Selector : Option GoMap := none
  Template : MachineTemplateSpec := {}
  deriving DecidableEq, Repr

/-- Go `mapiv1.MachineSet`. -/
structure MachineSet where
  TypeMeta : metav1.TypeMeta := {}
  ObjectMeta : metav1.ObjectMeta := {}
  Spec : MachineSetSpec := {}
  deriving DecidableEq, Repr

end mapiv1

/-- A Go `error` value of the conversion package. -/
inductive GoError where
  /-- Value of `errors.New(msg)`. -/
  | errorsNew (msg : String)
  /-- Value of `fmt.Errorf(msg + ": %w", cause)`. -/
  | wrap (msg : String) (cause : GoError)
  /-- An error returned by a library call (here `json.Marshal`). -/
  | library (msg : String)
  /-- Value of `field.ErrorList.ToAggregate()` on a non-empty list. The library
  drops an error whose text repeats an earlier one; the texts are not modelled,
  so the constructor holds the list the aggregate was built from. -/
  | fieldAggregate (errs : List field.Error)
  deriving DecidableEq, Repr

/-- Go `field.ErrorList.ToAggregate()`: nil for an empty list. -/
def field.ErrorList.ToAggregate (list : field.ErrorList) : Option GoError :=
  if list.len = 0 then none else some (.fieldAggregate list.toList)

/-- Code of this repository and of libraries that `ToMachine` calls and that is
not part of `openstack.go`, taken as parameters. -/
structure Externals where
  /-- Go `json.Marshal` on a provider spec: the bytes, or an error. -/
  jsonMarshal : mapiv1alpha1.OpenstackProviderSpec → Except GoError (GoSlice Nat)
  /-- The provider-independent `fromCAPIMachineToMAPIMachine` of the package. -/
  fromCAPIMachineToMAPIMachine : capiv1.Machine → Option mapiv1.Machine × field.ErrorList

/-! ## The conversion (`openstack.go`) -/

/-- Sentinel `errCAPIMachineOpenStackMachineOpenStackClusterCannotBeNil`. -/
def errCAPIMachineOpenStackMachineOpenStackClusterCannotBeNil : GoError :=
  .errorsNew "provided Machine, OpenStackMachine and OpenStackCluster can not be nil"

/-- Sentinel `errCAPIMachineSetOpenStackMachineTemplateOpenStackClusterCannotBeNil`. -/
def errCAPIMachineSetOpenStackMachineTemplateOpenStackClusterCannotBeNil : GoError :=
  .errorsNew "provided MachineSet, OpenStackMachineTemplate and OpenStackCluster can not be nil"

/-- Go struct `machineAndOpenStackMachineAndOpenStackCluster`. -/
structure machineAndOpenStackMachineAndOpenStackCluster where
  machine : Option capiv1.Machine
  openstackMachine : Option capov1.OpenStackMachine
  openstackCluster : Option capov1.OpenStackCluster
  deriving DecidableEq, Repr

/-- Go `FromMachineAndOpenStackMachineAndOpenStackCluster`: wraps the three
pointers, nil or not. -/
def FromMachineAndOpenStackMachineAndOpenStackCluster (m : Option capiv1.Machine)
    (am : Option capov1.OpenStackMachine) (ac : Option capov1.OpenStackCluster) :
    machineAndOpenStackMachineAndOpenStackCluster :=
  { machine := m, openstackMachine := am, openstackCluster := ac }

/-- Go `joinTags`. -/
def joinTags (tags : GoSlice String) : String :=
  if tags.len = 0 then "" else String.intercalate "," tags.toList

/-- Loop body of `convertCAPOAdditionalBlockDevicesToMAPO` for the device at
index `i`: the converted device and the errors the iteration appends. -/
def convertCAPOAdditionalBlockDevice (fldPath : field.Path) (i : Nat)
    (capoAdditionalBlockDevice : capov1.AdditionalBlockDevice) :
    Run (mapiv1alpha1.AdditionalBlockDevice × List field.Error) :=
  let mapoAdditionalBlockDevice : mapiv1alpha1.AdditionalBlockDevice :=
    { Name := capoAdditionalBlockDevice.Name
      SizeGiB := capoAdditionalBlockDevice.SizeGiB
      Storage := { Type_ := capoAdditionalBlockDevice.Storage.Type_ } }
  if capoAdditionalBlockDevice.Storage.Type_ = capov1.VolumeBlockDevice then
    match capoAdditionalBlockDevice.Storage.Volume with
    | none =>
      .ret (mapoAdditionalBlockDevice,
        [field.Invalid (fldPath.Index i) (.additionalBlockDevice capoAdditionalBlockDevice)
          "The volume field must be populated if type is volume"])
    | some volume => do
      let mapoVolume : mapiv1alpha1.BlockDeviceVolume := { Type_ := volume.Type_ }
      let availabilityZone ← deref volume.AvailabilityZone
      if availabilityZone.From = capov1.VolumeAZFromName then
        let name ← deref availabilityZone.Name
        return ({ mapoAdditionalBlockDevice with
          Storage := { mapoAdditionalBlockDevice.Storage with
            Volume := some { mapoVolume with AvailabilityZone := name } } }, [])
      else
        return ({ mapoAdditionalBlockDevice with
          Storage := { mapoAdditionalBlockDevice.Storage with Volume := some mapoVolume } }, [])
  else
    .ret (mapoAdditionalBlockDevice, [])

/-- The `for i, ... := range` loop of `convertCAPOAdditionalBlockDevicesToMAPO`
from index `i` on: the devices and the errors appended, in iteration order. -/
def convertCAPOAdditionalBlockDevicesLoop (fldPath : field.Path) :
    Nat → List capov1.AdditionalBlockDevice →
    Run (List mapiv1alpha1.AdditionalBlockDevice × List field.Error)
  | _, [] => .ret ([], [])
  | i, dev :: rest => do
    let (mapoDev, errs) ← convertCAPOAdditionalBlockDevice fldPath i dev
    let (mapoDevs, restErrs) ← convertCAPOAdditionalBlockDevicesLoop fldPath (i + 1) rest
    return (mapoDev :: mapoDevs, errs ++ restErrs)

/-- Go `convertCAPOAdditionalBlockDevicesToMAPO`. Both results start as empty
non-nil slices. -/
def convertCAPOAdditionalBlockDevicesToMAPO (fldPath : field.Path)
    (capoAdditionalBlockDevices : GoSlice capov1.AdditionalBlockDevice) :
    Run (GoSlice mapiv1alpha1.AdditionalBlockDevice × field.ErrorList) := do
  let (devs, errs) ← convertCAPOAdditionalBlockDevicesLoop fldPath 0 capoAdditionalBlockDevices.toList
  return (.ofList devs, .ofList errs)

/-- Go `convertCAPOOpenStackIdentityReferenceToMAPO`. -/
def convertCAPOOpenStackIdentityReferenceToMAPO
    (capoIdentityRef : Option capov1.OpenStackIdentityReference) :
    String × Option corev1.SecretReference :=
  match capoIdentityRef with
  | none => ("", none)
  | some ref =>
    if ref.Name = "" then ("", none)
    else (ref.CloudName, some { Name := ref.Name })

/-- Go `convertCAPOImageParamToMAPO`. The first test short-circuits, so it
never dereferences a nil filter; the two statements after it dereference
`Filter` and `Filter.Name` unguarded. -/
def convertCAPOImageParamToMAPO (fldPath : field.Path) (capoImage : capov1.ImageParam) :
    Run (String × GoSlice Warning × field.ErrorList) := do
  let errors : field.ErrorList := .ofList []
  let warnings : GoSlice Warning := .ofList []
  let filterNameIsNil : Bool :=
    match capoImage.Filter with
    | none => true
    | some f => f.Name.isNone
  let errors :=
    if capoImage.ID.isSome || capoImage.ImageRef.isSome || filterNameIsNil then
      errors.push (field.Invalid fldPath (.imageParam capoImage)
        "MAPO only supports defining images by names")
    else errors
  let filter ← deref capoImage.Filter
  let warnings :=
    if !filter.Tags.isNil then
      warnings.push ⟨field.Invalid (fldPath.Child "filter" ["tags"]) (.strings filter.Tags)
        "MAPO does not support filtering image by tags; ignoring"⟩
    else warnings
  let name ← deref filter.Name
  return (name, warnings, errors)

/-- The subnet that `convertCAPOPortOptsToMAPONetwork` builds for one fixed IP.
`Subnet`, `Subnet.ID` and `Subnet.Filter` are dereferenced unguarded. -/
def convertCAPOFixedIPToMAPOSubnet (capoPort : capov1.PortOpts)
    (capoFixedIP : capov1.FixedIP) : Run mapiv1alpha1.SubnetParam := do
  let subnet ← deref capoFixedIP.Subnet
  let id ← deref subnet.ID
  let filter ← deref subnet.Filter
  return {
    UUID := id
    Filter := {
      CIDR := filter.CIDR
      Description := filter.Description
      GatewayIP := filter.GatewayIP
      IPv6AddressMode := filter.IPv6AddressMode
      IPv6RAMode := filter.IPv6RAMode
      IPVersion := filter.IPVersion
      Name := filter.Name
      NotTags := joinTags filter.NotTags
      NotTagsAny := joinTags filter.NotTagsAny
      ProjectID := filter.ProjectID
      Tags := joinTags filter.Tags
      TagsAny := joinTags filter.TagsAny }
    PortTags := capoPort.Tags }

/-- The loop of `convertCAPOPortOptsToMAPONetwork` that fills `mapoSubnets`,
one entry per fixed IP, in order. -/
def convertCAPOFixedIPsToMAPOSubnets (capoPort : capov1.PortOpts) :
    List capov1.FixedIP → Run (List mapiv1alpha1.SubnetParam)
  | [] => .ret []
  | capoFixedIP :: rest => do
    let mapoSubnet ← convertCAPOFixedIPToMAPOSubnet capoPort capoFixedIP
    let mapoSubnets ← convertCAPOFixedIPsToMAPOSubnets capoPort rest
    return mapoSubnet :: mapoSubnets

/-- The port profile map both port helpers build from a non-nil profile. -/
def convertCAPOBindingProfile (profile : capov1.BindingProfile) : GoMap :=
  let mapoPortProfile : GoMap := []
  let mapoPortProfile :=
    if profile.OVSHWOffload = some true then mapoPortProfile.set "capabilities" "switchdev"
    else mapoPortProfile
  let mapoPortProfile :=
    if profile.TrustedVF = some true then mapoPortProfile.set "trusted" "true"
    else mapoPortProfile
  mapoPortProfile

/-- Go `convertCAPOPortOptsToMAPONetwork`. `Network` is dereferenced
unguarded (the caller has tested it). Every conditional assignment to a field
of `mapoNetwork` is a field update that keeps the old value otherwise. -/
def convertCAPOPortOptsToMAPONetwork (fldPath : field.Path) (capoPort : capov1.PortOpts) :
    Run (mapiv1alpha1.NetworkParam × GoSlice Warning × field.ErrorList) := do
  let errors : field.ErrorList := .ofList []
  let warnings : GoSlice Warning := .ofList []
  let mapoNetwork : mapiv1alpha1.NetworkParam := {}
  let network ← deref capoPort.Network
  let (mapoNetwork, errors) : mapiv1alpha1.NetworkParam × field.ErrorList :=
    match network.ID with
    | some id => ({ mapoNetwork with UUID := id }, errors)
    | none =>
      match network.Filter with
      | some filter =>
        ({ mapoNetwork with
            Filter := {
              Description := filter.Description
              Name := filter.Name
              NotTags := joinTags filter.NotTags
              NotTagsAny := joinTags filter.NotTagsAny
              ProjectID := filter.ProjectID
              Tags := joinTags filter.Tags
              TagsAny := joinTags filter.TagsAny } }, errors)
      | none =>
        (mapoNetwork, errors.push (field.Invalid fldPath (.networkParam mapoNetwork)
          "A network must be referenced by a UUID or filter"))
  let mapoNetwork :=
    { mapoNetwork with
      PortSecurity :=
        match capoPort.DisablePortSecurity with
        | some disablePortSecurity => some (!disablePortSecurity)
        | none => mapoNetwork.PortSecurity }
  let mapoSubnets ← convertCAPOFixedIPsToMAPOSubnets capoPort capoPort.FixedIPs.toList
  let mapoNetwork := { mapoNetwork with Subnets := .ofList mapoSubnets }
  let mapoNetwork :=
    { mapoNetwork with
      Profile :=
        match capoPort.Profile with
        | some profile => some (convertCAPOBindingProfile profile)
        | none => mapoNetwork.Profile }
  let mapoNetwork := { mapoNetwork with PortTags := capoPort.Tags }
  let mapoNetwork :=
    { mapoNetwork with
      VNICType :=
        match capoPort.VNICType with
        | some vnicType => vnicType
        | none => mapoNetwork.VNICType }
  return (mapoNetwork, warnings, errors)

/-- The fixed-IP loop of `convertCAPOPortOptsToMAPOPort` from index `i` on: one
entry per fixed IP (the zero value where the iteration hits `continue`) and the
errors appended, in order. -/
def convertCAPOFixedIPsToMAPOFixedIPs (fldPath : field.Path) :
    Nat → List capov1.FixedIP → List mapiv1alpha1.FixedIPs × List field.Error
  | _, [] => ([], [])
  | i, capoFixedIP :: rest =>
    let (ips, errs) := convertCAPOFixedIPsToMAPOFixedIPs fldPath (i + 1) rest
    match capoFixedIP.Subnet with
    | some { ID := some id, Filter := none } =>
      ({ SubnetID := id, IPAddress := capoFixedIP.IPAddress.getD "" } :: ips, errs)
    | _ =>
      ({} :: ips,
        field.Invalid ((fldPath.Child "fixedIPs").Index i) (.fixedIP capoFixedIP)
          "MAPO only supports defining subnets via IDs" :: errs)

/-- The address-pair loop of `convertCAPOPortOptsToMAPOPort`. -/
def convertCAPOAddressPairs (pairs : List capov1.AddressPair) : List mapiv1alpha1.AddressPair :=
  pairs.map (fun capoAddressPair =>
    { IPAddress := capoAddressPair.IPAddress, MACAddress := capoAddressPair.MACAddress.getD "" })

/-- The security-group loop of `convertCAPOPortOptsToMAPOPort` from index `i`
on: the IDs kept and the errors appended, in order. -/
def convertCAPOPortSecurityGroups (fldPath : field.Path) :
    Nat → List capov1.SecurityGroupParam → List String × List field.Error
  | _, [] => ([], [])
  | i, capoSecurityGroup :: rest =>
    let (ids, errs) := convertCAPOPortSecurityGroups fldPath (i + 1) rest
    match capoSecurityGroup.ID, capoSecurityGroup.Filter with
    | some id, none => (id :: ids, errs)
    | _, _ =>
      (ids, field.Invalid ((fldPath.Child "securityGroups").Index i)
          (.securityGroupParam capoSecurityGroup)
          "MAPO only supports defining port security groups by ID" :: errs)

/-- Go `convertCAPOPortOptsToMAPOPort`. `Network` and `Network.ID` are
dereferenced unguarded when the result is first built. Every conditional
assignment to a field of `mapoPort` is a field update that keeps the old value
otherwise. -/
def convertCAPOPortOptsToMAPOPort (fldPath : field.Path) (capoPort : capov1.PortOpts) :
    Run (mapiv1alpha1.PortOpts × GoSlice Warning × field.ErrorList) := do
  let errors : field.ErrorList := .ofList []
  let warnings : GoSlice Warning := .ofList []
  let network ← deref capoPort.Network
  let networkID ← deref network.ID
  let mapoPort : mapiv1alpha1.PortOpts :=
    { FixedIPs := .ofList (List.replicate capoPort.FixedIPs.len {})
      NetworkID := networkID
      Tags := capoPort.Tags
      Trunk := capoPort.Trunk }
  let mapoPort :=
    { mapoPort with
      Description :=
        match capoPort.Description with
        | some description => description
        | none => mapoPort.Description }
  let (fixedIPs, fixedIPErrs) := convertCAPOFixedIPsToMAPOFixedIPs fldPath 0 capoPort.FixedIPs.toList
  let mapoPort := { mapoPort with FixedIPs := .ofList fixedIPs }
  let errors := errors.append fixedIPErrs
  let mapoPort :=
    { mapoPort with
      NameSuffix :=
        match capoPort.NameSuffix with
        | some nameSuffix => nameSuffix
        | none => mapoPort.NameSuffix }
  let mapoPort := { mapoPort with AdminStateUp := capoPort.AdminStateUp }
  let mapoPort :=
    { mapoPort with
      AllowedAddressPairs := .ofList (convertCAPOAddressPairs capoPort.AllowedAddressPairs.toList) }
  let mapoPort :=
    { mapoPort with
      PortSecurity :=
        match capoPort.DisablePortSecurity with
        | some disablePortSecurity => some (!disablePortSecurity)
        | none => mapoPort.PortSecurity }
  let mapoPort :=
    { mapoPort with
      MACAddress :=
        match capoPort.MACAddress with
        | some macAddress => macAddress
        | none => mapoPort.MACAddress }
  let mapoPort :=
    { mapoPort with
      Profile :=
        match capoPort.Profile with
        | some profile => some (convertCAPOBindingProfile profile)
        | none => mapoPort.Profile }
  let mapoPort :=
    { mapoPort with
      VNICType :=
        match capoPort.VNICType with
        | some vnicType => vnicType
        | none => mapoPort.VNICType }
  let errors :=
    if capoPort.HostID.isSome then
      errors.push (field.Invalid (fldPath.Child "hostID") (.stringPtr capoPort.HostID)
        "The hostID field has no equivalent in MAPO and is not supported")
    else errors
  let errors :=
    if capoPort.PropagateUplinkStatus.isSome then
      errors.push (field.Invalid (fldPath.Child "propagateUplinkStatus")
        (.boolPtr capoPort.PropagateUplinkStatus)
        "The propagateUplinkStatus field has no equivalent in MAPO and is not supported")
    else errors
  let errors :=
    if !capoPort.ValueSpecs.isNil || capoPort.ValueSpecs.len > 0 then
      errors.push (field.Invalid (fldPath.Child "valueSpecs") (.valueSpecs capoPort.ValueSpecs)
        "The valueSpecs field has no equivalent in MAPO and is not supported")
    else errors
  let (mapoSecurityGroups, securityGroupErrs) :=
    convertCAPOPortSecurityGroups fldPath 0 capoPort.SecurityGroups.toList
  let errors := errors.append securityGroupErrs
  let mapoPort :=
    { mapoPort with
      SecurityGroups :=
        if mapoSecurityGroups.length > 1 then some (.ofList mapoSecurityGroups)
        else mapoPort.SecurityGroups }
  return (mapoPort, warnings, errors)

/-- The `for i, capoPort := range capoPorts` loop of `convertCAPOPortOptsToMAPO`
from index `i` on: networks, ports, warnings and errors appended, in order. A
port goes to the network helper exactly when `Network` and `Network.Filter`
are both non-nil, and to the port helper otherwise. -/
def convertCAPOPortOptsLoop (fldPath : field.Path) :
    Nat → List capov1.PortOpts →
    Run (List mapiv1alpha1.NetworkParam × List mapiv1alpha1.PortOpts ×
      List Warning × List field.Error)
  | _, [] => .ret ([], [], [], [])
  | i, capoPort :: rest =>
    let viaNetwork : Bool :=
      match capoPort.Network with
      | some network => network.Filter.isSome
      | none => false
    if viaNetwork then do
      let (mapoNetwork, warns, errs) ← convertCAPOPortOptsToMAPONetwork (fldPath.Index i) capoPort
      let (networks, ports, warnings, errors) ← convertCAPOPortOptsLoop fldPath (i + 1) rest
      return (mapoNetwork :: networks, ports, warns.toList ++ warnings, errs.toList ++ errors)
    else do
      let (mapoPort, warns, errs) ← convertCAPOPortOptsToMAPOPort (fldPath.Index i) capoPort
      let (networks, ports, warnings, errors) ← convertCAPOPortOptsLoop fldPath (i + 1) rest
      return (networks, mapoPort :: ports, warns.toList ++ warnings, errs.toList ++ errors)

/-- Go `convertCAPOPortOptsToMAPO`. All four results start as empty non-nil
slices. -/
def convertCAPOPortOptsToMAPO (fldPath : field.Path) (capoPorts : GoSlice capov1.PortOpts) :
    Run (GoSlice mapiv1alpha1.NetworkParam × GoSlice mapiv1alpha1.PortOpts ×
      GoSlice Warning × field.ErrorList) := do
  let (networks, ports, warnings, errors) ← convertCAPOPortOptsLoop fldPath 0 capoPorts.toList
  return (.ofList networks, .ofList ports, .ofList warnings, .ofList errors)

/-- Go `convertCAPORootVolumeToMAPO`. With a non-nil availability zone the
zone name is dereferenced unguarded. -/
def convertCAPORootVolumeToMAPO (capoRootVolume : Option capov1.RootVolume) :
    Run (Option mapiv1alpha1.RootVolume) :=
  match capoRootVolume with
  | none => .ret none
  | some rootVolume => do
    let mapoRootVolume : mapiv1alpha1.RootVolume :=
      { Size := rootVolume.SizeGiB, VolumeType := rootVolume.Type_ }
    match rootVolume.AvailabilityZone with
    | some availabilityZone =>
      let name ← deref availabilityZone.Name
      return some { mapoRootVolume with Zone := name }
    | none => return some mapoRootVolume

/-- Loop body of `convertCAPOSecurityGroupstoMAPO` for the group at index `i`:
the converted group and the errors the iteration appends. -/
def convertCAPOSecurityGroup (fldPath : field.Path) (i : Nat)
    (capoSecurityGroup : capov1.SecurityGroupParam) :
    mapiv1alpha1.SecurityGroupParam × List field.Error :=
  let mapoSecurityGroup : mapiv1alpha1.SecurityGroupParam := {}
  let errs : List field.Error :=
    if capoSecurityGroup.ID.isNone && capoSecurityGroup.Filter.isNone then
      [field.Invalid (fldPath.Index i) (.securityGroupParam capoSecurityGroup)
        "A security group must be referenced by a UUID or filter"]
    else []
  let mapoSecurityGroup :=
    { mapoSecurityGroup with
      UUID :=
        match capoSecurityGroup.ID with
        | some id => id
        | none => mapoSecurityGroup.UUID }
  let mapoSecurityGroup :=
    match capoSecurityGroup.Filter with
    | some filter =>
      { mapoSecurityGroup with
        Name := filter.Name
        Filter := {
          Description := filter.Description
          ProjectID := filter.ProjectID
          NotTags := joinTags filter.NotTags
          NotTagsAny := joinTags filter.NotTagsAny
          Tags := joinTags filter.Tags
          TagsAny := joinTags filter.TagsAny } }
    | none => mapoSecurityGroup
  (mapoSecurityGroup, errs)

/-- The loop of `convertCAPOSecurityGroupstoMAPO` from index `i` on. -/
def convertCAPOSecurityGroupsLoop (fldPath : field.Path) :
    Nat → List capov1.SecurityGroupParam →
    List mapiv1alpha1.SecurityGroupParam × List field.Error
  | _, [] => ([], [])
  | i, capoSecurityGroup :: rest =>
    let (mapoSecurityGroup, errs) := convertCAPOSecurityGroup fldPath i capoSecurityGroup
    let (mapoSecurityGroups, restErrs) := convertCAPOSecurityGroupsLoop fldPath (i + 1) rest
    (mapoSecurityGroup :: mapoSecurityGroups, errs ++ restErrs)

/-- Go `convertCAPOSecurityGroupstoMAPO`. Both results start as empty non-nil
slices. -/
def convertCAPOSecurityGroupstoMAPO (fldPath : field.Path)
    (capoSecurityGroups : GoSlice capov1.SecurityGroupParam) :
    GoSlice mapiv1alpha1.SecurityGroupParam × field.ErrorList :=
  let (groups, errs) := convertCAPOSecurityGroupsLoop fldPath 0 capoSecurityGroups.toList
  (.ofList groups, .ofList errs)

/-- Go `convertCAPOServerGroupsToMAPO`. The server group pointer is
dereferenced unguarded. -/
def convertCAPOServerGroupsToMAPO (fldPath : field.Path)
    (capoServerGroup : Option capov1.ServerGroupParam) :
    Run (String × String × field.ErrorList) := do
  let errors : field.ErrorList := .ofList []
  let serverGroup ← deref capoServerGroup
  match serverGroup.ID with
  | some id => return (id, "", errors)
  | none =>
    match serverGroup.Filter with
    | some { Name := some name } => return ("", name, errors)
    | _ =>
      let errors := errors.push (field.Invalid fldPath (.serverGroupParamPtr capoServerGroup)
        "A server group must be referenced by a UUID or filter")
      return ("", "", errors)

/-- Go `convertCAPOServerMetadataToMAPO`: a non-nil map, filled in list order. -/
def convertCAPOServerMetadataToMAPO (capoServerMeta : GoSlice capov1.ServerMetadata) : GoMap :=
  capoServerMeta.toList.foldl (fun mapoServerMetadata m => mapoServerMetadata.set m.Key m.Value) []

/-- Go `handleUnsupportedOpenStackMachineFields`: its body is a TODO and it
returns an empty non-nil list for every spec. -/
def handleUnsupportedOpenStackMachineFields (_fldPath : field.Path)
    (_spec : capov1.OpenStackMachineSpec) : field.ErrorList :=
  .ofList []

/-- Go `toProviderSpec`. The receiver fields are dereferenced unguarded
(`ToMachine` tests them first). -/
def toProviderSpec (m : machineAndOpenStackMachineAndOpenStackCluster) :
    Run (Option mapiv1alpha1.OpenstackProviderSpec × GoSlice Warning × field.ErrorList) := do
  let warnings : GoSlice Warning := .nil
  let errors : field.ErrorList := .nil
  let fldPath := field.NewPath "spec"
  let openstackMachine ← deref m.openstackMachine
  let (additionalBlockDevices, errs) ←
    convertCAPOAdditionalBlockDevicesToMAPO (fldPath.Child "additionalBlockDevices")
      openstackMachine.Spec.AdditionalBlockDevices
  let errors := if !errs.isNil then errors.append errs.toList else errors
  let (cloudName, cloudsSecret) :=
    convertCAPOOpenStackIdentityReferenceToMAPO openstackMachine.Spec.IdentityRef
  let (image, warn, errs) ←
    convertCAPOImageParamToMAPO (fldPath.Child "image") openstackMachine.Spec.Image
  let errors := if !errs.isNil then errors.append errs.toList else errors
  let warnings := warnings.append warn.toList
  let (networkOpts, portOpts, warn, errs) ←
    convertCAPOPortOptsToMAPO (fldPath.Child "ports") openstackMachine.Spec.Ports
  let errors := if !errs.isNil then errors.append errs.toList else errors
  let warnings := warnings.append warn.toList
  let (securityGroups, errs) :=
    convertCAPOSecurityGroupstoMAPO (fldPath.Child "securityGroups")
      openstackMachine.Spec.SecurityGroups
  let errors := if !errs.isNil then errors.append errs.toList else errors
  let (serverGroupID, serverGroupName, errs) ←
    convertCAPOServerGroupsToMAPO (fldPath.Child "serverGroup") openstackMachine.Spec.ServerGroup
  let errors := if !errs.isNil then errors.append errs.toList else errors
  let machine ← deref m.machine
  let availabilityZone := machine.Spec.FailureDomain.getD ""
  let flavor := openstackMachine.Spec.Flavor.getD ""
  let userData : Option corev1.SecretReference :=
    match machine.Spec.Bootstrap.DataSecretName with
    | some name => some { Name := name }
    | none => none
  let rootVolume ← convertCAPORootVolumeToMAPO openstackMachine.Spec.RootVolume
  let mapoProviderConfig : mapiv1alpha1.OpenstackProviderSpec :=
    { TypeMeta := { Kind := "OpenstackProviderSpec", APIVersion := "machine.openshift.io/v1alpha1" }
      AdditionalBlockDevices := additionalBlockDevices
      CloudName := cloudName
      CloudsSecret := cloudsSecret
      ConfigDrive := openstackMachine.Spec.ConfigDrive
      AvailabilityZone := availabilityZone
      Flavor := flavor
      Image := image
      KeyName := openstackMachine.Spec.SSHKeyName
      Networks := networkOpts
      Ports := portOpts
      RootVolume := rootVolume
      SecurityGroups := securityGroups
      ServerGroupID := serverGroupID
      ServerGroupName := serverGroupName
      ServerMetadata := some (convertCAPOServerMetadataToMAPO openstackMachine.Spec.ServerMetadata)
      Tags := openstackMachine.Spec.Tags
      Trunk := openstackMachine.Spec.Trunk
      UserDataSecret := userData }
  let errors :=
    if openstackMachine.Spec.FlavorID.isSome then
      errors.push (field.Invalid (fldPath.Child "flavorID")
        (.stringPtr openstackMachine.Spec.FlavorID)
        "MAPO only supports defining flavors via names")
    else errors
  let errors := errors.append
    (handleUnsupportedOpenStackMachineFields fldPath openstackMachine.Spec).toList
  if errors.len > 0 then
    return (none, warnings, errors)
  return (some mapoProviderConfig, warnings, .nil)

/-- Go `openstackRawExtensionFromProviderSpec`: the raw extension pointer and
the error. -/
def openstackRawExtensionFromProviderSpec (ext : Externals)
    (spec : Option mapiv1alpha1.OpenstackProviderSpec) :
    Option mapiv1.RawExtension × Option GoError :=
  match spec with
  | none => (some {}, none)
  | some spec =>
    match ext.jsonMarshal spec with
    | .error err => (none, some (.wrap "error marshalling providerSpec" err))
    | .ok rawBytes => (some { Raw := rawBytes }, none)

/-- Go `ToMachine`: the machine pointer, the warnings and the error. -/
def ToMachine (ext : Externals) (m : machineAndOpenStackMachineAndOpenStackCluster) :
    Run (Option mapiv1.Machine × GoSlice Warning × Option GoError) := do
  if m.machine.isNone || m.openstackMachine.isNone || m.openstackCluster.isNone then
    return (none, .nil, some errCAPIMachineOpenStackMachineOpenStackClusterCannotBeNil)
  let errors : field.ErrorList := .nil
  let warnings : GoSlice Warning := .nil
  let (mapoSpec, warn, err) ← toProviderSpec m
  let errors := if !err.isNil then errors.append err.toList else errors
  match openstackRawExtensionFromProviderSpec ext mapoSpec with
  | (_, some errRaw) =>
    return (none, .nil,
      some (.wrap "unable to convert OpenStack providerSpec to raw extension" errRaw))
  | (openstackRawExt, none) =>
    let warnings := warnings.append warn.toList
    let machine ← deref m.machine
    let (mapiMachine, err) := ext.fromCAPIMachineToMAPIMachine machine
    let errors := if !err.isNil then errors.append err.toList else errors
    let mapiMachine ← deref mapiMachine
    let mapiMachine : mapiv1.Machine :=
      { mapiMachine with
        Spec := { mapiMachine.Spec with ProviderSpec := { Value := openstackRawExt } } }
    if errors.len > 0 then
      return (none, warnings, field.ErrorList.ToAggregate errors)
    return (some mapiMachine, warnings, none)

/-! ## The machine-set conversion (`openstack.go`) -/

/-- A Go `error` value returned by `ToMachineSet`: an error of the package, or
the value of `utilerrors.NewAggregate` on a list of errors. -/
inductive SetError where
  /-- An error value of the package, returned as it is. -/
  | plain (err : GoError)
  /-- Value of `utilerrors.NewAggregate(errs)` on a non-empty list. -/
  | aggregate (errs : List GoError)
  deriving DecidableEq, Repr

/-- Go `utilerrors.NewAggregate`: nil for an empty list. (The list handed over
by `ToMachineSet` holds no nil error, so nothing is filtered out.) -/
def NewAggregate (errlist : GoSlice GoError) : Option SetError :=
  if errlist.len = 0 then none else some (.aggregate errlist.toList)

/-- The externals of `ToMachine`, and the provider-independent
`fromCAPIMachineSetToMAPIMachineSet` of the package, which `ToMachineSet` calls
and which is not part of `openstack.go`. -/
structure MachineSetExternals extends Externals where
  /-- The machine-set pointer and the error the function returns. -/
  fromCAPIMachineSetToMAPIMachineSet :
    capiv1.MachineSet → Option mapiv1.MachineSet × Option GoError

/-- Go struct `machineSetAndOpenStackMachineTemplateAndOpenStackCluster`; the
last field is the embedded pointer to the machine converter. -/
structure machineSetAndOpenStackMachineTemplateAndOpenStackCluster where
  machineSet : Option capiv1.MachineSet
  template : Option capov1.OpenStackMachineTemplate
  openstackCluster : Option capov1.OpenStackCluster
  machineAndOpenStackMachineAndOpenStackCluster :
    Option Capi2Mapi.machineAndOpenStackMachineAndOpenStackCluster
  deriving DecidableEq, Repr

/-- Go `FromMachineSetAndOpenStackMachineTemplateAndOpenStackCluster`. Building
the embedded machine converter reads `ms.Spec.Template` and
`mts.Spec.Template.Spec`, so both pointers are dereferenced unguarded. -/
def FromMachineSetAndOpenStackMachineTemplateAndOpenStackCluster
    (ms : Option capiv1.MachineSet) (mts : Option capov1.OpenStackMachineTemplate)
    (ac : Option capov1.OpenStackCluster) :
    Run machineSetAndOpenStackMachineTemplateAndOpenStackCluster := do
  let machineSet ← deref ms
  let template ← deref mts
  return {
    machineSet := ms
    template := mts
    openstackCluster := ac
    machineAndOpenStackMachineAndOpenStackCluster := some {
      machine := some {
        ObjectMeta := {
          Labels := machineSet.Spec.Template.ObjectMeta.Labels
          Annotations := machineSet.Spec.Template.ObjectMeta.Annotations }
        Spec := machineSet.Spec.Template.Spec }
      openstackMachine := some { Spec := template.Spec.Template.Spec }
      openstackCluster := ac } }

/-- Go `ToMachineSet`: the machine-set pointer, the warnings and the error. -/
def ToMachineSet (ext : MachineSetExternals)
    (m : machineSetAndOpenStackMachineTemplateAndOpenStackCluster) :
    Run (Option mapiv1.MachineSet × GoSlice Warning × Option SetError) := do
  if m.machineSet.isNone || m.template.isNone || m.openstackCluster.isNone ||
      m.machineAndOpenStackMachineAndOpenStackCluster.isNone then
    return (none, .nil,
      some (.plain errCAPIMachineSetOpenStackMachineTemplateOpenStackClusterCannotBeNil))
  let errors : GoSlice GoError := .nil
  let warnings : GoSlice Warning := .nil
  let machineConverter ← deref m.machineAndOpenStackMachineAndOpenStackCluster
  let (mapoMachine, warn, err) ← ToMachine ext.toExternals machineConverter
  let errors :=
    match err with
    | some e => errors.push e
    | none => errors
  let warnings := warnings.append warn.toList
  let machineSet ← deref m.machineSet
  let (mapiMachineSet, err) := ext.fromCAPIMachineSetToMAPIMachineSet machineSet
  let errors :=
    match err with
    | some e => errors.push e
    | none => errors
  if errors.len > 0 then
    return (none, warnings, NewAggregate errors)
  let mapiMachineSet ← deref mapiMachineSet
  let mapoMachine ← deref mapoMachine
  let mapiMachineSet : mapiv1.MachineSet :=
    { mapiMachineSet with
      Spec := { mapiMachineSet.Spec with
        Template := { mapiMachineSet.Spec.Template with Spec := mapoMachine.Spec } } }
  let mapiMachineSet : mapiv1.MachineSet :=
    { mapiMachineSet with
      Spec := { mapiMachineSet.Spec with
        Template := { mapiMachineSet.Spec.Template with
          ObjectMeta := { mapiMachineSet.Spec.Template.ObjectMeta with
            Annotations := mapoMachine.ObjectMeta.Annotations } } } }
  let mapiMachineSet : mapiv1.MachineSet :=
    { mapiMachineSet with
      Spec := { mapiMachineSet.Spec with
        Template := { mapiMachineSet.Spec.Template with
          ObjectMeta := { mapiMachineSet.Spec.Template.ObjectMeta with
            Labels := mapoMachine.ObjectMeta.Labels } } } }
  return (some mapiMachineSet, warnings, none)

/-! ## Sample inputs -/

/-- Stand-ins for the code outside `openstack.go`, used to run `ToMachine` on
concrete inputs: serialisation always succeeds and the generic machine
conversion copies the metadata and reports no error. -/
def sampleExternals : Externals :=
  { jsonMarshal := fun _ => .ok (.ofList [123, 125])
    fromCAPIMachineToMAPIMachine := fun machine =>
      (some { ObjectMeta := machine.ObjectMeta, Spec := { ProviderID := machine.Spec.ProviderID } },
        .ofList []) }

/-- An OpenStack machine that converts cleanly except for its `FlavorID`. -/
def sampleOpenStackMachineFlavorID : capov1.OpenStackMachine :=
  { Spec := {
      FlavorID := some "flavor-uuid"
      Image := { Filter := some { Name := some "rhcos" } }
      ServerGroup := some { ID := some "server-group-uuid" } } }

/-- An OpenStack machine with errors in four fields: an image given by ID, a
security group and a server group with neither ID nor filter, and a `FlavorID`. -/
def sampleOpenStackMachineManyErrors : capov1.OpenStackMachine :=
  { Spec := {
      FlavorID := some "flavor-uuid"
      Image := { ID := some "image-uuid", Filter := some { Name := some "rhcos" } }
      SecurityGroups := .ofList [{}]
      ServerGroup := some {} } }

/-- An OpenStack machine that converts without error. -/
def sampleOpenStackMachineValid : capov1.OpenStackMachine :=
  { Spec := {
      Flavor := some "m1.large"
      Image := { Filter := some { Name := some "rhcos" } }
      ServerGroup := some { ID := some "server-group-uuid" } } }

/-- A port whose network carries both an ID and a filter, with one fixed IP
whose subnet carries both an ID and a filter, and port security disabled. -/
def samplePortIDAndFilter : capov1.PortOpts :=
  { Network := some { ID := some "net-1", Filter := some { Name := "net-a" } }
    FixedIPs := .ofList [{ Subnet := some { ID := some "subnet-1", Filter := some { Name := "sub-a" } } }]
    DisablePortSecurity := some true }

/-- The port of the concrete scenario: network by filter (name `net-a`, no tag
filters), one fixed IP whose subnet is given by identifier `subnet-123` only. -/
def scenarioPort : capov1.PortOpts :=
  { Network := some { Filter := some { Name := "net-a" } }
    FixedIPs := .ofList [{ Subnet := some { ID := some "subnet-123" } }] }

/-- A port whose `Network` is set but has neither an ID nor a filter. -/
def bareNetworkPort : capov1.PortOpts := { Network := some {} }

/-- A machine-level security group that carries both an ID and a filter. -/
def sampleSecurityGroupIDAndFilter : capov1.SecurityGroupParam :=
  { ID := some "sg-uuid", Filter := some { Name := "default", Tags := .ofList ["a", "b"] } }

/-- A port that references its network by ID and has exactly one security
group, referenced by ID only. -/
def samplePortOneSecurityGroup : capov1.PortOpts :=
  { Network := some { ID := some "net-1" }
    SecurityGroups := .ofList [{ ID := some "sg-1" }] }

/-- An OpenStack machine spec that converts without error and has
`FloatingIPPoolRef` set, a field the conversion has no equivalent for. -/
def sampleSpecFloatingIPPool : capov1.OpenStackMachineSpec :=
  { Image := { Filter := some { Name := some "rhcos" } }
    ServerGroup := some { ID := some "server-group-uuid" }
    FloatingIPPoolRef := some { Kind := "OpenStackFloatingIPPool", Name := "pool" } }

/-- An OpenStack machine that converts without error and whose image filter
carries tags, which gives one warning. -/
def sampleOpenStackMachineImageTags : capov1.OpenStackMachine :=
  { Spec := {
      Image := { Filter := some { Name := some "rhcos", Tags := .ofList ["stable"] } }
      ServerGroup := some { ID := some "server-group-uuid" } } }

/-- The same machine with a `FlavorID`, which gives one warning and one error. -/
def sampleOpenStackMachineImageTagsFlavorID : capov1.OpenStackMachine :=
  { Spec := {
      FlavorID := some "flavor-uuid"
      Image := { Filter := some { Name := some "rhcos", Tags := .ofList ["stable"] } }
      ServerGroup := some { ID := some "server-group-uuid" } } }

/-- The warning of the two machines above. -/
def sampleImageTagsWarning : Warning :=
  ⟨field.Invalid ((field.NewPath "spec").Child "image" |>.Child "filter" ["tags"])
    (.strings (.ofList ["stable"])) "MAPO does not support filtering image by tags; ignoring"⟩

/-- Stand-ins for the code outside `openstack.go` that `ToMachineSet` calls: the
generic machine-set conversion copies metadata, replicas and selector and
reports no error. -/
def sampleMachineSetExternals : MachineSetExternals :=
  { toExternals := sampleExternals
    fromCAPIMachineSetToMAPIMachineSet := fun machineSet =>
      (some { ObjectMeta := machineSet.ObjectMeta
              Spec := { Replicas := machineSet.Spec.Replicas
                        Selector := machineSet.Spec.Selector } }, none) }

/-- Stand-ins in which the generic machine-set conversion fails. -/
def failingMachineSetExternals : MachineSetExternals :=
  { toExternals := sampleExternals
    fromCAPIMachineSetToMAPIMachineSet := fun _ =>
      (none, some (.library "machine set conversion failed")) }

/-- A machine set with three replicas, a labelled template and a failure domain. -/
def sampleMachineSet : capiv1.MachineSet :=
  { ObjectMeta := { Name := "workers" }
    Spec := {
      Replicas := some 3
      Template := {
        ObjectMeta := { Labels := some [("role", "worker")] }
        Spec := { FailureDomain := some "az1" } } } }

/-- A machine template that converts without error. -/
def sampleMachineTemplateValid : capov1.OpenStackMachineTemplate :=
  { Spec := { Template := { Spec := sampleOpenStackMachineValid.Spec } } }

/-- A machine template whose `FlavorID` makes the machine conversion fail. -/
def sampleMachineTemplateFlavorID : capov1.OpenStackMachineTemplate :=
  { Spec := { Template := { Spec := sampleOpenStackMachineFlavorID.Spec } } }

/-- The machine converter that the machine-set constructor builds from
`sampleMachineSet` and `sampleMachineTemplateFlavorID`. -/
def sampleMachineConverterFlavorID : machineAndOpenStackMachineAndOpenStackCluster :=
  { machine := some {
      ObjectMeta := { Labels := some [("role", "worker")] }
      Spec := { FailureDomain := some "az1" } }
    openstackMachine := some sampleOpenStackMachineFlavorID
    openstackCluster := some {} }

/-- The machine-set converter that the constructor builds from `sampleMachineSet`
and `sampleMachineTemplateFlavorID`. -/
def sampleMachineSetConverterFlavorID :
    machineSetAndOpenStackMachineTemplateAndOpenStackCluster :=
  { machineSet := some sampleMachineSet
    template := some sampleMachineTemplateFlavorID
    openstackCluster := some {}
    machineAndOpenStackMachineAndOpenStackCluster := some sampleMachineConverterFlavorID }

/-! ## Splitting of joined tags -/

/-- Model of Go `strings.Split(s, sep)` for a one-character separator, on the
characters of `s`: the pieces between the separators, in order (one empty piece
for the empty string). -/
def splitOnChar (sep : Char) : List Char → List (List Char)
  | [] => [[]]
  | c :: cs =>
    if c = sep then [] :: splitOnChar sep cs
    else
      match splitOnChar sep cs with
      | [] => [[c]]
      | piece :: pieces => (c :: piece) :: pieces

/-- Model of Go `strings.Split(s, sep)` for a one-character separator. -/
def stringsSplit (s : String) (sep : Char) : List String :=
  (splitOnChar sep s.data).map String.mk

/-! ## Further sample inputs -/

/-- An image referenced by ID, with no filter. -/
def sampleImageByID : capov1.ImageParam := { ID := some "image-uuid" }

/-- An image referenced by name, with a non-nil tag list. -/
def sampleImageByNameWithTags : capov1.ImageParam :=
  { Filter := some { Name := some "rhcos", Tags := .ofList ["stable"] } }

/-- An image referenced by name, with a nil tag list. -/
def sampleImageByName : capov1.ImageParam := { Filter := some { Name := some "rhcos" } }

/-- A port that references its network by filter and has `HostID` set. -/
def samplePortFilterHostID : capov1.PortOpts :=
  { Network := some { Filter := some { Name := "net-a" } }, HostID := some "host-1" }

/-- A port that references its network by ID and has `HostID` set. -/
def samplePortIDHostID : capov1.PortOpts :=
  { Network := some { ID := some "net-1" }, HostID := some "host-1" }

/-- A port that references its network by ID and has one value spec. -/
def samplePortValueSpecs : capov1.PortOpts :=
  { Network := some { ID := some "net-1" }
    ValueSpecs := .ofList [{ Name := "spec", Key := "key", Value := "value" }] }

/-- Three additional block devices: a local one, one of type Volume without a
volume, and one of type Volume with a named availability zone. -/
def sampleBlockDevices : List capov1.AdditionalBlockDevice :=
  [ { Name := "scratch", SizeGiB := 10, Storage := { Type_ := capov1.LocalBlockDevice } },
    { Name := "broken", SizeGiB := 20, Storage := { Type_ := capov1.VolumeBlockDevice } },
    { Name := "data", SizeGiB := 30
      Storage := {
        Type_ := capov1.VolumeBlockDevice
        Volume := some {
          Type_ := "ssd"
          AvailabilityZone := some { From := capov1.VolumeAZFromName, Name := some "az1" } } } } ]

/-- A block device of type Volume whose availability zone is set, with source
`Name`, but carries no name. -/
def sampleBlockDeviceNamelessZone : capov1.AdditionalBlockDevice :=
  { Name := "data", SizeGiB := 30
    Storage := {
      Type_ := capov1.VolumeBlockDevice
      Volume := some { AvailabilityZone := some { From := capov1.VolumeAZFromName } } } }

/-- A port by network ID with three fixed IPs: a subnet by ID with an address, no
subnet at all, and a subnet by both ID and filter. -/
def samplePortFixedIPs : capov1.PortOpts :=
  { Network := some { ID := some "net-1" }
    FixedIPs := .ofList [
      { Subnet := some { ID := some "subnet-1" }, IPAddress := some "10.0.0.5" },
      {},
      { Subnet := some { ID := some "subnet-2", Filter := some { Name := "sub-b" } } } ] }

/-- An OpenStack machine that is valid except that it has no server group. -/
def sampleOpenStackMachineNoServerGroup : capov1.OpenStackMachine :=
  { Spec := {
      Flavor := some "m1.large"
      Image := { Filter := some { Name := some "rhcos" } } } }

/-- A root volume whose availability zone is taken from the machine, so that it
carries no name. -/
def sampleRootVolumeMachineZone : capov1.RootVolume :=
  { SizeGiB := 10, Type_ := "ssd", AvailabilityZone := some { From := "Machine" } }

/-- A machine with a failure domain and a bootstrap data secret. -/
def sampleMachineCopied : capiv1.Machine :=
  { Spec := { FailureDomain := some "az1", Bootstrap := { DataSecretName := some "user-data" } } }

/-- An OpenStack machine with every directly copied field set. -/
def sampleOpenStackMachineCopied : capov1.OpenStackMachine :=
  { Spec := {
      Flavor := some "m1.large"
      Image := { Filter := some { Name := some "rhcos" } }
      SSHKeyName := "key"
      Trunk := true
      Tags := .ofList ["a", "b"]
      ConfigDrive := some true
      ServerGroup := some { ID := some "server-group-uuid" } } }

/-! ## The fuzz functions of the OpenStack provider spec (`openstack_fuzz_test.go`) -/

/-- What one call of a fuzz function draws from the random generator (Go
`fuzz.Continue`): the value of `c.Int31n(2)`, which the library takes from
`[0, 2)`, and the values that `c.Fuzz` stores in a string, in a network filter
and in a security-group filter. -/
structure fuzz.Continue where
  Int31n2 : Fin 2
  FuzzString : String
  FuzzFilter : mapiv1alpha1.Filter
  FuzzSecurityGroupFilter : mapiv1alpha1.SecurityGroupFilter
  deriving DecidableEq, Repr

/-- The `NetworkParam` fuzz function of `openstackProviderSpecFuzzerFuncs`: the
network it leaves behind, from the network it is handed. -/
def openstackProviderSpecFuzzerFuncs.networkParam (network : mapiv1alpha1.NetworkParam)
    (c : fuzz.Continue) : mapiv1alpha1.NetworkParam :=
  match c.Int31n2 with
  | 0 => { network with UUID := c.FuzzString, Filter := {} }
  | 1 =>
    let network := { network with UUID := "", Filter := c.FuzzFilter }
    { network with
      FixedIp := ""
      Filter := { network.Filter with
        DeprecatedAdminStateUp := none
        DeprecatedLimit := 0
        DeprecatedMarker := ""
        DeprecatedShared := none
        DeprecatedSortDir := ""
        DeprecatedSortKey := ""
        DeprecatedStatus := ""
        ID := ""
        TenantID := "" } }

/-- The `SecurityGroupParam` fuzz function of `openstackProviderSpecFuzzerFuncs`:
the security group it leaves behind, from the one it is handed. -/
def openstackProviderSpecFuzzerFuncs.securityGroupParam
    (securityGroup : mapiv1alpha1.SecurityGroupParam) (c : fuzz.Continue) :
    mapiv1alpha1.SecurityGroupParam :=
  match c.Int31n2 with
  | 0 => { securityGroup with UUID := c.FuzzString, Name := "", Filter := {} }
  | 1 =>
    let securityGroup :=
      { securityGroup with Name := c.FuzzString, UUID := "", Filter := c.FuzzSecurityGroupFilter }
    { securityGroup with
      Filter := { securityGroup.Filter with
        DeprecatedLimit := 0
        DeprecatedMarker := ""
        DeprecatedSortDir := ""
        DeprecatedSortKey := ""
        ID := ""
        Name := ""
        TenantID := "" } }

/-! ## The IPClaim webhook (`ipclaim_webhook.go`) -/

/-- Go `schema.GroupVersion`. -/
structure schema.GroupVersion where
  Group : String := ""
  Version : String := ""
  deriving DecidableEq, Repr

/-- Go `schema.GroupKind`. -/
structure schema.GroupKind where
  Group : String := ""
  Kind : String := ""
  deriving DecidableEq, Repr

/-- Go `schema.GroupVersion.WithKind(kind).GroupKind()`. -/
def schema.GroupVersion.WithKindGroupKind (gv : schema.GroupVersion) (kind : String) :
    schema.GroupKind :=
  { Group := gv.Group, Kind := kind }

/-- An error built by the `apierrors` package. The status the library derives
from the arguments is not modelled, so each constructor holds the arguments. -/
inductive apierrors.StatusError where
  /-- Value of `apierrors.NewInternalError(err)`. -/
  | NewInternalError (err : GoError)
  /-- Value of `apierrors.NewInvalid(qualifiedKind, name, errs)`. -/
  | NewInvalid (qualifiedKind : schema.GroupKind) (name : String) (errs : field.ErrorList)
  deriving DecidableEq, Repr

namespace ipamv1

/-- Go `ipamv1.IPClaimSpec`. -/
structure IPClaimSpec where
  Pool : corev1.ObjectReference := {}
  deriving DecidableEq, Repr

/-- Go `ipamv1.IPClaim`. -/
structure IPClaim where
  ObjectMeta : metav1.ObjectMeta := {}
  Spec : IPClaimSpec := {}
  deriving DecidableEq, Repr

/-- Go `ipamv1.GroupVersion`, the group and version that the webhook markers of
`ipclaim_webhook.go` name. -/
def GroupVersion : schema.GroupVersion := { Group := "ipam.metal3.io", Version := "v1alpha1" }

end ipamv1

/-- A Go `runtime.Object` interface value handed to the webhook: the nil
interface, a `*IPClaim` (a pointer, which can itself be nil), or a value of
another type, named by its kind. -/
inductive runtime.Object where
  | nil
  | ipClaim (p : Option ipamv1.IPClaim)
  | other (kind : String)
  deriving DecidableEq, Repr

/-- Go `(*IPClaim).ValidateUpdate`: the warnings and the error. The type
assertion `old.(*IPClaim)` succeeds exactly on a `*IPClaim`, nil or not; the
receiver is dereferenced unguarded after the test of the old object. -/
def ipamv1.IPClaim.ValidateUpdate (c : Option ipamv1.IPClaim) (old : runtime.Object) :
    Run (GoSlice String × Option apierrors.StatusError) :=
  let allErrs : field.ErrorList := .ofList []
  let (oldIPClaim, ok) : Option ipamv1.IPClaim × Bool :=
    match old with
    | .ipClaim p => (p, true)
    | _ => (none, false)
  match ok, oldIPClaim with
  | true, some oldIPClaim => do
    let c ← deref c
    let allErrs :=
      if c.Spec.Pool.Name ≠ oldIPClaim.Spec.Pool.Name then
        allErrs.push (field.Invalid (field.NewPath "spec" ["pool"])
          (.objectReference c.Spec.Pool) "cannot be modified")
      else if c.Spec.Pool.Namespace ≠ oldIPClaim.Spec.Pool.Namespace then
        allErrs.push (field.Invalid (field.NewPath "spec" ["pool"])
          (.objectReference c.Spec.Pool) "cannot be modified")
      else if c.Spec.Pool.Kind ≠ oldIPClaim.Spec.Pool.Kind then
        allErrs.push (field.Invalid (field.NewPath "spec" ["pool"])
          (.objectReference c.Spec.Pool) "cannot be modified")
      else allErrs
    if allErrs.len = 0 then
      return (.nil, none)
    return (.nil, some (.NewInvalid (ipamv1.GroupVersion.WithKindGroupKind "IPClaim")
      c.ObjectMeta.Name allErrs))
  | _, _ =>
    .ret (.nil, some (.NewInternalError (.errorsNew "unable to convert existing object")))

/-! ## Sample inputs for the port list, the fuzz functions and the webhook -/

/-- A port list in which every port can be converted: one port by network filter
whose fixed IP has a subnet with both an ID and a filter, one port by network ID,
and one more port by network filter, without fixed IPs. -/
def samplePortsConvertible : GoSlice capov1.PortOpts :=
  .ofList [
    { Network := some { Filter := some { Name := "net-a" } }
      FixedIPs := .ofList [
        { Subnet := some { ID := some "subnet-1", Filter := some { Name := "sub-a" } } }] },
    { Network := some { ID := some "net-1" }, HostID := some "host-1" },
    { Network := some { ID := some "net-2", Filter := some { Name := "net-b" } } } ]

/-- A machine-level security-group list: a group by ID, a group with neither ID
nor filter, and a group by filter with tags. -/
def sampleSecurityGroups : GoSlice capov1.SecurityGroupParam :=
  .ofList [
    { ID := some "sg-uuid" },
    {},
    { Filter := some { Name := "default", Tags := .ofList ["a", "b"], NotTags := .ofList ["c"] } } ]

/-- A port by network ID, without fixed IPs, so that both port helpers return on
it, with a binding profile that asks for hardware offload only. -/
def samplePortProfile : capov1.PortOpts :=
  { Network := some { ID := some "net-1" }
    Profile := some { OVSHWOffload := some true, TrustedVF := some false } }

/-- Server metadata in which the key `role` occurs twice. -/
def sampleServerMetadata : GoSlice capov1.ServerMetadata :=
  .ofList [
    { Key := "role", Value := "worker" },
    { Key := "zone", Value := "az1" },
    { Key := "role", Value := "infra" } ]

/-- An identity reference with a name and a cloud name. -/
def sampleIdentityRef : capov1.OpenStackIdentityReference :=
  { Name := "openstack-cloud-credentials", CloudName := "openstack" }

/-- A generator outcome that takes the filter side of every union and fills in
every field. -/
def sampleContinueFilterSide : fuzz.Continue :=
  { Int31n2 := 1
    FuzzString := "fuzzed"
    FuzzFilter := { ID := "id", Name := "net-a", TenantID := "tenant", DeprecatedLimit := 3 }
    FuzzSecurityGroupFilter := { ID := "id", Name := "default", Description := "group" } }

/-- An IP claim on the pool `pool-a`. -/
def sampleIPClaim : ipamv1.IPClaim :=
  { ObjectMeta := { Name := "claim", Namespace := "metal3" }
    Spec := { Pool := { Kind := "IPPool", Namespace := "metal3", Name := "pool-a" } } }

/-- The same IP claim with its pool reference moved to another namespace. -/
def sampleIPClaimMoved : ipamv1.IPClaim :=
  { ObjectMeta := { Name := "claim", Namespace := "metal3" }
    Spec := { Pool := { Kind := "IPPool", Namespace := "other", Name := "pool-a" } } }

/-! ## Lemmas on the runtime model -/

@[simp] theorem Run.ret_bind {α β : Type} (a : α) (f : α → Run β) :
    (Run.ret a >>= f) = f a := rfl

@[simp] theorem Run.panic_bind {α β : Type} (f : α → Run β) :
    ((Run.panic : Run α) >>= f) = Run.panic := rfl

@[simp] theorem Run.pure_eq {α : Type} (a : α) : (pure a : Run α) = Run.ret a := rfl

@[simp] theorem deref_some {α : Type} (a : α) : deref (some a) = Run.ret a := rfl

@[simp] theorem deref_none {α : Type} : deref (none : Option α) = Run.panic := rfl

theorem GoSlice.toList_append {α : Type} (s : GoSlice α) (xs : List α) :
    (s.append xs).toList = s.toList ++ xs := by
  cases xs with
  | nil => simp [GoSlice.append]
  | cons x xs => simp [GoSlice.append, GoSlice.toList]

@[simp] theorem GoSlice.toList_nil {α : Type} : (GoSlice.nil : GoSlice α).toList = [] := rfl

@[simp] theorem GoSlice.toList_ofList {α : Type} (xs : List α) :
    (GoSlice.ofList xs).toList = xs := rfl

theorem GoSlice.toList_push {α : Type} (s : GoSlice α) (x : α) :
    (s.push x).toList = s.toList ++ [x] := by
  simp [GoSlice.push, GoSlice.toList_append]

theorem GoSlice.append_guarded {α : Type} (s t : GoSlice α) :
    (if (!t.isNil) = true then s.append t.toList else s) = s.append t.toList := by
  cases t <;> simp [GoSlice.isNil, GoSlice.toList, GoSlice.append]

theorem GoSlice.toList_eq_nil_of_len {α : Type} (s : GoSlice α) (h : s.len = 0) :
    s.toList = [] := by
  simpa [GoSlice.len] using h

theorem GoSlice.eq_ofList_of_toList_cons {α : Type} (s : GoSlice α) (x : α) (xs : List α)
    (h : s.toList = x :: xs) : s = .ofList (x :: xs) := by
  cases s with
  | nil => simp at h
  | ofList ys => simpa using h

/-! ## Lemmas on `toProviderSpec` -/

/-- The error list `toProviderSpec` has accumulated before its final test. -/
theorem toProviderSpec_eq (m : machineAndOpenStackMachineAndOpenStackCluster)
    (openstackMachine : capov1.OpenStackMachine) (machine : capiv1.Machine)
    (abd : GoSlice mapiv1alpha1.AdditionalBlockDevice) (e1 : field.ErrorList)
    (image : String) (w2 : GoSlice Warning) (e2 : field.ErrorList)
    (nets : GoSlice mapiv1alpha1.NetworkParam) (ports : GoSlice mapiv1alpha1.PortOpts)
    (w3 : GoSlice Warning) (e3 : field.ErrorList)
    (sgID sgName : String) (e5 : field.ErrorList) (rv : Option mapiv1alpha1.RootVolume)
    (hosm : m.openstackMachine = some openstackMachine)
    (hmachine : m.machine = some machine)
    (h1 : convertCAPOAdditionalBlockDevicesToMAPO ((field.NewPath "spec").Child "additionalBlockDevices")
      openstackMachine.Spec.AdditionalBlockDevices = .ret (abd, e1))
    (h2 : convertCAPOImageParamToMAPO ((field.NewPath "spec").Child "image")
      openstackMachine.Spec.Image = .ret (image, w2, e2))
    (h3 : convertCAPOPortOptsToMAPO ((field.NewPath "spec").Child "ports")
      openstackMachine.Spec.Ports = .ret (nets, ports, w3, e3))
    (h5 : convertCAPOServerGroupsToMAPO ((field.NewPath "spec").Child "serverGroup")
      openstackMachine.Spec.ServerGroup = .ret (sgID, sgName, e5))
    (h6 : convertCAPORootVolumeToMAPO openstackMachine.Spec.RootVolume = .ret rv) :
    ∃ (mapoProviderConfig : mapiv1alpha1.OpenstackProviderSpec) (errors : field.ErrorList),
      errors.toList = e1.toList ++ e2.toList ++ e3.toList ++
        (convertCAPOSecurityGroupstoMAPO ((field.NewPath "spec").Child "securityGroups")
          openstackMachine.Spec.SecurityGroups).2.toList ++ e5.toList ++
        (if openstackMachine.Spec.FlavorID.isSome then
          [field.Invalid ((field.NewPath "spec").Child "flavorID")
            (.stringPtr openstackMachine.Spec.FlavorID)
            "MAPO only supports defining flavors via names"]
         else []) ++
        (handleUnsupportedOpenStackMachineFields (field.NewPath "spec")
          openstackMachine.Spec).toList ∧
      toProviderSpec m =
        .ret (if errors.len > 0 then
            (none, (GoSlice.nil.append w2.toList).append w3.toList, errors)
          else (some mapoProviderConfig, (GoSlice.nil.append w2.toList).append w3.toList, .nil)) := by
  simp only [toProviderSpec, hosm, hmachine, h1, h2, h3, h5, h6, deref_some, Run.ret_bind,
    GoSlice.append_guarded, Run.pure_eq]
  generalize hbase : ((((GoSlice.nil.append e1.toList).append e2.toList).append e3.toList).append
    (convertCAPOSecurityGroupstoMAPO ((field.NewPath "spec").Child "securityGroups")
      openstackMachine.Spec.SecurityGroups).2.toList).append e5.toList = base
  have hbaseList : base.toList = e1.toList ++ e2.toList ++ e3.toList ++
      (convertCAPOSecurityGroupstoMAPO ((field.NewPath "spec").Child "securityGroups")
        openstackMachine.Spec.SecurityGroups).2.toList ++ e5.toList := by
    rw [← hbase]
    simp only [GoSlice.toList_append, GoSlice.toList_nil, List.nil_append]
  generalize herrs : (if openstackMachine.Spec.FlavorID.isSome = true then
      base.push (field.Invalid ((field.NewPath "spec").Child "flavorID")
        (.stringPtr openstackMachine.Spec.FlavorID)
        "MAPO only supports defining flavors via names")
    else base).append (handleUnsupportedOpenStackMachineFields (field.NewPath "spec")
      openstackMachine.Spec).toList = errors
  have herrsList : errors.toList = base.toList ++
      (if openstackMachine.Spec.FlavorID.isSome then
        [field.Invalid ((field.NewPath "spec").Child "flavorID")
          (.stringPtr openstackMachine.Spec.FlavorID)
          "MAPO only supports defining flavors via names"]
       else []) ++
      (handleUnsupportedOpenStackMachineFields (field.NewPath "spec")
        openstackMachine.Spec).toList := by
    rw [← herrs]
    split <;> simp only [GoSlice.toList_append, GoSlice.toList_push, List.append_nil]
  rw [hbaseList] at herrsList
  by_cases hlen : errors.len > 0
  · exact ⟨{}, errors, herrsList, by simp [hlen]⟩
  · exact ⟨_, errors, herrsList, by simp only [hlen, if_false]; rfl⟩

/-- Whenever `toProviderSpec` returns, every conversion it runs has returned. -/
theorem toProviderSpec_ret_inv (m : machineAndOpenStackMachineAndOpenStackCluster)
    (r : Option mapiv1alpha1.OpenstackProviderSpec × GoSlice Warning × field.ErrorList)
    (h : toProviderSpec m = .ret r) :
    ∃ openstackMachine machine abd e1 image w2 e2 nets ports w3 e3 sgID sgName e5 rv,
      m.openstackMachine = some openstackMachine ∧ m.machine = some machine ∧
      convertCAPOAdditionalBlockDevicesToMAPO
        ((field.NewPath "spec").Child "additionalBlockDevices")
        openstackMachine.Spec.AdditionalBlockDevices = .ret (abd, e1) ∧
      convertCAPOImageParamToMAPO ((field.NewPath "spec").Child "image")
        openstackMachine.Spec.Image = .ret (image, w2, e2) ∧
      convertCAPOPortOptsToMAPO ((field.NewPath "spec").Child "ports")
        openstackMachine.Spec.Ports = .ret (nets, ports, w3, e3) ∧
      convertCAPOServerGroupsToMAPO ((field.NewPath "spec").Child "serverGroup")
        openstackMachine.Spec.ServerGroup = .ret (sgID, sgName, e5) ∧
      convertCAPORootVolumeToMAPO openstackMachine.Spec.RootVolume = .ret rv := by
  cases hosm : m.openstackMachine with
  | none => simp [toProviderSpec, hosm] at h
  | some openstackMachine =>
  cases h1 : convertCAPOAdditionalBlockDevicesToMAPO
      ((field.NewPath "spec").Child "additionalBlockDevices")
      openstackMachine.Spec.AdditionalBlockDevices with
  | panic => simp [toProviderSpec, hosm, h1] at h
  | ret r1 =>
  cases h2 : convertCAPOImageParamToMAPO ((field.NewPath "spec").Child "image")
      openstackMachine.Spec.Image with
  | panic => simp [toProviderSpec, hosm, h1, h2] at h
  | ret r2 =>
  cases h3 : convertCAPOPortOptsToMAPO ((field.NewPath "spec").Child "ports")
      openstackMachine.Spec.Ports with
  | panic => simp [toProviderSpec, hosm, h1, h2, h3] at h
  | ret r3 =>
  cases h5 : convertCAPOServerGroupsToMAPO ((field.NewPath "spec").Child "serverGroup")
      openstackMachine.Spec.ServerGroup with
  | panic => simp [toProviderSpec, hosm, h1, h2, h3, h5] at h
  | ret r5 =>
  cases hmachine : m.machine with
  | none => simp [toProviderSpec, hosm, h1, h2, h3, h5, hmachine] at h
  | some machine =>
  cases h6 : convertCAPORootVolumeToMAPO openstackMachine.Spec.RootVolume with
  | panic => simp [toProviderSpec, hosm, h1, h2, h3, h5, hmachine, h6] at h
  | ret rv =>
  exact ⟨openstackMachine, machine, r1.1, r1.2, r2.1, r2.2.1, r2.2.2, r3.1, r3.2.1, r3.2.2.1,
    r3.2.2.2, r5.1, r5.2.1, r5.2.2, rv, rfl, rfl, h1, h2, h3, h5, h6⟩

/-! ## Lemmas on the port conversion -/

/-- The subnet loop of the network helper returns when every fixed IP has a
subnet with both an ID and a filter. -/
theorem convertCAPOFixedIPsToMAPOSubnets_returns (capoPort : capov1.PortOpts)
    (fips : List capov1.FixedIP)
    (h : ∀ fip ∈ fips, (fip.Subnet.bind (·.ID)).isSome = true ∧
      (fip.Subnet.bind (·.Filter)).isSome = true) :
    ∃ subnets, convertCAPOFixedIPsToMAPOSubnets capoPort fips = .ret subnets := by
  induction fips with
  | nil => exact ⟨[], rfl⟩
  | cons fip rest ih =>
    obtain ⟨hid, hfilter⟩ := h fip (List.mem_cons_self _ _)
    obtain ⟨subnets, hrest⟩ := ih (fun f hf => h f (List.mem_cons_of_mem _ hf))
    cases hs : fip.Subnet with
    | none => simp [hs] at hid
    | some subnet =>
      rw [hs] at hid hfilter
      cases hi : subnet.ID with
      | none => simp [hi] at hid
      | some sid =>
        cases hf : subnet.Filter with
        | none => simp [hf] at hfilter
        | some sf =>
          simp [convertCAPOFixedIPsToMAPOSubnets, convertCAPOFixedIPToMAPOSubnet, hs, hi, hf, hrest]

/-- With `Network.ID` set, the network helper returns a `NetworkParam` with that
UUID and the empty filter, and neither warnings nor errors. -/
theorem network_helper_with_id (capoPort : capov1.PortOpts)
    (id : String) (filter : Option capov1.NetworkFilter)
    (hnet : capoPort.Network = some { ID := some id, Filter := filter })
    (hfix : ∀ fip ∈ capoPort.FixedIPs.toList,
      (fip.Subnet.bind (·.ID)).isSome = true ∧ (fip.Subnet.bind (·.Filter)).isSome = true) :
    ∃ mapoNetwork, mapoNetwork.UUID = id ∧ mapoNetwork.Filter = {} ∧
      ∀ p, convertCAPOPortOptsToMAPONetwork p capoPort = .ret (mapoNetwork, .ofList [], .ofList []) := by
  obtain ⟨subnets, hsub⟩ := convertCAPOFixedIPsToMAPOSubnets_returns capoPort _ hfix
  simp only [convertCAPOPortOptsToMAPONetwork, hnet, hsub]
  simp
  exact ⟨_, ⟨rfl, rfl, fun _ => rfl⟩⟩

/-- A port whose `Network` has neither ID nor filter makes the loop panic,
wherever it stands in the list. -/
theorem convertCAPOPortOptsLoop_bare_network (fldPath : field.Path)
    (capoPort : capov1.PortOpts)
    (h : capoPort.Network = some { ID := none, Filter := none })
    (before after : List capov1.PortOpts) (i : Nat) :
    convertCAPOPortOptsLoop fldPath i (before ++ capoPort :: after) = .panic := by
  induction before generalizing i with
  | nil =>
    simp [convertCAPOPortOptsLoop, h, convertCAPOPortOptsToMAPOPort]
  | cons p rest ih =>
    simp only [List.cons_append, convertCAPOPortOptsLoop]
    split
    · cases convertCAPOPortOptsToMAPONetwork (fldPath.Index i) p <;> simp [ih]
    · cases convertCAPOPortOptsToMAPOPort (fldPath.Index i) p <;> simp [ih]

/-! ## Claims -/

/-- Claim C1: when the Machine, the OpenStackMachine or the OpenStackCluster is
nil, `ToMachine` returns a nil machine, nil warnings and the sentinel error
`errCAPIMachineOpenStackMachineOpenStackClusterCannotBeNil`; it does not panic,
whatever the other two inputs hold. -/
theorem ToMachine_nil_input_sentinel (ext : Externals) (m : Option capiv1.Machine)
    (am : Option capov1.OpenStackMachine) (ac : Option capov1.OpenStackCluster)
    (h : m = none ∨ am = none ∨ ac = none) :
    ToMachine ext (FromMachineAndOpenStackMachineAndOpenStackCluster m am ac) =
      .ret (none, .nil, some errCAPIMachineOpenStackMachineOpenStackClusterCannotBeNil) := by
  rcases h with h | h | h <;> subst h <;>
    simp [ToMachine, FromMachineAndOpenStackMachineAndOpenStackCluster]

/-- Witness for C1: each of the three positions nil in turn. -/
theorem ToMachine_nil_input_sentinel_witness :
    ToMachine sampleExternals
        (FromMachineAndOpenStackMachineAndOpenStackCluster none (some {}) (some {})) =
      .ret (none, .nil, some errCAPIMachineOpenStackMachineOpenStackClusterCannotBeNil) ∧
    ToMachine sampleExternals
        (FromMachineAndOpenStackMachineAndOpenStackCluster (some {}) none (some {})) =
      .ret (none, .nil, some errCAPIMachineOpenStackMachineOpenStackClusterCannotBeNil) ∧
    ToMachine sampleExternals
        (FromMachineAndOpenStackMachineAndOpenStackCluster (some {}) (some {}) none) =
      .ret (none, .nil, some errCAPIMachineOpenStackMachineOpenStackClusterCannotBeNil) :=
  ⟨ToMachine_nil_input_sentinel _ _ _ _ (Or.inl rfl),
   ToMachine_nil_input_sentinel _ _ _ _ (Or.inr (Or.inl rfl)),
   ToMachine_nil_input_sentinel _ _ _ _ (Or.inr (Or.inr rfl))⟩

/-- Claim C2: when the other conversions of `toProviderSpec` return without
errors and `FlavorID` is set, `toProviderSpec` returns a nil provider spec and
exactly one error, an Invalid error at `spec.flavorID`. -/
theorem toProviderSpec_flavorID_rejected (m : machineAndOpenStackMachineAndOpenStackCluster)
    (openstackMachine : capov1.OpenStackMachine) (machine : capiv1.Machine) (flavorID : String)
    (abd : GoSlice mapiv1alpha1.AdditionalBlockDevice) (e1 : field.ErrorList)
    (image : String) (w2 : GoSlice Warning) (e2 : field.ErrorList)
    (nets : GoSlice mapiv1alpha1.NetworkParam) (ports : GoSlice mapiv1alpha1.PortOpts)
    (w3 : GoSlice Warning) (e3 : field.ErrorList)
    (sgID sgName : String) (e5 : field.ErrorList) (rv : Option mapiv1alpha1.RootVolume)
    (hosm : m.openstackMachine = some openstackMachine)
    (hmachine : m.machine = some machine)
    (hflavor : openstackMachine.Spec.FlavorID = some flavorID)
    (h1 : convertCAPOAdditionalBlockDevicesToMAPO
      ((field.NewPath "spec").Child "additionalBlockDevices")
      openstackMachine.Spec.AdditionalBlockDevices = .ret (abd, e1))
    (h2 : convertCAPOImageParamToMAPO ((field.NewPath "spec").Child "image")
      openstackMachine.Spec.Image = .ret (image, w2, e2))
    (h3 : convertCAPOPortOptsToMAPO ((field.NewPath "spec").Child "ports")
      openstackMachine.Spec.Ports = .ret (nets, ports, w3, e3))
    (h5 : convertCAPOServerGroupsToMAPO ((field.NewPath "spec").Child "serverGroup")
      openstackMachine.Spec.ServerGroup = .ret (sgID, sgName, e5))
    (h6 : convertCAPORootVolumeToMAPO openstackMachine.Spec.RootVolume = .ret rv)
    (he1 : e1.len = 0) (he2 : e2.len = 0) (he3 : e3.len = 0)
    (he4 : (convertCAPOSecurityGroupstoMAPO ((field.NewPath "spec").Child "securityGroups")
      openstackMachine.Spec.SecurityGroups).2.len = 0)
    (he5 : e5.len = 0) :
    toProviderSpec m =
      .ret (none, (GoSlice.nil.append w2.toList).append w3.toList,
        .ofList [{ Type_ := .ErrorTypeInvalid
                   Field := "spec.flavorID"
                   BadValue := .stringPtr (some flavorID)
                   Detail := "MAPO only supports defining flavors via names" }]) := by
  obtain ⟨cfg, errs, herrs, heq⟩ := toProviderSpec_eq m openstackMachine machine abd e1 image w2
    e2 nets ports w3 e3 sgID sgName e5 rv hosm hmachine h1 h2 h3 h5 h6
  rw [GoSlice.toList_eq_nil_of_len _ he1, GoSlice.toList_eq_nil_of_len _ he2,
    GoSlice.toList_eq_nil_of_len _ he3, GoSlice.toList_eq_nil_of_len _ he4,
    GoSlice.toList_eq_nil_of_len _ he5, hflavor] at herrs
  simp only [handleUnsupportedOpenStackMachineFields, Option.isSome_some, if_true,
    GoSlice.toList_ofList, List.nil_append, List.append_nil] at herrs
  have hs := GoSlice.eq_ofList_of_toList_cons _ _ _ herrs
  subst hs
  rw [heq]
  rfl

/-- Witness for C2: a machine that is clean except for its `FlavorID`. -/
theorem toProviderSpec_flavorID_rejected_witness :
    toProviderSpec (FromMachineAndOpenStackMachineAndOpenStackCluster (some {})
        (some sampleOpenStackMachineFlavorID) (some {})) =
      .ret (none, .nil,
        .ofList [{ Type_ := .ErrorTypeInvalid
                   Field := "spec.flavorID"
                   BadValue := .stringPtr (some "flavor-uuid")
                   Detail := "MAPO only supports defining flavors via names" }]) :=
  toProviderSpec_flavorID_rejected
    (FromMachineAndOpenStackMachineAndOpenStackCluster (some {})
      (some sampleOpenStackMachineFlavorID) (some {}))
    sampleOpenStackMachineFlavorID {} "flavor-uuid" (.ofList []) (.ofList []) "rhcos"
    (.ofList []) (.ofList []) (.ofList []) (.ofList []) (.ofList []) (.ofList [])
    "server-group-uuid" "" (.ofList []) none rfl rfl rfl rfl rfl rfl rfl rfl rfl rfl rfl rfl rfl

/-- Claim C3: whenever `toProviderSpec` returns, its error list is the
concatenation, in this order, of the errors of the additional block devices,
the image, the ports, the security groups, the server group, the `FlavorID`
check and the unsupported-field check. -/
theorem toProviderSpec_errors_concatenated (m : machineAndOpenStackMachineAndOpenStackCluster)
    (spec : Option mapiv1alpha1.OpenstackProviderSpec) (warnings : GoSlice Warning)
    (errors : field.ErrorList)
    (h : toProviderSpec m = .ret (spec, warnings, errors)) :
    ∃ openstackMachine abd e1 image w2 e2 nets ports w3 e3 sgID sgName e5,
      m.openstackMachine = some openstackMachine ∧
      convertCAPOAdditionalBlockDevicesToMAPO
        ((field.NewPath "spec").Child "additionalBlockDevices")
        openstackMachine.Spec.AdditionalBlockDevices = .ret (abd, e1) ∧
      convertCAPOImageParamToMAPO ((field.NewPath "spec").Child "image")
        openstackMachine.Spec.Image = .ret (image, w2, e2) ∧
      convertCAPOPortOptsToMAPO ((field.NewPath "spec").Child "ports")
        openstackMachine.Spec.Ports = .ret (nets, ports, w3, e3) ∧
      convertCAPOServerGroupsToMAPO ((field.NewPath "spec").Child "serverGroup")
        openstackMachine.Spec.ServerGroup = .ret (sgID, sgName, e5) ∧
      errors.toList = e1.toList ++ e2.toList ++ e3.toList ++
        (convertCAPOSecurityGroupstoMAPO ((field.NewPath "spec").Child "securityGroups")
          openstackMachine.Spec.SecurityGroups).2.toList ++ e5.toList ++
        (if openstackMachine.Spec.FlavorID.isSome then
          [field.Invalid ((field.NewPath "spec").Child "flavorID")
            (.stringPtr openstackMachine.Spec.FlavorID)
            "MAPO only supports defining flavors via names"]
         else []) ++
        (handleUnsupportedOpenStackMachineFields (field.NewPath "spec")
          openstackMachine.Spec).toList := by
  obtain ⟨openstackMachine, machine, abd, e1, image, w2, e2, nets, ports, w3, e3, sgID, sgName,
    e5, rv, hosm, hmachine, h1, h2, h3, h5, h6⟩ := toProviderSpec_ret_inv m _ h
  obtain ⟨cfg, errs, herrs, heq⟩ := toProviderSpec_eq m openstackMachine machine abd e1 image w2
    e2 nets ports w3 e3 sgID sgName e5 rv hosm hmachine h1 h2 h3 h5 h6
  refine ⟨openstackMachine, abd, e1, image, w2, e2, nets, ports, w3, e3, sgID, sgName, e5,
    hosm, h1, h2, h3, h5, ?_⟩
  rw [heq] at h
  rw [← herrs]
  by_cases hlen : errs.len > 0
  · simp only [hlen, if_true, Run.ret.injEq, Prod.mk.injEq] at h
    rw [← h.2.2]
  · simp only [hlen, if_false, Run.ret.injEq, Prod.mk.injEq] at h
    rw [← h.2.2, GoSlice.toList_nil]
    exact (GoSlice.toList_eq_nil_of_len errs (by omega)).symm

/-- Witness for C3: four fields in error, all four errors collected in order. -/
theorem toProviderSpec_errors_concatenated_witness :
    toProviderSpec (FromMachineAndOpenStackMachineAndOpenStackCluster (some {})
        (some sampleOpenStackMachineManyErrors) (some {})) =
      .ret (none, .nil,
        .ofList [
          field.Invalid ((field.NewPath "spec").Child "image")
            (.imageParam sampleOpenStackMachineManyErrors.Spec.Image)
            "MAPO only supports defining images by names",
          field.Invalid (((field.NewPath "spec").Child "securityGroups").Index 0)
            (.securityGroupParam {})
            "A security group must be referenced by a UUID or filter",
          field.Invalid ((field.NewPath "spec").Child "serverGroup")
            (.serverGroupParamPtr (some {}))
            "A server group must be referenced by a UUID or filter",
          field.Invalid ((field.NewPath "spec").Child "flavorID")
            (.stringPtr (some "flavor-uuid"))
            "MAPO only supports defining flavors via names"]) ∧
    ∃ openstackMachine abd e1 image w2 e2 nets ports w3 e3 sgID sgName e5,
      some sampleOpenStackMachineManyErrors = some openstackMachine ∧
      convertCAPOAdditionalBlockDevicesToMAPO
        ((field.NewPath "spec").Child "additionalBlockDevices")
        openstackMachine.Spec.AdditionalBlockDevices = .ret (abd, e1) ∧
      convertCAPOImageParamToMAPO ((field.NewPath "spec").Child "image")
        openstackMachine.Spec.Image = .ret (image, w2, e2) ∧
      convertCAPOPortOptsToMAPO ((field.NewPath "spec").Child "ports")
        openstackMachine.Spec.Ports = .ret (nets, ports, w3, e3) ∧
      convertCAPOServerGroupsToMAPO ((field.NewPath "spec").Child "serverGroup")
        openstackMachine.Spec.ServerGroup = .ret (sgID, sgName, e5) ∧
      [field.Invalid ((field.NewPath "spec").Child "image")
          (.imageParam sampleOpenStackMachineManyErrors.Spec.Image)
          "MAPO only supports defining images by names",
        field.Invalid (((field.NewPath "spec").Child "securityGroups").Index 0)
          (.securityGroupParam {})
          "A security group must be referenced by a UUID or filter",
        field.Invalid ((field.NewPath "spec").Child "serverGroup")
          (.serverGroupParamPtr (some {}))
          "A server group must be referenced by a UUID or filter",
        field.Invalid ((field.NewPath "spec").Child "flavorID")
          (.stringPtr (some "flavor-uuid"))
          "MAPO only supports defining flavors via names"] =
        e1.toList ++ e2.toList ++ e3.toList ++
        (convertCAPOSecurityGroupstoMAPO ((field.NewPath "spec").Child "securityGroups")
          openstackMachine.Spec.SecurityGroups).2.toList ++ e5.toList ++
        (if openstackMachine.Spec.FlavorID.isSome then
          [field.Invalid ((field.NewPath "spec").Child "flavorID")
            (.stringPtr openstackMachine.Spec.FlavorID)
            "MAPO only supports defining flavors via names"]
         else []) ++
        (handleUnsupportedOpenStackMachineFields (field.NewPath "spec")
          openstackMachine.Spec).toList :=
  ⟨rfl, toProviderSpec_errors_concatenated
    (FromMachineAndOpenStackMachineAndOpenStackCluster (some {})
      (some sampleOpenStackMachineManyErrors) (some {})) _ _ _ rfl⟩

/-- Claim C4: whenever `toProviderSpec` returns, the provider spec is nil exactly
when the error list is non-empty, and a non-nil spec comes with a nil error
list; whenever `ToMachine` returns a non-nil error, its machine is nil. -/
theorem nil_result_iff_errors (ext : Externals)
    (m : machineAndOpenStackMachineAndOpenStackCluster) :
    (∀ spec warnings errors, toProviderSpec m = .ret (spec, warnings, errors) →
      (spec = none ↔ errors.len > 0) ∧ (spec ≠ none → errors = .nil)) ∧
    (∀ mapiMachine warnings err, ToMachine ext m = .ret (mapiMachine, warnings, err) →
      err ≠ none → mapiMachine = none) := by
  constructor
  · intro spec warnings errors h
    obtain ⟨openstackMachine, machine, abd, e1, image, w2, e2, nets, ports, w3, e3, sgID,
      sgName, e5, rv, hosm, hmachine, h1, h2, h3, h5, h6⟩ := toProviderSpec_ret_inv m _ h
    obtain ⟨cfg, errs, -, heq⟩ := toProviderSpec_eq m openstackMachine machine abd e1 image
      w2 e2 nets ports w3 e3 sgID sgName e5 rv hosm hmachine h1 h2 h3 h5 h6
    rw [heq] at h
    by_cases hlen : errs.len > 0
    · simp only [hlen, if_true, Run.ret.injEq, Prod.mk.injEq] at h
      obtain ⟨hs, -, he⟩ := h
      subst hs he
      simp [hlen]
    · simp only [hlen, if_false, Run.ret.injEq, Prod.mk.injEq] at h
      obtain ⟨hs, -, he⟩ := h
      subst hs he
      simp [GoSlice.len]
  · intro mapiMachine warnings err h herr
    simp only [ToMachine] at h
    split at h
    · simp at h
      exact h.1.symm
    · cases hp : toProviderSpec m with
      | panic => simp [hp] at h
      | ret r =>
        obtain ⟨mapoSpec, warn, errs⟩ := r
        simp only [hp, Run.ret_bind] at h
        split at h
        · simp at h
          exact h.1.symm
        · cases hm : m.machine with
          | none => simp [hm] at h
          | some machine =>
            simp only [hm, deref_some, Run.ret_bind] at h
            cases hq : (ext.fromCAPIMachineToMAPIMachine machine).1 with
            | none => simp [hq] at h
            | some mm =>
              simp only [hq, deref_some, Run.ret_bind, Run.pure_eq] at h
              split_ifs at h <;> simp only [Run.ret.injEq, Prod.mk.injEq] at h <;>
                first
                | exact h.1.symm
                | exact absurd h.2.2.symm herr

/-- Witness for C4: a failing and a succeeding conversion, both functions. -/
theorem nil_result_iff_errors_witness :
    ∃ errors agg cfg mapiMachine,
      toProviderSpec (FromMachineAndOpenStackMachineAndOpenStackCluster (some {})
        (some sampleOpenStackMachineFlavorID) (some {})) = .ret (none, .nil, errors) ∧
      errors.len > 0 ∧
      ToMachine sampleExternals (FromMachineAndOpenStackMachineAndOpenStackCluster (some {})
        (some sampleOpenStackMachineFlavorID) (some {})) = .ret (none, .nil, some agg) ∧
      toProviderSpec (FromMachineAndOpenStackMachineAndOpenStackCluster (some {})
        (some sampleOpenStackMachineValid) (some {})) = .ret (some cfg, .nil, .nil) ∧
      ToMachine sampleExternals (FromMachineAndOpenStackMachineAndOpenStackCluster (some {})
        (some sampleOpenStackMachineValid) (some {})) = .ret (some mapiMachine, .nil, none) :=
  ⟨_, _, _, _, rfl,
    ((nil_result_iff_errors sampleExternals
      (FromMachineAndOpenStackMachineAndOpenStackCluster (some {})
        (some sampleOpenStackMachineFlavorID) (some {}))).1 _ _ _ rfl).1.mp rfl,
    rfl, rfl, rfl⟩

/-- Claim C6: a port with both `Network.ID` and `Network.Filter` set, whose fixed
IPs all carry a subnet ID and a subnet filter, is converted to a `NetworkParam`
with `UUID = Network.ID` and the empty filter. Alone in the list it is the only
result, with no ports, warnings or errors; at any index of any list it adds
that `NetworkParam` and nothing else. -/
theorem port_network_id_chosen_over_filter (capoPort : capov1.PortOpts)
    (id : String) (filter : capov1.NetworkFilter)
    (hnet : capoPort.Network = some { ID := some id, Filter := some filter })
    (hfix : ∀ fip ∈ capoPort.FixedIPs.toList,
      (fip.Subnet.bind (·.ID)).isSome = true ∧ (fip.Subnet.bind (·.Filter)).isSome = true) :
    ∃ mapoNetwork : mapiv1alpha1.NetworkParam,
      mapoNetwork.UUID = id ∧ mapoNetwork.Filter = {} ∧
      (∀ fldPath, convertCAPOPortOptsToMAPO fldPath (.ofList [capoPort]) =
        .ret (.ofList [mapoNetwork], .ofList [], .ofList [], .ofList [])) ∧
      (∀ fldPath i rest, convertCAPOPortOptsLoop fldPath i (capoPort :: rest) =
        (convertCAPOPortOptsLoop fldPath (i + 1) rest).bind
          (fun r => .ret (mapoNetwork :: r.1, r.2.1, r.2.2.1, r.2.2.2))) := by
  obtain ⟨mapoNetwork, huuid, hfilter, hconv⟩ :=
    network_helper_with_id capoPort id (some filter) hnet hfix
  refine ⟨mapoNetwork, huuid, hfilter, ?_, ?_⟩
  · intro fldPath
    simp [convertCAPOPortOptsToMAPO, convertCAPOPortOptsLoop, hnet, hconv, GoSlice.toList]
  · intro fldPath i rest
    simp only [convertCAPOPortOptsLoop, hnet, hconv]
    cases convertCAPOPortOptsLoop fldPath (i + 1) rest <;> simp [Run.bind, GoSlice.toList]

/-- Witness for C6: the sample port with ID `net-1` and filter name `net-a`. -/
theorem port_network_id_chosen_over_filter_witness :
    ∃ mapoNetwork : mapiv1alpha1.NetworkParam,
      mapoNetwork.UUID = "net-1" ∧ mapoNetwork.Filter = {} ∧
      (∀ fldPath, convertCAPOPortOptsToMAPO fldPath (.ofList [samplePortIDAndFilter]) =
        .ret (.ofList [mapoNetwork], .ofList [], .ofList [], .ofList [])) ∧
      (∀ fldPath i rest, convertCAPOPortOptsLoop fldPath i (samplePortIDAndFilter :: rest) =
        (convertCAPOPortOptsLoop fldPath (i + 1) rest).bind
          (fun r => .ret (mapoNetwork :: r.1, r.2.1, r.2.2.1, r.2.2.2))) :=
  port_network_id_chosen_over_filter samplePortIDAndFilter "net-1" { Name := "net-a" } rfl
    (by decide)

/-- Claim C7: for a non-nil server group, `convertCAPOServerGroupsToMAPO` returns
the ID alone when the ID is set (whatever the filter holds), else the filter
name alone when the filter has a name, else two empty strings and exactly one
Invalid error at the given path. -/
theorem convertCAPOServerGroupsToMAPO_cases (fldPath : field.Path)
    (capoServerGroup : capov1.ServerGroupParam) :
    convertCAPOServerGroupsToMAPO fldPath (some capoServerGroup) =
      match capoServerGroup.ID, capoServerGroup.Filter.bind (·.Name) with
      | some id, _ => .ret (id, "", .ofList [])
      | none, some name => .ret ("", name, .ofList [])
      | none, none =>
        .ret ("", "", .ofList [field.Invalid fldPath (.serverGroupParamPtr (some capoServerGroup))
          "A server group must be referenced by a UUID or filter"]) := by
  obtain ⟨id, filter⟩ := capoServerGroup
  cases id with
  | some id => rfl
  | none =>
    cases filter with
    | none => rfl
    | some f =>
      obtain ⟨name⟩ := f
      cases name <;> rfl

/-- Claim C8: whenever either port helper returns, the resulting `PortSecurity`
is nil exactly when `DisablePortSecurity` is nil and otherwise holds its
negation, so negating it again gives `DisablePortSecurity` back. -/
theorem port_security_negated (fldPath : field.Path) (capoPort : capov1.PortOpts) :
    (∀ mapoNetwork warnings errors,
      convertCAPOPortOptsToMAPONetwork fldPath capoPort = .ret (mapoNetwork, warnings, errors) →
        (mapoNetwork.PortSecurity = none ↔ capoPort.DisablePortSecurity = none) ∧
        mapoNetwork.PortSecurity = capoPort.DisablePortSecurity.map (fun b => !b) ∧
        mapoNetwork.PortSecurity.map (fun b => !b) = capoPort.DisablePortSecurity) ∧
    (∀ mapoPort warnings errors,
      convertCAPOPortOptsToMAPOPort fldPath capoPort = .ret (mapoPort, warnings, errors) →
        (mapoPort.PortSecurity = none ↔ capoPort.DisablePortSecurity = none) ∧
        mapoPort.PortSecurity = capoPort.DisablePortSecurity.map (fun b => !b) ∧
        mapoPort.PortSecurity.map (fun b => !b) = capoPort.DisablePortSecurity) := by
  constructor
  · intro mapoNetwork warnings errors h
    simp only [convertCAPOPortOptsToMAPONetwork] at h
    cases hn : capoPort.Network with
    | none => simp [hn] at h
    | some network =>
      cases hs : convertCAPOFixedIPsToMAPOSubnets capoPort capoPort.FixedIPs.toList with
      | panic => simp [hn, hs] at h
      | ret subnets =>
        simp [hn, hs] at h
        obtain ⟨h1, -, -⟩ := h
        subst h1
        obtain ⟨nid, nfilter⟩ := network
        cases nid <;> cases nfilter <;> cases capoPort.DisablePortSecurity <;> simp
  · intro mapoPort warnings errors h
    simp only [convertCAPOPortOptsToMAPOPort] at h
    cases hn : capoPort.Network with
    | none => simp [hn] at h
    | some network =>
      cases hi : network.ID with
      | none => simp [hn, hi] at h
      | some nid =>
        simp [hn, hi] at h
        obtain ⟨h1, -, -⟩ := h
        subst h1
        cases capoPort.DisablePortSecurity <;> simp

/-- Witness for C8: both helpers return on the sample port, whose
`DisablePortSecurity` is true, with `PortSecurity` false. -/
theorem port_security_negated_witness :
    ∃ mapoNetwork mapoPort w1 e1 w2 e2,
      convertCAPOPortOptsToMAPONetwork (field.NewPath "ports") samplePortIDAndFilter =
        .ret (mapoNetwork, w1, e1) ∧
      convertCAPOPortOptsToMAPOPort (field.NewPath "ports") samplePortIDAndFilter =
        .ret (mapoPort, w2, e2) ∧
      mapoNetwork.PortSecurity = some false ∧ mapoPort.PortSecurity = some false :=
  ⟨_, _, _, _, _, _, rfl, rfl,
    ((port_security_negated (field.NewPath "ports") samplePortIDAndFilter).1 _ _ _ rfl).2.1,
    ((port_security_negated (field.NewPath "ports") samplePortIDAndFilter).2 _ _ _ rfl).2.1⟩

/-- Claim C9: on the port of the concrete scenario (network by filter `net-a`,
subnet by identifier `subnet-123` only) `convertCAPOPortOptsToMAPO` panics: the
network helper dereferences the nil subnet filter. -/
theorem scenario_port_panics (fldPath : field.Path) :
    convertCAPOPortOptsToMAPO fldPath (.ofList [scenarioPort]) = .panic := rfl

/-- Claim C10: on a port whose `Network` is set with neither ID nor filter,
`convertCAPOPortOptsToMAPO` panics: the port is routed to the port helper, which
dereferences the nil `Network.ID`. -/
theorem bare_network_port_panics (fldPath : field.Path) :
    convertCAPOPortOptsToMAPO fldPath (.ofList [bareNetworkPort]) = .panic := rfl

/-! ## Further lemmas -/

/-- Appending to a nil slice the elements of a slice that was itself built by
appending to nil gives that slice back. -/
theorem GoSlice.append_toList_append {α : Type} (a b : List α) :
    (GoSlice.nil : GoSlice α).append ((GoSlice.nil.append a).append b).toList =
      (GoSlice.nil.append a).append b := by
  cases a <;> cases b <;> simp [GoSlice.append, GoSlice.toList]

/-- The provider spec `toProviderSpec` builds, whenever it returns one. -/
theorem toProviderSpec_spec (m : machineAndOpenStackMachineAndOpenStackCluster)
    (spec : mapiv1alpha1.OpenstackProviderSpec) (warnings : GoSlice Warning)
    (errors : field.ErrorList)
    (h : toProviderSpec m = .ret (some spec, warnings, errors)) :
    ∃ openstackMachine machine abd e1 image w2 e2 nets ports w3 e3 sgID sgName e5 rv,
      m.openstackMachine = some openstackMachine ∧ m.machine = some machine ∧
      convertCAPOAdditionalBlockDevicesToMAPO
        ((field.NewPath "spec").Child "additionalBlockDevices")
        openstackMachine.Spec.AdditionalBlockDevices = .ret (abd, e1) ∧
      convertCAPOImageParamToMAPO ((field.NewPath "spec").Child "image")
        openstackMachine.Spec.Image = .ret (image, w2, e2) ∧
      convertCAPOPortOptsToMAPO ((field.NewPath "spec").Child "ports")
        openstackMachine.Spec.Ports = .ret (nets, ports, w3, e3) ∧
      convertCAPOServerGroupsToMAPO ((field.NewPath "spec").Child "serverGroup")
        openstackMachine.Spec.ServerGroup = .ret (sgID, sgName, e5) ∧
      convertCAPORootVolumeToMAPO openstackMachine.Spec.RootVolume = .ret rv ∧
      spec =
        { TypeMeta := { Kind := "OpenstackProviderSpec",
                        APIVersion := "machine.openshift.io/v1alpha1" }
          AdditionalBlockDevices := abd
          CloudName :=
            (convertCAPOOpenStackIdentityReferenceToMAPO openstackMachine.Spec.IdentityRef).1
          CloudsSecret :=
            (convertCAPOOpenStackIdentityReferenceToMAPO openstackMachine.Spec.IdentityRef).2
          ConfigDrive := openstackMachine.Spec.ConfigDrive
          AvailabilityZone := machine.Spec.FailureDomain.getD ""
          Flavor := openstackMachine.Spec.Flavor.getD ""
          Image := image
          KeyName := openstackMachine.Spec.SSHKeyName
          Networks := nets
          Ports := ports
          RootVolume := rv
          SecurityGroups :=
            (convertCAPOSecurityGroupstoMAPO ((field.NewPath "spec").Child "securityGroups")
              openstackMachine.Spec.SecurityGroups).1
          ServerGroupID := sgID
          ServerGroupName := sgName
          ServerMetadata :=
            some (convertCAPOServerMetadataToMAPO openstackMachine.Spec.ServerMetadata)
          Tags := openstackMachine.Spec.Tags
          Trunk := openstackMachine.Spec.Trunk
          UserDataSecret :=
            match machine.Spec.Bootstrap.DataSecretName with
            | some name => some { Name := name }
            | none => none } := by
  obtain ⟨openstackMachine, machine, abd, e1, image, w2, e2, nets, ports, w3, e3, sgID, sgName,
    e5, rv, hosm, hmachine, h1, h2, h3, h5, h6⟩ := toProviderSpec_ret_inv m _ h
  refine ⟨openstackMachine, machine, abd, e1, image, w2, e2, nets, ports, w3, e3, sgID, sgName,
    e5, rv, hosm, hmachine, h1, h2, h3, h5, h6, ?_⟩
  simp only [toProviderSpec, hosm, hmachine, h1, h2, h3, h5, h6, deref_some, Run.ret_bind,
    Run.pure_eq, GoSlice.append_guarded] at h
  split_ifs at h <;>
    simp only [Run.ret.injEq, Prod.mk.injEq, Option.some.injEq, reduceCtorEq, false_and] at h
  all_goals exact h.1.symm

/-- The result of `ToMachineSet` on a converter with four non-nil fields, from the
results of `ToMachine` and of `fromCAPIMachineSetToMAPIMachineSet`. -/
theorem ToMachineSet_eq (ext : MachineSetExternals)
    (m : machineSetAndOpenStackMachineTemplateAndOpenStackCluster)
    (machineSet : capiv1.MachineSet) (template : capov1.OpenStackMachineTemplate)
    (cluster : capov1.OpenStackCluster)
    (machineConverter : machineAndOpenStackMachineAndOpenStackCluster)
    (mapoMachine : Option mapiv1.Machine) (warn : GoSlice Warning) (errMachine : Option GoError)
    (mapiMachineSet : Option mapiv1.MachineSet) (errSet : Option GoError)
    (hms : m.machineSet = some machineSet) (htemplate : m.template = some template)
    (hcluster : m.openstackCluster = some cluster)
    (hconv : m.machineAndOpenStackMachineAndOpenStackCluster = some machineConverter)
    (hmachine : ToMachine ext.toExternals machineConverter = .ret (mapoMachine, warn, errMachine))
    (hset : ext.fromCAPIMachineSetToMAPIMachineSet machineSet = (mapiMachineSet, errSet)) :
    ToMachineSet ext m =
      (if (errMachine.toList ++ errSet.toList).length > 0
        then .ret (none, GoSlice.nil.append warn.toList,
          some (.aggregate (errMachine.toList ++ errSet.toList)))
        else (deref mapiMachineSet >>= fun set => deref mapoMachine >>= fun machine =>
          .ret (some { set with
              Spec := { set.Spec with
                Template := {
                  ObjectMeta := { set.Spec.Template.ObjectMeta with
                    Labels := machine.ObjectMeta.Labels
                    Annotations := machine.ObjectMeta.Annotations }
                  Spec := machine.Spec } } },
            GoSlice.nil.append warn.toList, none))) := by
  simp only [ToMachineSet, hms, htemplate, hcluster, hconv, hmachine, hset, deref_some,
    Run.ret_bind, Run.pure_eq, Option.isNone_some, Bool.or_false, Bool.false_eq_true,
    if_false]
  cases errMachine <;> cases errSet <;> rfl

/-- A port given by network ID with exactly one security group, referenced by ID
only, is converted to a port without security groups. -/
theorem convertCAPOPortOptsToMAPOPort_single_security_group (fldPath : field.Path)
    (capoPort : capov1.PortOpts) (networkID id : String)
    (filter : Option capov1.NetworkFilter)
    (hnet : capoPort.Network = some { ID := some networkID, Filter := filter })
    (hgroups : capoPort.SecurityGroups.toList = [{ ID := some id, Filter := none }]) :
    ∃ mapoPort warnings errors,
      convertCAPOPortOptsToMAPOPort fldPath capoPort = .ret (mapoPort, warnings, errors) ∧
      mapoPort.SecurityGroups = none := by
  simp [convertCAPOPortOptsToMAPOPort, hnet, hgroups, convertCAPOPortSecurityGroups]

/-! ## Claims C11 to C20 -/

/-- Counterexample for C11: it is not true that a security group with both an ID
and a filter always yields an empty `Name` and an empty `Filter`. -/
theorem security_group_filter_not_dropped :
    ¬ ∀ (fldPath : field.Path) (capoSecurityGroup : capov1.SecurityGroupParam)
        (id : String) (filter : capov1.SecurityGroupFilter),
      capoSecurityGroup.ID = some id → capoSecurityGroup.Filter = some filter →
      convertCAPOSecurityGroupstoMAPO fldPath (.ofList [capoSecurityGroup]) =
        (.ofList [{ UUID := id, Name := "", Filter := {} }], .ofList []) := by
  intro h
  have h0 := h (field.NewPath "spec") sampleSecurityGroupIDAndFilter "sg-uuid"
    { Name := "default", Tags := .ofList ["a", "b"] } rfl rfl
  revert h0
  decide

/-- Claim C11, amended: a machine-level security group with both an ID and a
filter records no error and is converted to a param with `UUID` equal to the ID,
`Name` equal to the filter name and `Filter` holding the filter description,
project ID and comma-joined tags; alone in the list and at any index of any
list. -/
theorem security_group_id_and_filter_both_copied (fldPath : field.Path)
    (capoSecurityGroup : capov1.SecurityGroupParam) (id : String)
    (filter : capov1.SecurityGroupFilter)
    (hid : capoSecurityGroup.ID = some id) (hfilter : capoSecurityGroup.Filter = some filter) :
    convertCAPOSecurityGroupstoMAPO fldPath (.ofList [capoSecurityGroup]) =
      (.ofList [{ UUID := id
                  Name := filter.Name
                  Filter := {
                    Description := filter.Description
                    ProjectID := filter.ProjectID
                    Tags := joinTags filter.Tags
                    TagsAny := joinTags filter.TagsAny
                    NotTags := joinTags filter.NotTags
                    NotTagsAny := joinTags filter.NotTagsAny } }], .ofList []) ∧
    ∀ i rest, convertCAPOSecurityGroupsLoop fldPath i (capoSecurityGroup :: rest) =
      ({ UUID := id
         Name := filter.Name
         Filter := {
           Description := filter.Description
           ProjectID := filter.ProjectID
           Tags := joinTags filter.Tags
           TagsAny := joinTags filter.TagsAny
           NotTags := joinTags filter.NotTags
           NotTagsAny := joinTags filter.NotTagsAny } } ::
          (convertCAPOSecurityGroupsLoop fldPath (i + 1) rest).1,
        (convertCAPOSecurityGroupsLoop fldPath (i + 1) rest).2) := by
  constructor
  · simp [convertCAPOSecurityGroupstoMAPO, convertCAPOSecurityGroupsLoop,
      convertCAPOSecurityGroup, hid, hfilter]
  · intro i rest
    simp [convertCAPOSecurityGroupsLoop, convertCAPOSecurityGroup, hid, hfilter]

/-- Witness for C11: the group with ID `sg-uuid`, filter name `default` and tags
`a`, `b`. -/
theorem security_group_id_and_filter_both_copied_witness :
    convertCAPOSecurityGroupstoMAPO (field.NewPath "spec")
        (.ofList [sampleSecurityGroupIDAndFilter]) =
      (.ofList [{ UUID := "sg-uuid", Name := "default", Filter := { Tags := "a,b" } }],
        .ofList []) :=
  (security_group_id_and_filter_both_copied (field.NewPath "spec")
    sampleSecurityGroupIDAndFilter "sg-uuid" { Name := "default", Tags := .ofList ["a", "b"] }
    rfl rfl).1

/-- Claim C12: when the converter was built by the machine-set constructor and
`ToMachineSet` returns without error, the result is the machine set of
`fromCAPIMachineSetToMAPIMachineSet` in which the template spec, the template
labels and the template annotations are those of the machine that `ToMachine`
returns for the machine synthesised from the template; no other field differs. -/
theorem ToMachineSet_success_fields (ext : MachineSetExternals)
    (ms : Option capiv1.MachineSet) (mts : Option capov1.OpenStackMachineTemplate)
    (ac : Option capov1.OpenStackCluster)
    (converter : machineSetAndOpenStackMachineTemplateAndOpenStackCluster)
    (result : Option mapiv1.MachineSet) (warnings : GoSlice Warning)
    (hbuild : FromMachineSetAndOpenStackMachineTemplateAndOpenStackCluster ms mts ac =
      .ret converter)
    (h : ToMachineSet ext converter = .ret (result, warnings, none)) :
    ∃ machineSet template mapoMachine warn base,
      ms = some machineSet ∧ mts = some template ∧
      ToMachine ext.toExternals
        { machine := some {
            ObjectMeta := {
              Labels := machineSet.Spec.Template.ObjectMeta.Labels
              Annotations := machineSet.Spec.Template.ObjectMeta.Annotations }
            Spec := machineSet.Spec.Template.Spec }
          openstackMachine := some { Spec := template.Spec.Template.Spec }
          openstackCluster := ac } = .ret (some mapoMachine, warn, none) ∧
      ext.fromCAPIMachineSetToMAPIMachineSet machineSet = (some base, none) ∧
      result = some { base with
        Spec := { base.Spec with
          Template := {
            ObjectMeta := { base.Spec.Template.ObjectMeta with
              Labels := mapoMachine.ObjectMeta.Labels
              Annotations := mapoMachine.ObjectMeta.Annotations }
            Spec := mapoMachine.Spec } } } := by
  cases ms with
  | none => simp [FromMachineSetAndOpenStackMachineTemplateAndOpenStackCluster] at hbuild
  | some machineSet =>
  cases mts with
  | none => simp [FromMachineSetAndOpenStackMachineTemplateAndOpenStackCluster] at hbuild
  | some template =>
  simp only [FromMachineSetAndOpenStackMachineTemplateAndOpenStackCluster, deref_some,
    Run.ret_bind, Run.pure_eq, Run.ret.injEq] at hbuild
  subst hbuild
  cases ac with
  | none => simp [ToMachineSet] at h
  | some cluster =>
  cases hmachine : ToMachine ext.toExternals
      { machine := some {
          ObjectMeta := {
            Labels := machineSet.Spec.Template.ObjectMeta.Labels
            Annotations := machineSet.Spec.Template.ObjectMeta.Annotations }
          Spec := machineSet.Spec.Template.Spec }
        openstackMachine := some { Spec := template.Spec.Template.Spec }
        openstackCluster := some cluster } with
  | panic => simp [ToMachineSet, hmachine] at h
  | ret r =>
  obtain ⟨mapoMachine, warn, errMachine⟩ := r
  cases hset : ext.fromCAPIMachineSetToMAPIMachineSet machineSet with
  | mk mapiMachineSet errSet =>
  rw [ToMachineSet_eq ext _ machineSet template cluster _ mapoMachine warn errMachine
    mapiMachineSet errSet rfl rfl rfl rfl hmachine hset] at h
  rcases errMachine with _ | e1 <;> rcases errSet with _ | e2 <;>
    simp at h
  cases mapiMachineSet <;> cases mapoMachine <;> simp at h
  rename_i base machine
  exact ⟨machineSet, template, machine, warn, base, rfl, rfl, hmachine, hset, h.1.symm⟩

/-- Witness for C12: the sample machine set and a template that converts. -/
theorem ToMachineSet_success_fields_witness :
    ∃ machineSet template mapoMachine warn base,
      some sampleMachineSet = some machineSet ∧
      some sampleMachineTemplateValid = some template ∧
      ToMachine sampleMachineSetExternals.toExternals
        { machine := some {
            ObjectMeta := {
              Labels := machineSet.Spec.Template.ObjectMeta.Labels
              Annotations := machineSet.Spec.Template.ObjectMeta.Annotations }
            Spec := machineSet.Spec.Template.Spec }
          openstackMachine := some { Spec := template.Spec.Template.Spec }
          openstackCluster := some {} } = .ret (some mapoMachine, warn, none) ∧
      sampleMachineSetExternals.fromCAPIMachineSetToMAPIMachineSet machineSet =
        (some base, none) ∧
      some ({ ObjectMeta := { Name := "workers" }
              Spec := {
                Replicas := some 3
                Template := {
                  ObjectMeta := { Labels := some [("role", "worker")] }
                  Spec := {
                    ProviderSpec := { Value := some { Raw := .ofList [123, 125] } } } } } } :
            mapiv1.MachineSet) =
        some { base with
          Spec := { base.Spec with
            Template := {
              ObjectMeta := { base.Spec.Template.ObjectMeta with
                Labels := mapoMachine.ObjectMeta.Labels
                Annotations := mapoMachine.ObjectMeta.Annotations }
              Spec := mapoMachine.Spec } } } :=
  ToMachineSet_success_fields sampleMachineSetExternals (some sampleMachineSet)
    (some sampleMachineTemplateValid) (some {}) _ _ .nil rfl rfl

/-- Claim C13: on a converter with non-nil fields for which `ToMachine` returns,
a failure of `ToMachine` or of `fromCAPIMachineSetToMAPIMachineSet` makes
`ToMachineSet` return a nil machine set and the aggregate of the machine error
and the machine-set error, in that order; and every return of `ToMachineSet` has
a nil machine set and a non-nil error exactly when one of the two failed. -/
theorem ToMachineSet_error_iff (ext : MachineSetExternals)
    (m : machineSetAndOpenStackMachineTemplateAndOpenStackCluster)
    (machineSet : capiv1.MachineSet) (template : capov1.OpenStackMachineTemplate)
    (cluster : capov1.OpenStackCluster)
    (machineConverter : machineAndOpenStackMachineAndOpenStackCluster)
    (mapoMachine : Option mapiv1.Machine) (warn : GoSlice Warning) (errMachine : Option GoError)
    (mapiMachineSet : Option mapiv1.MachineSet) (errSet : Option GoError)
    (hms : m.machineSet = some machineSet) (htemplate : m.template = some template)
    (hcluster : m.openstackCluster = some cluster)
    (hconv : m.machineAndOpenStackMachineAndOpenStackCluster = some machineConverter)
    (hmachine : ToMachine ext.toExternals machineConverter = .ret (mapoMachine, warn, errMachine))
    (hset : ext.fromCAPIMachineSetToMAPIMachineSet machineSet = (mapiMachineSet, errSet)) :
    (errMachine ≠ none ∨ errSet ≠ none →
      ToMachineSet ext m =
        .ret (none, GoSlice.nil.append warn.toList,
          some (.aggregate (errMachine.toList ++ errSet.toList)))) ∧
    (∀ result warnings err, ToMachineSet ext m = .ret (result, warnings, err) →
      ((result = none ∧ err ≠ none) ↔ (errMachine ≠ none ∨ errSet ≠ none))) := by
  have hunfold := ToMachineSet_eq ext m machineSet template cluster machineConverter mapoMachine
    warn errMachine mapiMachineSet errSet hms htemplate hcluster hconv hmachine hset
  constructor
  · intro herr
    rw [hunfold]
    rcases errMachine with _ | e1 <;> rcases errSet with _ | e2
    · simp at herr
    all_goals rfl
  · intro result warnings err h
    rw [hunfold] at h
    rcases errMachine with _ | e1 <;> rcases errSet with _ | e2
    · cases mapiMachineSet <;> cases mapoMachine <;> simp at h
      obtain ⟨h1, -, h3⟩ := h
      subst h1 h3
      simp
    all_goals
      simp at h
      obtain ⟨h1, -, h3⟩ := h
      subst h1 h3
      simp

/-- Witness for C13: both conversions fail and the aggregate holds both errors. -/
theorem ToMachineSet_error_iff_witness :
    FromMachineSetAndOpenStackMachineTemplateAndOpenStackCluster (some sampleMachineSet)
      (some sampleMachineTemplateFlavorID) (some {}) = .ret sampleMachineSetConverterFlavorID ∧
    ToMachineSet failingMachineSetExternals sampleMachineSetConverterFlavorID =
      .ret (none, .nil,
        some (.aggregate [
          .fieldAggregate [field.Invalid ((field.NewPath "spec").Child "flavorID")
            (.stringPtr (some "flavor-uuid")) "MAPO only supports defining flavors via names"],
          .library "machine set conversion failed"])) :=
  ⟨rfl, (ToMachineSet_error_iff failingMachineSetExternals sampleMachineSetConverterFlavorID
    sampleMachineSet sampleMachineTemplateFlavorID {} sampleMachineConverterFlavorID none .nil
    (some (.fieldAggregate [field.Invalid ((field.NewPath "spec").Child "flavorID")
      (.stringPtr (some "flavor-uuid")) "MAPO only supports defining flavors via names"]))
    none (some (.library "machine set conversion failed")) rfl rfl rfl rfl rfl rfl).1
    (Or.inl (by decide))⟩

/-- Claim C14: with a nil MachineSet or a nil OpenStackMachineTemplate the
constructor already panics, before `ToMachineSet` can test its inputs; only with
a nil OpenStackCluster does `ToMachineSet` return the sentinel error. -/
theorem machine_set_nil_inputs (ext : MachineSetExternals) :
    FromMachineSetAndOpenStackMachineTemplateAndOpenStackCluster none
      (some sampleMachineTemplateValid) (some {}) = .panic ∧
    FromMachineSetAndOpenStackMachineTemplateAndOpenStackCluster (some sampleMachineSet)
      none (some {}) = .panic ∧
    (FromMachineSetAndOpenStackMachineTemplateAndOpenStackCluster (some sampleMachineSet)
      (some sampleMachineTemplateValid) none >>= ToMachineSet ext) =
      .ret (none, .nil,
        some (.plain errCAPIMachineSetOpenStackMachineTemplateOpenStackClusterCannotBeNil)) :=
  ⟨rfl, rfl, rfl⟩

/-- Claim C15: whenever `toProviderSpec` returns, its warnings are the image
warnings followed by the port warnings, and `ToMachine` returns exactly these
warnings whenever it returns without error or with an aggregate of field
errors. -/
theorem warnings_in_discovery_order (ext : Externals)
    (m : machineAndOpenStackMachineAndOpenStackCluster)
    (spec : Option mapiv1alpha1.OpenstackProviderSpec) (warnings : GoSlice Warning)
    (errors : field.ErrorList)
    (h : toProviderSpec m = .ret (spec, warnings, errors)) :
    (∃ openstackMachine image w2 e2 nets ports w3 e3,
      m.openstackMachine = some openstackMachine ∧
      convertCAPOImageParamToMAPO ((field.NewPath "spec").Child "image")
        openstackMachine.Spec.Image = .ret (image, w2, e2) ∧
      convertCAPOPortOptsToMAPO ((field.NewPath "spec").Child "ports")
        openstackMachine.Spec.Ports = .ret (nets, ports, w3, e3) ∧
      warnings.toList = w2.toList ++ w3.toList) ∧
    (∀ mapiMachine machineWarnings err,
      ToMachine ext m = .ret (mapiMachine, machineWarnings, err) →
      (err = none ∨ ∃ errs, err = some (.fieldAggregate errs)) →
      machineWarnings = warnings) := by
  obtain ⟨openstackMachine, machine, abd, e1, image, w2, e2, nets, ports, w3, e3, sgID,
    sgName, e5, rv, hosm, hmachine, h1, h2, h3, h5, h6⟩ := toProviderSpec_ret_inv m _ h
  obtain ⟨cfg, errs, -, heq⟩ := toProviderSpec_eq m openstackMachine machine abd e1 image
    w2 e2 nets ports w3 e3 sgID sgName e5 rv hosm hmachine h1 h2 h3 h5 h6
  have hw : warnings = (GoSlice.nil.append w2.toList).append w3.toList := by
    rw [heq] at h
    split_ifs at h <;> simp only [Run.ret.injEq, Prod.mk.injEq] at h <;> exact h.2.1.symm
  constructor
  · refine ⟨openstackMachine, image, w2, e2, nets, ports, w3, e3, hosm, h2, h3, ?_⟩
    rw [hw]
    simp only [GoSlice.toList_append, GoSlice.toList_nil, List.nil_append]
  · intro mapiMachine machineWarnings err hm herr
    simp only [ToMachine, h, Run.ret_bind, Run.pure_eq, hmachine, deref_some] at hm
    split at hm
    · simp only [Run.ret.injEq, Prod.mk.injEq] at hm
      rcases herr with herr | ⟨l, herr⟩ <;> rw [herr] at hm <;>
        simp [errCAPIMachineOpenStackMachineOpenStackClusterCannotBeNil] at hm
    · split at hm
      · simp only [Run.ret.injEq, Prod.mk.injEq] at hm
        rcases herr with herr | ⟨l, herr⟩ <;> rw [herr] at hm <;> simp at hm
      · cases hq : (ext.fromCAPIMachineToMAPIMachine machine).1 with
        | none => simp [hq] at hm
        | some mm =>
          simp only [hq, deref_some, Run.ret_bind] at hm
          have hwm : machineWarnings = GoSlice.nil.append warnings.toList := by
            split_ifs at hm <;> simp only [Run.ret.injEq, Prod.mk.injEq] at hm <;>
              exact hm.2.1.symm
          rw [hwm, hw]
          exact GoSlice.append_toList_append _ _

/-- Witness for C15: one image warning, with a succeeding and with a failing
conversion. -/
theorem warnings_in_discovery_order_witness :
    (∃ spec mapiMachine machineWarnings,
      toProviderSpec (FromMachineAndOpenStackMachineAndOpenStackCluster (some {})
        (some sampleOpenStackMachineImageTags) (some {})) =
        .ret (some spec, .ofList [sampleImageTagsWarning], .nil) ∧
      ToMachine sampleExternals (FromMachineAndOpenStackMachineAndOpenStackCluster (some {})
        (some sampleOpenStackMachineImageTags) (some {})) =
        .ret (some mapiMachine, machineWarnings, none) ∧
      machineWarnings = .ofList [sampleImageTagsWarning]) ∧
    (∃ errors errs machineWarnings,
      toProviderSpec (FromMachineAndOpenStackMachineAndOpenStackCluster (some {})
        (some sampleOpenStackMachineImageTagsFlavorID) (some {})) =
        .ret (none, .ofList [sampleImageTagsWarning], errors) ∧
      ToMachine sampleExternals (FromMachineAndOpenStackMachineAndOpenStackCluster (some {})
        (some sampleOpenStackMachineImageTagsFlavorID) (some {})) =
        .ret (none, machineWarnings, some (.fieldAggregate errs)) ∧
      machineWarnings = .ofList [sampleImageTagsWarning]) :=
  ⟨⟨_, _, _, rfl, rfl,
      (warnings_in_discovery_order sampleExternals
        (FromMachineAndOpenStackMachineAndOpenStackCluster (some {})
          (some sampleOpenStackMachineImageTags) (some {})) _ _ _ rfl).2 _ _ _ rfl
        (Or.inl rfl)⟩,
    ⟨_, _, _, rfl, rfl,
      (warnings_in_discovery_order sampleExternals
        (FromMachineAndOpenStackMachineAndOpenStackCluster (some {})
          (some sampleOpenStackMachineImageTagsFlavorID) (some {})) _ _ _ rfl).2 _ _ _ rfl
        (Or.inr ⟨_, rfl⟩)⟩⟩

/-- Claim C16: every provider spec that `toProviderSpec` returns has kind
`OpenstackProviderSpec` and API version `machine.openshift.io/v1alpha1`. -/
theorem provider_spec_type_meta (m : machineAndOpenStackMachineAndOpenStackCluster)
    (spec : mapiv1alpha1.OpenstackProviderSpec) (warnings : GoSlice Warning)
    (errors : field.ErrorList)
    (h : toProviderSpec m = .ret (some spec, warnings, errors)) :
    spec.TypeMeta.Kind = "OpenstackProviderSpec" ∧
    spec.TypeMeta.APIVersion = "machine.openshift.io/v1alpha1" := by
  obtain ⟨_, _, _, _, _, _, _, _, _, _, _, _, _, _, _, _, _, _, _, _, _, _, hspec⟩ :=
    toProviderSpec_spec m spec warnings errors h
  subst hspec
  exact ⟨rfl, rfl⟩

/-- Witness for C16: the sample machine that converts without error. -/
theorem provider_spec_type_meta_witness :
    ∃ spec, toProviderSpec (FromMachineAndOpenStackMachineAndOpenStackCluster (some {})
        (some sampleOpenStackMachineValid) (some {})) = .ret (some spec, .nil, .nil) ∧
      spec.TypeMeta.Kind = "OpenstackProviderSpec" ∧
      spec.TypeMeta.APIVersion = "machine.openshift.io/v1alpha1" :=
  ⟨_, rfl, provider_spec_type_meta
    (FromMachineAndOpenStackMachineAndOpenStackCluster (some {})
      (some sampleOpenStackMachineValid) (some {})) _ .nil .nil rfl⟩

/-- Claim C17: `openstackRawExtensionFromProviderSpec` returns an empty raw
extension and no error for a nil spec, the serialised bytes and no error when
serialisation succeeds, and an error exactly when the spec is non-nil and its
serialisation fails. -/
theorem openstackRawExtension_fails_only_on_marshal (ext : Externals) :
    openstackRawExtensionFromProviderSpec ext none = (some { Raw := .nil }, none) ∧
    (∀ spec rawBytes, ext.jsonMarshal spec = .ok rawBytes →
      openstackRawExtensionFromProviderSpec ext (some spec) = (some { Raw := rawBytes }, none)) ∧
    (∀ spec, (openstackRawExtensionFromProviderSpec ext spec).2 ≠ none ↔
      ∃ s err, spec = some s ∧ ext.jsonMarshal s = .error err) := by
  refine ⟨rfl, ?_, ?_⟩
  · intro spec rawBytes h
    simp [openstackRawExtensionFromProviderSpec, h]
  · intro spec
    cases spec with
    | none => simp [openstackRawExtensionFromProviderSpec]
    | some s =>
      cases h : ext.jsonMarshal s with
      | error err => simp [openstackRawExtensionFromProviderSpec, h]
      | ok bytes => simp [openstackRawExtensionFromProviderSpec, h]

/-- Counterexample for C18: it is not true that `toProviderSpec` returns a non-nil
provider spec whenever it returns errors. -/
theorem no_partial_spec_on_errors_counterexample :
    ¬ ∀ (m : machineAndOpenStackMachineAndOpenStackCluster)
        (spec : Option mapiv1alpha1.OpenstackProviderSpec) (warnings : GoSlice Warning)
        (errors : field.ErrorList),
      toProviderSpec m = .ret (spec, warnings, errors) → errors.len > 0 → spec ≠ none := by
  intro h
  exact h (FromMachineAndOpenStackMachineAndOpenStackCluster (some {})
    (some sampleOpenStackMachineFlavorID) (some {})) none .nil _ rfl (by decide) rfl

/-- Claim C18, amended: whenever `toProviderSpec` returns a non-empty error list,
the provider spec it returns is nil. -/
theorem errors_give_nil_spec (m : machineAndOpenStackMachineAndOpenStackCluster)
    (spec : Option mapiv1alpha1.OpenstackProviderSpec) (warnings : GoSlice Warning)
    (errors : field.ErrorList)
    (h : toProviderSpec m = .ret (spec, warnings, errors)) (herrors : errors.len > 0) :
    spec = none := by
  obtain ⟨openstackMachine, machine, abd, e1, image, w2, e2, nets, ports, w3, e3, sgID,
    sgName, e5, rv, hosm, hmachine, h1, h2, h3, h5, h6⟩ := toProviderSpec_ret_inv m _ h
  obtain ⟨cfg, errs, -, heq⟩ := toProviderSpec_eq m openstackMachine machine abd e1 image
    w2 e2 nets ports w3 e3 sgID sgName e5 rv hosm hmachine h1 h2 h3 h5 h6
  rw [heq] at h
  by_cases hlen : errs.len > 0
  · simp only [hlen, if_true, Run.ret.injEq, Prod.mk.injEq] at h
    exact h.1.symm
  · simp only [hlen, if_false, Run.ret.injEq, Prod.mk.injEq] at h
    obtain ⟨-, -, he⟩ := h
    subst he
    simp [GoSlice.len] at herrors

/-- Witness for C18: four errors and a nil provider spec. -/
theorem errors_give_nil_spec_witness :
    ∃ spec warnings errors,
      toProviderSpec (FromMachineAndOpenStackMachineAndOpenStackCluster (some {})
        (some sampleOpenStackMachineManyErrors) (some {})) = .ret (spec, warnings, errors) ∧
      errors.len = 4 ∧ spec = none :=
  ⟨none, .nil, _, rfl, rfl,
    errors_give_nil_spec (FromMachineAndOpenStackMachineAndOpenStackCluster (some {})
      (some sampleOpenStackMachineManyErrors) (some {})) none .nil _ rfl (by decide)⟩

/-- Claim C19: on a spec whose `FloatingIPPoolRef` is set,
`handleUnsupportedOpenStackMachineFields` returns the empty list, and
`toProviderSpec` succeeds with the same result as without that field. -/
theorem unsupported_field_not_reported (fldPath : field.Path) :
    sampleSpecFloatingIPPool.FloatingIPPoolRef ≠ none ∧
    handleUnsupportedOpenStackMachineFields fldPath sampleSpecFloatingIPPool = .ofList [] ∧
    toProviderSpec (FromMachineAndOpenStackMachineAndOpenStackCluster (some {})
      (some { Spec := sampleSpecFloatingIPPool }) (some {})) =
      (toProviderSpec (FromMachineAndOpenStackMachineAndOpenStackCluster (some {})
        (some { Spec := { sampleSpecFloatingIPPool with FloatingIPPoolRef := none } })
        (some {}))) ∧
    ∃ spec, toProviderSpec (FromMachineAndOpenStackMachineAndOpenStackCluster (some {})
      (some { Spec := sampleSpecFloatingIPPool }) (some {})) = .ret (some spec, .nil, .nil) :=
  ⟨by decide, rfl, rfl, _, rfl⟩

/-- Claim C20: a port with exactly one security group, referenced by ID only, is
converted without error to a port whose `SecurityGroups` is nil: the ID is lost. -/
theorem single_port_security_group_dropped (fldPath : field.Path) :
    convertCAPOPortOptsToMAPOPort fldPath samplePortOneSecurityGroup =
      .ret ({ NetworkID := "net-1"
              FixedIPs := .ofList []
              AllowedAddressPairs := .ofList []
              SecurityGroups := none }, .ofList [], .ofList []) := rfl

/-! ## Lemmas on the image, root-volume and server-group conversions -/

/-- An image without a filter makes the image conversion panic. -/
theorem convertCAPOImageParamToMAPO_nil_filter (fldPath : field.Path)
    (capoImage : capov1.ImageParam) (h : capoImage.Filter = none) :
    convertCAPOImageParamToMAPO fldPath capoImage = .panic := by
  simp [convertCAPOImageParamToMAPO, h]

/-- A nil server group makes `toProviderSpec` panic, whatever else the inputs hold. -/
theorem toProviderSpec_nil_server_group (m : machineAndOpenStackMachineAndOpenStackCluster)
    (openstackMachine : capov1.OpenStackMachine)
    (hosm : m.openstackMachine = some openstackMachine)
    (hgroup : openstackMachine.Spec.ServerGroup = none) :
    toProviderSpec m = .panic := by
  cases h : toProviderSpec m with
  | panic => rfl
  | ret r =>
    obtain ⟨osm, _, _, _, _, _, _, _, _, _, _, _, _, _, _, hosm2, _, _, _, _, h5, _⟩ :=
      toProviderSpec_ret_inv m r h
    rw [hosm] at hosm2
    cases hosm2
    simp [convertCAPOServerGroupsToMAPO, hgroup] at h5

/-- What `convertCAPORootVolumeToMAPO` returns when it does not panic. -/
theorem convertCAPORootVolumeToMAPO_cases (capoRootVolume : Option capov1.RootVolume) :
    convertCAPORootVolumeToMAPO capoRootVolume =
      match capoRootVolume with
      | none => .ret none
      | some rootVolume =>
        match rootVolume.AvailabilityZone with
        | none => .ret (some { Size := rootVolume.SizeGiB, VolumeType := rootVolume.Type_ })
        | some availabilityZone =>
          match availabilityZone.Name with
          | some name =>
            .ret (some { Size := rootVolume.SizeGiB, VolumeType := rootVolume.Type_, Zone := name })
          | none => .panic := by
  cases capoRootVolume with
  | none => rfl
  | some rootVolume =>
    simp only [convertCAPORootVolumeToMAPO]
    cases rootVolume.AvailabilityZone with
    | none => rfl
    | some az => cases h : az.Name <;> simp [h]

/-! ## Lemmas on the port helpers -/

/-- Entries of the fixed-IP loop of the port helper: the zero value for a rejected
fixed IP, the subnet ID and the address otherwise. -/
theorem convertCAPOFixedIPsToMAPOFixedIPs_fst (fldPath : field.Path) (i : Nat)
    (fixedIPs : List capov1.FixedIP) :
    (convertCAPOFixedIPsToMAPOFixedIPs fldPath i fixedIPs).1 =
      fixedIPs.map (fun fip =>
        if (fip.Subnet.bind (·.ID)).isNone || (fip.Subnet.bind (·.Filter)).isSome then {}
        else
          { SubnetID := (fip.Subnet.bind (·.ID)).getD ""
            IPAddress := fip.IPAddress.getD "" }) := by
  induction fixedIPs generalizing i with
  | nil => rfl
  | cons fip rest ih =>
    simp only [convertCAPOFixedIPsToMAPOFixedIPs, List.map_cons]
    rw [← ih (i + 1)]
    obtain ⟨subnet, ip⟩ := fip
    rcases subnet with _ | ⟨_ | id, _ | filter⟩ <;> simp

/-- Errors of the fixed-IP loop of the port helper: one for each rejected fixed
IP, at its index, in order. -/
theorem convertCAPOFixedIPsToMAPOFixedIPs_snd (fldPath : field.Path) (i : Nat)
    (fixedIPs : List capov1.FixedIP) :
    (convertCAPOFixedIPsToMAPOFixedIPs fldPath i fixedIPs).2 =
      ((fixedIPs.enumFrom i).filter (fun p =>
        (p.2.Subnet.bind (·.ID)).isNone || (p.2.Subnet.bind (·.Filter)).isSome)).map
        (fun p => field.Invalid ((fldPath.Child "fixedIPs").Index p.1) (.fixedIP p.2)
          "MAPO only supports defining subnets via IDs") := by
  induction fixedIPs generalizing i with
  | nil => rfl
  | cons fip rest ih =>
    simp only [convertCAPOFixedIPsToMAPOFixedIPs, List.enumFrom_cons]
    have := ih (i + 1)
    obtain ⟨subnet, ip⟩ := fip
    rcases subnet with _ | ⟨_ | id, _ | filter⟩ <;> simp [List.filter_cons, this]

/-- Whenever the port helper returns, the port has a network with an ID, there are
no warnings, the fixed IPs are those of the fixed-IP loop, and the errors are
those of the fixed-IP loop, of the `HostID`, `PropagateUplinkStatus` and
`ValueSpecs` checks and of the security-group loop, in this order. -/
theorem convertCAPOPortOptsToMAPOPort_ret (fldPath : field.Path) (capoPort : capov1.PortOpts)
    (mapoPort : mapiv1alpha1.PortOpts) (warnings : GoSlice Warning) (errors : field.ErrorList)
    (h : convertCAPOPortOptsToMAPOPort fldPath capoPort = .ret (mapoPort, warnings, errors)) :
    (∃ network networkID, capoPort.Network = some network ∧ network.ID = some networkID ∧
      mapoPort.NetworkID = networkID) ∧
    warnings = .ofList [] ∧
    mapoPort.FixedIPs =
      .ofList (convertCAPOFixedIPsToMAPOFixedIPs fldPath 0 capoPort.FixedIPs.toList).1 ∧
    errors.toList =
      (convertCAPOFixedIPsToMAPOFixedIPs fldPath 0 capoPort.FixedIPs.toList).2 ++
      (if capoPort.HostID.isSome then
        [field.Invalid (fldPath.Child "hostID") (.stringPtr capoPort.HostID)
          "The hostID field has no equivalent in MAPO and is not supported"]
       else []) ++
      (if capoPort.PropagateUplinkStatus.isSome then
        [field.Invalid (fldPath.Child "propagateUplinkStatus")
          (.boolPtr capoPort.PropagateUplinkStatus)
          "The propagateUplinkStatus field has no equivalent in MAPO and is not supported"]
       else []) ++
      (if !capoPort.ValueSpecs.isNil then
        [field.Invalid (fldPath.Child "valueSpecs") (.valueSpecs capoPort.ValueSpecs)
          "The valueSpecs field has no equivalent in MAPO and is not supported"]
       else []) ++
      (convertCAPOPortSecurityGroups fldPath 0 capoPort.SecurityGroups.toList).2 := by
  simp only [convertCAPOPortOptsToMAPOPort] at h
  cases hn : capoPort.Network with
  | none => simp [hn] at h
  | some network =>
    cases hi : network.ID with
    | none => simp [hn, hi] at h
    | some networkID =>
      simp only [hn, hi, deref_some, Run.ret_bind, Run.pure_eq, Run.ret.injEq,
        Prod.mk.injEq] at h
      obtain ⟨h1, h2, h3⟩ := h
      subst h1 h2 h3
      refine ⟨⟨network, networkID, rfl, hi, rfl⟩, rfl, rfl, ?_⟩
      have hvs : (!capoPort.ValueSpecs.isNil || decide (capoPort.ValueSpecs.len > 0)) =
          !capoPort.ValueSpecs.isNil := by
        cases capoPort.ValueSpecs <;> simp [GoSlice.isNil, GoSlice.len, GoSlice.toList]
      rw [hvs]
      split_ifs <;>
        simp only [GoSlice.toList_append, GoSlice.toList_push, GoSlice.toList_ofList,
          List.nil_append, List.append_nil, List.append_assoc]

/-- The port helper returns on every port whose network has an ID. -/
theorem convertCAPOPortOptsToMAPOPort_returns (fldPath : field.Path) (capoPort : capov1.PortOpts)
    (network : capov1.NetworkParam) (networkID : String)
    (hn : capoPort.Network = some network) (hi : network.ID = some networkID) :
    ∃ mapoPort warnings errors,
      convertCAPOPortOptsToMAPOPort fldPath capoPort = .ret (mapoPort, warnings, errors) := by
  simp [convertCAPOPortOptsToMAPOPort, hn, hi]

/-- Whenever the network helper returns, it returns no warning, and no error
other than the one for a network without ID and filter. -/
theorem convertCAPOPortOptsToMAPONetwork_ret (fldPath : field.Path) (capoPort : capov1.PortOpts)
    (mapoNetwork : mapiv1alpha1.NetworkParam) (warnings : GoSlice Warning)
    (errors : field.ErrorList)
    (h : convertCAPOPortOptsToMAPONetwork fldPath capoPort =
      .ret (mapoNetwork, warnings, errors)) :
    warnings = .ofList [] ∧
    ∃ network, capoPort.Network = some network ∧
      errors = (if network.ID.isNone && network.Filter.isNone then
        .ofList [field.Invalid fldPath (.networkParam {})
          "A network must be referenced by a UUID or filter"]
        else .ofList []) := by
  simp only [convertCAPOPortOptsToMAPONetwork] at h
  cases hn : capoPort.Network with
  | none => simp [hn] at h
  | some network =>
    cases hs : convertCAPOFixedIPsToMAPOSubnets capoPort capoPort.FixedIPs.toList with
    | panic => simp [hn, hs] at h
    | ret subnets =>
      simp only [hn, hs, deref_some, Run.ret_bind, Run.pure_eq, Run.ret.injEq,
        Prod.mk.injEq] at h
      obtain ⟨-, h2, h3⟩ := h
      subst h2 h3
      refine ⟨rfl, network, rfl, ?_⟩
      obtain ⟨nid, nfilter⟩ := network
      cases nid <;> cases nfilter <;> rfl

/-! ## Lemmas on the block-device conversion -/

/-- Loop body of the block-device conversion on a device whose volume, if any,
has an availability zone that carries a name whenever its source is `Name`. -/
theorem convertCAPOAdditionalBlockDevice_returns (fldPath : field.Path) (i : Nat)
    (dev : capov1.AdditionalBlockDevice)
    (hzone : ∀ vol ∈ dev.Storage.Volume, ∃ az ∈ vol.AvailabilityZone,
      az.From = capov1.VolumeAZFromName → az.Name.isSome) :
    ∃ mapoDev, convertCAPOAdditionalBlockDevice fldPath i dev =
        .ret (mapoDev,
          if dev.Storage.Type_ = capov1.VolumeBlockDevice ∧ dev.Storage.Volume.isNone then
            [field.Invalid (fldPath.Index i) (.additionalBlockDevice dev)
              "The volume field must be populated if type is volume"]
          else []) ∧
      mapoDev.Name = dev.Name ∧ mapoDev.SizeGiB = dev.SizeGiB ∧
      mapoDev.Storage.Type_ = dev.Storage.Type_ := by
  unfold convertCAPOAdditionalBlockDevice
  by_cases htype : dev.Storage.Type_ = capov1.VolumeBlockDevice
  · cases hvol : dev.Storage.Volume with
    | none => simp [htype, hvol]
    | some vol =>
      obtain ⟨az, haz, hname⟩ := hzone vol (by simp [hvol])
      have haz2 : vol.AvailabilityZone = some az := by simpa using haz
      by_cases hfrom : az.From = capov1.VolumeAZFromName
      · cases hn : az.Name with
        | none => simp [hn] at hname; exact absurd hfrom hname
        | some name => simp [htype, hvol, haz2, hfrom, hn]
      · simp [htype, hvol, haz2, hfrom]
  · simp [htype]

/-- The block-device loop from index `i` on, under the same condition on every
device: it returns one converted device per input, in order, and one error for
each device of type Volume without a volume. -/
theorem convertCAPOAdditionalBlockDevicesLoop_returns (fldPath : field.Path) (i : Nat)
    (devs : List capov1.AdditionalBlockDevice)
    (hzone : ∀ dev ∈ devs, ∀ vol ∈ dev.Storage.Volume, ∃ az ∈ vol.AvailabilityZone,
      az.From = capov1.VolumeAZFromName → az.Name.isSome) :
    ∃ mapoDevs, convertCAPOAdditionalBlockDevicesLoop fldPath i devs =
        .ret (mapoDevs,
          ((devs.enumFrom i).filter (fun p =>
            p.2.Storage.Type_ = capov1.VolumeBlockDevice ∧ p.2.Storage.Volume.isNone)).map
            (fun p => field.Invalid (fldPath.Index p.1) (.additionalBlockDevice p.2)
              "The volume field must be populated if type is volume")) ∧
      mapoDevs.length = devs.length ∧
      ∀ (j : Nat) (dev : capov1.AdditionalBlockDevice), devs[j]? = some dev →
        ∃ mapoDev, mapoDevs[j]? = some mapoDev ∧ mapoDev.Name = dev.Name ∧
          mapoDev.SizeGiB = dev.SizeGiB ∧ mapoDev.Storage.Type_ = dev.Storage.Type_ := by
  induction devs generalizing i with
  | nil => exact ⟨[], rfl, rfl, by simp⟩
  | cons dev rest ih =>
    obtain ⟨mapoDev, hdev, hname, hsize, htype⟩ :=
      convertCAPOAdditionalBlockDevice_returns fldPath i dev (hzone dev (List.mem_cons_self _ _))
    obtain ⟨mapoDevs, hrest, hlen, hall⟩ :=
      ih (i + 1) (fun d hd => hzone d (List.mem_cons_of_mem _ hd))
    refine ⟨mapoDev :: mapoDevs, ?_, by simp [hlen], ?_⟩
    · simp only [convertCAPOAdditionalBlockDevicesLoop, hdev, hrest, Run.ret_bind, Run.pure_eq,
        List.enumFrom_cons, List.filter_cons]
      split_ifs <;> simp_all
    · intro j d hj
      cases j with
      | zero =>
        simp only [List.getElem?_cons_zero, Option.some.injEq] at hj
        subst hj
        exact ⟨mapoDev, by simp, hname, hsize, htype⟩
      | succ k =>
        simp only [List.getElem?_cons_succ] at hj ⊢
        exact hall k d hj

/-! ## Lemmas on joining and splitting -/

/-- Characters of the accumulating loop of `String.intercalate`. -/
theorem intercalate_go_data (acc sep : String) (rest : List String) :
    (String.intercalate.go acc sep rest).data =
      acc.data ++ (rest.map (fun t => sep.data ++ t.data)).flatten := by
  induction rest generalizing acc with
  | nil => simp [String.intercalate.go]
  | cons t ts ih => simp [String.intercalate.go, ih, String.data_append, List.append_assoc]

/-- The accumulating loop of `String.intercalate` as a left fold. -/
theorem intercalate_go_foldl (acc sep : String) (rest : List String) :
    String.intercalate.go acc sep rest = rest.foldl (fun joined t => joined ++ sep ++ t) acc := by
  induction rest generalizing acc with
  | nil => rfl
  | cons t ts ih => simp [String.intercalate.go, ih]

/-- Splitting a piece without separator that is followed by nothing. -/
theorem splitOnChar_piece (sep : Char) (piece : List Char) (h : sep ∉ piece) :
    splitOnChar sep piece = [piece] := by
  induction piece with
  | nil => rfl
  | cons c cs ih =>
    have hc : c ≠ sep := fun hc => h (hc ▸ List.mem_cons_self _ _)
    have hcs : sep ∉ cs := fun hm => h (List.mem_cons_of_mem _ hm)
    simp [splitOnChar, hc, ih hcs]

/-- Splitting a piece without separator that is followed by a separator. -/
theorem splitOnChar_piece_sep (sep : Char) (piece rest : List Char) (h : sep ∉ piece) :
    splitOnChar sep (piece ++ sep :: rest) = piece :: splitOnChar sep rest := by
  induction piece with
  | nil => simp [splitOnChar]
  | cons c cs ih =>
    have hc : c ≠ sep := fun hc => h (hc ▸ List.mem_cons_self _ _)
    have hcs : sep ∉ cs := fun hm => h (List.mem_cons_of_mem _ hm)
    simp [splitOnChar, hc, ih hcs]

/-- Splitting pieces without separator that were joined with the separator. -/
theorem splitOnChar_joined (sep : Char) (piece : List Char) (pieces : List (List Char))
    (h : sep ∉ piece) (hs : ∀ p ∈ pieces, sep ∉ p) :
    splitOnChar sep (piece ++ (pieces.map (fun p => [sep] ++ p)).flatten) = piece :: pieces := by
  induction pieces generalizing piece with
  | nil => simpa using splitOnChar_piece sep piece h
  | cons p ps ih =>
    have hp : sep ∉ p := hs p (List.mem_cons_self _ _)
    have hps : ∀ q ∈ ps, sep ∉ q := fun q hq => hs q (List.mem_cons_of_mem _ hq)
    have := ih p hp hps
    simp only [List.map_cons, List.flatten_cons, List.singleton_append, List.cons_append,
      List.nil_append] at this ⊢
    rw [splitOnChar_piece_sep sep piece _ h, this]

/-! ## Claims C21 to C30 -/

/-- Claim C21: on an image referenced by ID with no filter,
`convertCAPOImageParamToMAPO` panics: after the error is recorded, the nil
filter is dereferenced for its tags. -/
theorem image_by_id_panics (fldPath : field.Path) :
    convertCAPOImageParamToMAPO fldPath sampleImageByID = .panic := rfl

/-- Claim C22: for an image with nil ID, nil ImageRef and a filter name,
`convertCAPOImageParamToMAPO` returns the name and no errors, with exactly one
warning, at the path of the filter tags, when the tags are non-nil, and no
warning when they are nil. -/
theorem image_by_name (fldPath : field.Path) (capoImage : capov1.ImageParam)
    (filter : capov1.ImageFilter) (name : String)
    (hid : capoImage.ID = none) (href : capoImage.ImageRef = none)
    (hfilter : capoImage.Filter = some filter) (hname : filter.Name = some name) :
    convertCAPOImageParamToMAPO fldPath capoImage =
      .ret (name,
        (if filter.Tags.isNil then .ofList []
         else .ofList [⟨field.Invalid (fldPath.Child "filter" ["tags"]) (.strings filter.Tags)
           "MAPO does not support filtering image by tags; ignoring"⟩]),
        .ofList []) := by
  cases htags : filter.Tags <;>
    simp [convertCAPOImageParamToMAPO, hid, href, hfilter, hname, htags, GoSlice.isNil,
      GoSlice.push, GoSlice.append, GoSlice.toList]

/-- Witness for C22: the path is `spec.image.filter.tags`; with and without tags. -/
theorem image_by_name_witness :
    convertCAPOImageParamToMAPO ((field.NewPath "spec").Child "image")
        sampleImageByNameWithTags =
      .ret ("rhcos",
        .ofList [⟨{ Type_ := .ErrorTypeInvalid
                    Field := "spec.image.filter.tags"
                    BadValue := .strings (.ofList ["stable"])
                    Detail := "MAPO does not support filtering image by tags; ignoring" }⟩],
        .ofList []) ∧
    convertCAPOImageParamToMAPO ((field.NewPath "spec").Child "image") sampleImageByName =
      .ret ("rhcos", .ofList [], .ofList []) :=
  ⟨image_by_name _ sampleImageByNameWithTags
      { Name := some "rhcos", Tags := .ofList ["stable"] } "rhcos" rfl rfl rfl rfl,
   image_by_name _ sampleImageByName { Name := some "rhcos" } "rhcos" rfl rfl rfl rfl⟩

/-- Claim C23: a port that references its network by filter and has `HostID` set
is converted to a network without any error, so the `HostID` is lost; the same
`HostID` on a port referenced by network ID gives an Invalid error at
`spec.ports[0].hostID`. -/
theorem host_id_dropped_on_network_path :
    convertCAPOPortOptsToMAPO ((field.NewPath "spec").Child "ports")
        (.ofList [samplePortFilterHostID]) =
      .ret (.ofList [{ Filter := { Name := "net-a" }, Subnets := .ofList [] }],
        .ofList [], .ofList [], .ofList []) ∧
    convertCAPOPortOptsToMAPO ((field.NewPath "spec").Child "ports")
        (.ofList [samplePortIDHostID]) =
      .ret (.ofList [],
        .ofList [{ NetworkID := "net-1", FixedIPs := .ofList [],
                   AllowedAddressPairs := .ofList [] }],
        .ofList [],
        .ofList [{ Type_ := .ErrorTypeInvalid
                   Field := "spec.ports[0].hostID"
                   BadValue := .stringPtr (some "host-1")
                   Detail :=
                     "The hostID field has no equivalent in MAPO and is not supported" }]) :=
  ⟨rfl, rfl⟩

/-- Claim C24: a populated `ValueSpecs` is not ignored by
`convertCAPOPortOptsToMAPOPort`, although the comment above the check says that
it is. On a port by network ID with one value spec the helper returns one Invalid
error, at `spec.ports[0].valueSpecs`; on the same port without value specs it
returns the same converted port and no error. -/
theorem value_specs_recorded_as_error :
    convertCAPOPortOptsToMAPOPort ((field.NewPath "spec").Child "ports" |>.Index 0)
        samplePortValueSpecs =
      .ret ({ NetworkID := "net-1", FixedIPs := .ofList [], AllowedAddressPairs := .ofList [] },
        .ofList [],
        .ofList [{ Type_ := .ErrorTypeInvalid
                   Field := "spec.ports[0].valueSpecs"
                   BadValue := .valueSpecs samplePortValueSpecs.ValueSpecs
                   Detail :=
                     "The valueSpecs field has no equivalent in MAPO and is not supported" }]) ∧
    convertCAPOPortOptsToMAPOPort ((field.NewPath "spec").Child "ports" |>.Index 0)
        { samplePortValueSpecs with ValueSpecs := .nil } =
      .ret ({ NetworkID := "net-1", FixedIPs := .ofList [], AllowedAddressPairs := .ofList [] },
        .ofList [], .ofList []) :=
  ⟨rfl, rfl⟩

/-- On every port whose network has an ID, a populated `ValueSpecs` leaves the
converted port as it is without it and adds exactly one Invalid error, at path
`valueSpecs`, between the errors recorded before and after that check. -/
theorem value_specs_rejected (fldPath : field.Path) (capoPort : capov1.PortOpts)
    (network : capov1.NetworkParam) (networkID : String)
    (hn : capoPort.Network = some network) (hi : network.ID = some networkID)
    (hvs : capoPort.ValueSpecs.len > 0) :
    ∃ mapoPort errorsWithout errorsWith before after,
      convertCAPOPortOptsToMAPOPort fldPath { capoPort with ValueSpecs := .nil } =
        .ret (mapoPort, .ofList [], errorsWithout) ∧
      convertCAPOPortOptsToMAPOPort fldPath capoPort =
        .ret (mapoPort, .ofList [], errorsWith) ∧
      errorsWithout.toList = before ++ after ∧
      errorsWith.toList = before ++
        [field.Invalid (fldPath.Child "valueSpecs") (.valueSpecs capoPort.ValueSpecs)
          "The valueSpecs field has no equivalent in MAPO and is not supported"] ++ after := by
  obtain ⟨mapoPort, w, errorsWith, hwith⟩ :=
    convertCAPOPortOptsToMAPOPort_returns fldPath capoPort network networkID hn hi
  obtain ⟨mapoPort0, w0, errorsWithout, hwithout⟩ :=
    convertCAPOPortOptsToMAPOPort_returns fldPath { capoPort with ValueSpecs := .nil }
      network networkID hn hi
  obtain ⟨-, hw, -, he⟩ := convertCAPOPortOptsToMAPOPort_ret _ _ _ _ _ hwith
  obtain ⟨-, hw0, -, he0⟩ := convertCAPOPortOptsToMAPOPort_ret _ _ _ _ _ hwithout
  subst hw hw0
  have hnil : capoPort.ValueSpecs.isNil = false := by
    cases hv : capoPort.ValueSpecs with
    | nil => simp [hv, GoSlice.len, GoSlice.toList] at hvs
    | ofList l => rfl
  have hports : mapoPort0 = mapoPort := by
    have h1 := hwith
    have h0 := hwithout
    simp only [convertCAPOPortOptsToMAPOPort, hn, hi, deref_some, Run.ret_bind, Run.pure_eq,
      Run.ret.injEq, Prod.mk.injEq] at h1 h0
    rw [← h1.1, ← h0.1]
  subst hports
  refine ⟨mapoPort0, errorsWithout, errorsWith,
    (convertCAPOFixedIPsToMAPOFixedIPs fldPath 0 capoPort.FixedIPs.toList).2 ++
      (if capoPort.HostID.isSome then
        [field.Invalid (fldPath.Child "hostID") (.stringPtr capoPort.HostID)
          "The hostID field has no equivalent in MAPO and is not supported"]
       else []) ++
      (if capoPort.PropagateUplinkStatus.isSome then
        [field.Invalid (fldPath.Child "propagateUplinkStatus")
          (.boolPtr capoPort.PropagateUplinkStatus)
          "The propagateUplinkStatus field has no equivalent in MAPO and is not supported"]
       else []),
    (convertCAPOPortSecurityGroups fldPath 0 capoPort.SecurityGroups.toList).2,
    hwithout, hwith, ?_, ?_⟩
  · rw [he0]
    simp only [GoSlice.isNil, Bool.not_true, Bool.false_eq_true, if_false, List.append_nil]
  · rw [he, hnil]
    simp only [Bool.not_false, if_true]

/-- Counterexample for C25: it is not true that the block-device conversion
returns whenever every volume has an availability zone. -/
theorem block_devices_nameless_zone_panics :
    ¬ ∀ (fldPath : field.Path) (devs : GoSlice capov1.AdditionalBlockDevice),
      (∀ dev ∈ devs.toList, ∀ vol ∈ dev.Storage.Volume, vol.AvailabilityZone.isSome) →
      (convertCAPOAdditionalBlockDevicesToMAPO fldPath devs).returns = true := by
  intro h
  have h0 := h (field.NewPath "spec") (.ofList [sampleBlockDeviceNamelessZone]) (by decide)
  revert h0
  decide

/-- Claim C25, amended: when every volume has an availability zone that carries a
name whenever its source is `Name`, the block-device conversion returns one
device per input, in order, with `Name`, `SizeGiB` and `Storage.Type` copied, and
exactly the errors, in order, of the devices of type Volume without a volume,
each at the index of its device. -/
theorem block_devices_converted (fldPath : field.Path)
    (devs : GoSlice capov1.AdditionalBlockDevice)
    (hzone : ∀ dev ∈ devs.toList, ∀ vol ∈ dev.Storage.Volume,
      ∃ az ∈ vol.AvailabilityZone, az.From = capov1.VolumeAZFromName → az.Name.isSome) :
    ∃ mapoDevs,
      convertCAPOAdditionalBlockDevicesToMAPO fldPath devs =
        .ret (.ofList mapoDevs,
          .ofList (((devs.toList.enum).filter (fun p =>
            p.2.Storage.Type_ = capov1.VolumeBlockDevice ∧ p.2.Storage.Volume.isNone)).map
            (fun p => field.Invalid (fldPath.Index p.1) (.additionalBlockDevice p.2)
              "The volume field must be populated if type is volume"))) ∧
      mapoDevs.length = devs.len ∧
      ∀ (j : Nat) (dev : capov1.AdditionalBlockDevice), devs.toList[j]? = some dev →
        ∃ mapoDev, mapoDevs[j]? = some mapoDev ∧ mapoDev.Name = dev.Name ∧
          mapoDev.SizeGiB = dev.SizeGiB ∧ mapoDev.Storage.Type_ = dev.Storage.Type_ := by
  obtain ⟨mapoDevs, hloop, hlen, hall⟩ :=
    convertCAPOAdditionalBlockDevicesLoop_returns fldPath 0 devs.toList hzone
  refine ⟨mapoDevs, ?_, hlen, hall⟩
  simp [convertCAPOAdditionalBlockDevicesToMAPO, hloop, List.enum]

/-- Witness for C25: three devices, the second in error at index 1. -/
theorem block_devices_converted_witness :
    convertCAPOAdditionalBlockDevicesToMAPO
        ((field.NewPath "spec").Child "additionalBlockDevices") (.ofList sampleBlockDevices) =
      .ret (.ofList [
          { Name := "scratch", SizeGiB := 10, Storage := { Type_ := "Local" } },
          { Name := "broken", SizeGiB := 20, Storage := { Type_ := "Volume" } },
          { Name := "data", SizeGiB := 30
            Storage := { Type_ := "Volume"
                         Volume := some { Type_ := "ssd", AvailabilityZone := "az1" } } }],
        .ofList [{ Type_ := .ErrorTypeInvalid
                   Field := "spec.additionalBlockDevices[1]"
                   BadValue := .additionalBlockDevice
                     { Name := "broken", SizeGiB := 20, Storage := { Type_ := "Volume" } }
                   Detail := "The volume field must be populated if type is volume" }]) ∧
    ∃ mapoDevs,
      convertCAPOAdditionalBlockDevicesToMAPO
          ((field.NewPath "spec").Child "additionalBlockDevices") (.ofList sampleBlockDevices) =
        .ret (.ofList mapoDevs,
          .ofList ((((GoSlice.ofList sampleBlockDevices).toList.enum).filter (fun p =>
            p.2.Storage.Type_ = capov1.VolumeBlockDevice ∧ p.2.Storage.Volume.isNone)).map
            (fun p => field.Invalid
              (((field.NewPath "spec").Child "additionalBlockDevices").Index p.1)
              (.additionalBlockDevice p.2)
              "The volume field must be populated if type is volume"))) ∧
      mapoDevs.length = (GoSlice.ofList sampleBlockDevices).len ∧
      ∀ (j : Nat) (dev : capov1.AdditionalBlockDevice),
        (GoSlice.ofList sampleBlockDevices).toList[j]? = some dev →
        ∃ mapoDev, mapoDevs[j]? = some mapoDev ∧ mapoDev.Name = dev.Name ∧
          mapoDev.SizeGiB = dev.SizeGiB ∧ mapoDev.Storage.Type_ = dev.Storage.Type_ :=
  ⟨rfl, block_devices_converted _ (.ofList sampleBlockDevices) (by decide)⟩

/-- Claim C26: whenever the port helper returns, its `FixedIPs` has the length of
the input; a fixed IP whose subnet has an ID and no filter gives that ID and the
address (or the empty string); and the error list starts with exactly one
Invalid error at `fixedIPs[j]` for each fixed IP `j` whose subnet is nil, has no
ID or has a filter, followed by the errors of the other checks. -/
theorem port_fixed_ips (fldPath : field.Path) (capoPort : capov1.PortOpts)
    (mapoPort : mapiv1alpha1.PortOpts) (warnings : GoSlice Warning) (errors : field.ErrorList)
    (h : convertCAPOPortOptsToMAPOPort fldPath capoPort = .ret (mapoPort, warnings, errors)) :
    mapoPort.FixedIPs.len = capoPort.FixedIPs.len ∧
    (∀ (j : Nat) (fip : capov1.FixedIP) (subnet : capov1.SubnetParam) (id : String),
      capoPort.FixedIPs.toList[j]? = some fip →
      fip.Subnet = some subnet → subnet.ID = some id → subnet.Filter = none →
      mapoPort.FixedIPs.toList[j]? =
        some { SubnetID := id, IPAddress := fip.IPAddress.getD "" }) ∧
    (∃ others, errors.toList =
      ((capoPort.FixedIPs.toList.enum.filter (fun p =>
        (p.2.Subnet.bind (·.ID)).isNone || (p.2.Subnet.bind (·.Filter)).isSome)).map
        (fun p => field.Invalid ((fldPath.Child "fixedIPs").Index p.1) (.fixedIP p.2)
          "MAPO only supports defining subnets via IDs")) ++ others ∧
      others =
        (if capoPort.HostID.isSome then
          [field.Invalid (fldPath.Child "hostID") (.stringPtr capoPort.HostID)
            "The hostID field has no equivalent in MAPO and is not supported"]
         else []) ++
        (if capoPort.PropagateUplinkStatus.isSome then
          [field.Invalid (fldPath.Child "propagateUplinkStatus")
            (.boolPtr capoPort.PropagateUplinkStatus)
            "The propagateUplinkStatus field has no equivalent in MAPO and is not supported"]
         else []) ++
        (if !capoPort.ValueSpecs.isNil then
          [field.Invalid (fldPath.Child "valueSpecs") (.valueSpecs capoPort.ValueSpecs)
            "The valueSpecs field has no equivalent in MAPO and is not supported"]
         else []) ++
        (convertCAPOPortSecurityGroups fldPath 0 capoPort.SecurityGroups.toList).2) := by
  obtain ⟨-, -, hfixed, herrors⟩ := convertCAPOPortOptsToMAPOPort_ret _ _ _ _ _ h
  rw [convertCAPOFixedIPsToMAPOFixedIPs_fst] at hfixed
  rw [convertCAPOFixedIPsToMAPOFixedIPs_snd] at herrors
  refine ⟨?_, ?_, ?_⟩
  · rw [hfixed]
    simp [GoSlice.len]
  · intro j fip subnet id hj hsubnet hid hfilter
    rw [hfixed, GoSlice.toList_ofList, List.getElem?_map, hj]
    simp [hsubnet, hid, hfilter]
  · refine ⟨_, ?_, rfl⟩
    rw [herrors]
    simp only [List.enum, List.append_assoc]

/-- Witness for C26: three fixed IPs, the second and the third rejected. -/
theorem port_fixed_ips_witness :
    convertCAPOPortOptsToMAPOPort ((field.NewPath "spec").Child "ports" |>.Index 0)
        samplePortFixedIPs =
      .ret ({ NetworkID := "net-1"
              FixedIPs := .ofList [{ SubnetID := "subnet-1", IPAddress := "10.0.0.5" }, {}, {}]
              AllowedAddressPairs := .ofList [] },
        .ofList [],
        .ofList [
          { Type_ := .ErrorTypeInvalid
            Field := "spec.ports[0].fixedIPs[1]"
            BadValue := .fixedIP {}
            Detail := "MAPO only supports defining subnets via IDs" },
          { Type_ := .ErrorTypeInvalid
            Field := "spec.ports[0].fixedIPs[2]"
            BadValue := .fixedIP
              { Subnet := some { ID := some "subnet-2", Filter := some { Name := "sub-b" } } }
            Detail := "MAPO only supports defining subnets via IDs" }]) ∧
    (3 : Nat) = samplePortFixedIPs.FixedIPs.len :=
  ⟨rfl, (port_fixed_ips ((field.NewPath "spec").Child "ports" |>.Index 0) samplePortFixedIPs
    { NetworkID := "net-1"
      FixedIPs := .ofList [{ SubnetID := "subnet-1", IPAddress := "10.0.0.5" }, {}, {}]
      AllowedAddressPairs := .ofList [] } _ _ rfl).1⟩

/-- Claim C27: on a machine that is valid except for a nil server group
`toProviderSpec` panics, because `convertCAPOServerGroupsToMAPO` dereferences the
nil pointer. -/
theorem nil_server_group_panics :
    toProviderSpec (FromMachineAndOpenStackMachineAndOpenStackCluster (some {})
      (some sampleOpenStackMachineNoServerGroup) (some {})) = .panic ∧
    convertCAPOServerGroupsToMAPO ((field.NewPath "spec").Child "serverGroup") none = .panic :=
  ⟨rfl, rfl⟩

/-- Claim C28: `joinTags` gives the empty string for an empty list and otherwise
the tags joined with commas in order; for a non-empty list of tags without
commas, splitting the result on the comma gives the list back. -/
theorem joinTags_split (tags : GoSlice String) :
    (tags.len = 0 → joinTags tags = "") ∧
    (∀ tag rest, tags.toList = tag :: rest →
      joinTags tags = rest.foldl (fun joined t => joined ++ "," ++ t) tag) ∧
    (tags.len ≠ 0 → (∀ tag ∈ tags.toList, ',' ∉ tag.data) →
      stringsSplit (joinTags tags) ',' = tags.toList) := by
  refine ⟨?_, ?_, ?_⟩
  · intro h
    simp [joinTags, h]
  · intro tag rest h
    simp only [joinTags, GoSlice.len, h, List.length_cons, Nat.add_one_ne_zero, if_false,
      String.intercalate, intercalate_go_foldl]
  · intro hlen hcomma
    cases htags : tags.toList with
    | nil => simp [GoSlice.len, htags] at hlen
    | cons tag rest =>
      rw [htags] at hcomma
      have hdata : (joinTags tags).data =
          tag.data ++ ((rest.map String.data).map (fun p => [','] ++ p)).flatten := by
        simp only [joinTags, GoSlice.len, htags, List.length_cons, Nat.add_one_ne_zero, if_false,
          String.intercalate, intercalate_go_data, List.map_map]
        rfl
      simp only [stringsSplit, hdata]
      rw [splitOnChar_joined ',' tag.data (rest.map String.data)
        (hcomma tag (List.mem_cons_self _ _))
        (by
          intro p hp
          obtain ⟨t, ht, rfl⟩ := List.mem_map.mp hp
          exact hcomma t (List.mem_cons_of_mem _ ht))]
      simp only [List.map_cons, List.map_map]
      exact congrArg _ ((List.map_congr_left (fun _ _ => rfl)).trans (List.map_id _))

/-- Witness for C28: three tags. -/
theorem joinTags_split_witness :
    joinTags (.ofList ["a", "b", "c"]) = "a,b,c" ∧
    stringsSplit (joinTags (.ofList ["a", "b", "c"])) ',' = ["a", "b", "c"] :=
  ⟨rfl, (joinTags_split (.ofList ["a", "b", "c"])).2.2 (by decide) (by decide)⟩

/-- Claim C29: every provider spec that `toProviderSpec` returns has the failure
domain as availability zone and the flavor name as flavor (empty when nil), a
user-data secret exactly when the bootstrap data secret name is set, naming it,
and `ConfigDrive`, `KeyName`, `Tags` and `Trunk` copied from the OpenStack
machine. -/
theorem provider_spec_copied_fields (m : machineAndOpenStackMachineAndOpenStackCluster)
    (openstackMachine : capov1.OpenStackMachine) (machine : capiv1.Machine)
    (spec : mapiv1alpha1.OpenstackProviderSpec) (warnings : GoSlice Warning)
    (errors : field.ErrorList)
    (hosm : m.openstackMachine = some openstackMachine) (hmachine : m.machine = some machine)
    (h : toProviderSpec m = .ret (some spec, warnings, errors)) :
    spec.AvailabilityZone = machine.Spec.FailureDomain.getD "" ∧
    spec.Flavor = openstackMachine.Spec.Flavor.getD "" ∧
    (spec.UserDataSecret = none ↔ machine.Spec.Bootstrap.DataSecretName = none) ∧
    (∀ name, machine.Spec.Bootstrap.DataSecretName = some name →
      spec.UserDataSecret = some { Name := name, Namespace := "" }) ∧
    spec.ConfigDrive = openstackMachine.Spec.ConfigDrive ∧
    spec.KeyName = openstackMachine.Spec.SSHKeyName ∧
    spec.Tags = openstackMachine.Spec.Tags ∧
    spec.Trunk = openstackMachine.Spec.Trunk := by
  obtain ⟨openstackMachine2, machine2, _, _, _, _, _, _, _, _, _, _, _, _, _, hosm2, hmachine2, _,
    _, _, _, _, hspec⟩ := toProviderSpec_spec m spec warnings errors h
  rw [hosm] at hosm2
  rw [hmachine] at hmachine2
  cases hosm2
  cases hmachine2
  subst hspec
  refine ⟨rfl, rfl, ?_, ?_, rfl, rfl, rfl, rfl⟩
  · cases machine.Spec.Bootstrap.DataSecretName <;> simp
  · intro name hname
    simp [hname]

/-- Witness for C29: a machine and an OpenStack machine with all these fields set. -/
theorem provider_spec_copied_fields_witness :
    ∃ spec, toProviderSpec (FromMachineAndOpenStackMachineAndOpenStackCluster
        (some sampleMachineCopied) (some sampleOpenStackMachineCopied) (some {})) =
        .ret (some spec, .nil, .nil) ∧
      spec.AvailabilityZone = "az1" ∧ spec.Flavor = "m1.large" ∧
      spec.UserDataSecret = some { Name := "user-data" } ∧ spec.ConfigDrive = some true ∧
      spec.KeyName = "key" ∧ spec.Tags = .ofList ["a", "b"] ∧ spec.Trunk = true :=
  ⟨_, rfl,
    (provider_spec_copied_fields (FromMachineAndOpenStackMachineAndOpenStackCluster
      (some sampleMachineCopied) (some sampleOpenStackMachineCopied) (some {}))
      sampleOpenStackMachineCopied sampleMachineCopied _ .nil .nil rfl rfl rfl).1,
    rfl, rfl, rfl, rfl, rfl, rfl⟩

/-- Claim C30: on a root volume whose availability zone is set without a name
(here taken from the machine) `convertCAPORootVolumeToMAPO` panics. -/
theorem root_volume_nameless_zone_panics :
    convertCAPORootVolumeToMAPO (some sampleRootVolumeMachineZone) = .panic := rfl

/-! ## Lemmas on the loop over the ports -/

/-- The network helper returns on every port that has a network and whose fixed
IPs all have a subnet with both an ID and a filter. -/
theorem convertCAPOPortOptsToMAPONetwork_returns (fldPath : field.Path)
    (capoPort : capov1.PortOpts) (network : capov1.NetworkParam)
    (hn : capoPort.Network = some network)
    (hfix : ∀ fip ∈ capoPort.FixedIPs.toList,
      (fip.Subnet.bind (·.ID)).isSome = true ∧ (fip.Subnet.bind (·.Filter)).isSome = true) :
    ∃ mapoNetwork warnings errors,
      convertCAPOPortOptsToMAPONetwork fldPath capoPort = .ret (mapoNetwork, warnings, errors) := by
  obtain ⟨subnets, hsub⟩ := convertCAPOFixedIPsToMAPOSubnets_returns capoPort _ hfix
  simp [convertCAPOPortOptsToMAPONetwork, hn, hsub]

/-- The loop over the ports returns when every port is one that its helper
returns on. -/
theorem convertCAPOPortOptsLoop_returns (fldPath : field.Path) (i : Nat)
    (capoPorts : List capov1.PortOpts)
    (h : ∀ capoPort ∈ capoPorts,
      capoPort.Network.isSome = true ∧
      (((capoPort.Network.bind (·.Filter)).isSome = true ∧
          ∀ fip ∈ capoPort.FixedIPs.toList,
            fip.Subnet.isSome = true ∧ (fip.Subnet.bind (·.ID)).isSome = true ∧
              (fip.Subnet.bind (·.Filter)).isSome = true) ∨
        ((capoPort.Network.bind (·.Filter)).isNone = true ∧
          (capoPort.Network.bind (·.ID)).isSome = true))) :
    ∃ r, convertCAPOPortOptsLoop fldPath i capoPorts = .ret r := by
  induction capoPorts generalizing i with
  | nil => exact ⟨_, rfl⟩
  | cons capoPort rest ih =>
    obtain ⟨r, hr⟩ := ih (i + 1) (fun p hp => h p (List.mem_cons_of_mem _ hp))
    obtain ⟨hnet, hcases⟩ := h capoPort (List.mem_cons_self _ _)
    cases hn : capoPort.Network with
    | none => simp [hn] at hnet
    | some network =>
      rw [hn] at hcases
      rcases hcases with ⟨hfilter, hfix⟩ | ⟨hfilter, hid⟩
      · obtain ⟨mapoNetwork, warnings, errors, hhelper⟩ :=
          convertCAPOPortOptsToMAPONetwork_returns (fldPath.Index i) capoPort network hn
            (fun fip hfip => (hfix fip hfip).2)
        have hvia : network.Filter.isSome = true := by simpa using hfilter
        simp [convertCAPOPortOptsLoop, hn, hvia, hhelper, hr]
      · have hvia : network.Filter.isSome = false := by
          cases hf : network.Filter with
          | none => rfl
          | some f => simp [hf] at hfilter
        cases hi : network.ID with
        | none => simp [hi] at hid
        | some networkID =>
          obtain ⟨mapoPort, warnings, errors, hhelper⟩ :=
            convertCAPOPortOptsToMAPOPort_returns (fldPath.Index i) capoPort network networkID hn hi
          simp [convertCAPOPortOptsLoop, hn, hvia, hhelper, hr]

/-- One step of the loop over the ports that returns: the port went through the
network helper, exactly when `Network` and `Network.Filter` are non-nil, or
through the port helper, and the rest of the loop returned. -/
theorem convertCAPOPortOptsLoop_cons_ret (fldPath : field.Path) (i : Nat)
    (capoPort : capov1.PortOpts) (rest : List capov1.PortOpts)
    (networks : List mapiv1alpha1.NetworkParam) (ports : List mapiv1alpha1.PortOpts)
    (warnings : List Warning) (errors : List field.Error)
    (h : convertCAPOPortOptsLoop fldPath i (capoPort :: rest) =
      .ret (networks, ports, warnings, errors)) :
    ((capoPort.Network.bind (·.Filter)).isSome = true ∧
      ∃ mapoNetwork warns errs networks1 warnings1 errors1,
        convertCAPOPortOptsToMAPONetwork (fldPath.Index i) capoPort =
          .ret (mapoNetwork, warns, errs) ∧
        convertCAPOPortOptsLoop fldPath (i + 1) rest =
          .ret (networks1, ports, warnings1, errors1) ∧
        networks = mapoNetwork :: networks1 ∧ warnings = warns.toList ++ warnings1 ∧
        errors = errs.toList ++ errors1) ∨
    ((capoPort.Network.bind (·.Filter)).isSome = false ∧
      ∃ mapoPort warns errs ports1 warnings1 errors1,
        convertCAPOPortOptsToMAPOPort (fldPath.Index i) capoPort =
          .ret (mapoPort, warns, errs) ∧
        convertCAPOPortOptsLoop fldPath (i + 1) rest =
          .ret (networks, ports1, warnings1, errors1) ∧
        ports = mapoPort :: ports1 ∧ warnings = warns.toList ++ warnings1 ∧
        errors = errs.toList ++ errors1) := by
  simp only [convertCAPOPortOptsLoop] at h
  split at h
  · rename_i hm
    left
    refine ⟨by cases hN : capoPort.Network <;> simp [hN] at hm ⊢; exact hm, ?_⟩
    cases hn : convertCAPOPortOptsToMAPONetwork (fldPath.Index i) capoPort with
    | panic => simp [hn] at h
    | ret r =>
      cases hl : convertCAPOPortOptsLoop fldPath (i + 1) rest with
      | panic => simp [hn, hl] at h
      | ret l =>
        obtain ⟨mapoNetwork, warns, errs⟩ := r
        obtain ⟨networks1, ports1, warnings1, errors1⟩ := l
        simp only [hn, hl, Run.ret_bind, Run.pure_eq, Run.ret.injEq, Prod.mk.injEq] at h
        obtain ⟨h1, h2, h3, h4⟩ := h
        subst h2
        exact ⟨mapoNetwork, warns, errs, networks1, warnings1, errors1, rfl, rfl, h1.symm,
          h3.symm, h4.symm⟩
  · rename_i hm
    right
    refine ⟨by cases hN : capoPort.Network <;> simp [hN] at hm ⊢; exact hm, ?_⟩
    cases hn : convertCAPOPortOptsToMAPOPort (fldPath.Index i) capoPort with
    | panic => simp [hn] at h
    | ret r =>
      cases hl : convertCAPOPortOptsLoop fldPath (i + 1) rest with
      | panic => simp [hn, hl] at h
      | ret l =>
        obtain ⟨mapoPort, warns, errs⟩ := r
        obtain ⟨networks1, ports1, warnings1, errors1⟩ := l
        simp only [hn, hl, Run.ret_bind, Run.pure_eq, Run.ret.injEq, Prod.mk.injEq] at h
        obtain ⟨h1, h2, h3, h4⟩ := h
        subst h1
        exact ⟨mapoPort, warns, errs, ports1, warnings1, errors1, rfl, rfl, h2.symm,
          h3.symm, h4.symm⟩

/-- Whenever `convertCAPOPortOptsToMAPO` returns, its loop has returned the same
lists. -/
theorem convertCAPOPortOptsToMAPO_ret (fldPath : field.Path)
    (capoPorts : GoSlice capov1.PortOpts)
    (networks : GoSlice mapiv1alpha1.NetworkParam) (ports : GoSlice mapiv1alpha1.PortOpts)
    (warnings : GoSlice Warning) (errors : field.ErrorList)
    (h : convertCAPOPortOptsToMAPO fldPath capoPorts = .ret (networks, ports, warnings, errors)) :
    convertCAPOPortOptsLoop fldPath 0 capoPorts.toList =
      .ret (networks.toList, ports.toList, warnings.toList, errors.toList) ∧
    warnings = .ofList warnings.toList ∧ errors = .ofList errors.toList := by
  simp only [convertCAPOPortOptsToMAPO] at h
  cases hl : convertCAPOPortOptsLoop fldPath 0 capoPorts.toList with
  | panic => simp [hl] at h
  | ret l =>
    obtain ⟨networks1, ports1, warnings1, errors1⟩ := l
    simp only [hl, Run.ret_bind, Run.pure_eq, Run.ret.injEq, Prod.mk.injEq] at h
    obtain ⟨h1, h2, h3, h4⟩ := h
    subst h1 h2 h3 h4
    exact ⟨rfl, rfl, rfl⟩

/-- Whenever the loop over the ports returns, the networks are the results of the
network helper on the ports whose `Network` and `Network.Filter` are non-nil,
the ports are the results of the port helper on the other ports, both in input
order, and together they are as many as the input ports. -/
theorem convertCAPOPortOptsLoop_split (fldPath : field.Path) (i : Nat)
    (capoPorts : List capov1.PortOpts)
    (networks : List mapiv1alpha1.NetworkParam) (ports : List mapiv1alpha1.PortOpts)
    (warnings : List Warning) (errors : List field.Error)
    (h : convertCAPOPortOptsLoop fldPath i capoPorts =
      .ret (networks, ports, warnings, errors)) :
    networks.length + ports.length = capoPorts.length ∧
    List.Forall₂
      (fun (p : Nat × capov1.PortOpts) (mapoNetwork : mapiv1alpha1.NetworkParam) =>
        ∃ warns errs, convertCAPOPortOptsToMAPONetwork (fldPath.Index p.1) p.2 =
          .ret (mapoNetwork, warns, errs))
      ((capoPorts.enumFrom i).filter (fun p => (p.2.Network.bind (·.Filter)).isSome))
      networks ∧
    List.Forall₂
      (fun (p : Nat × capov1.PortOpts) (mapoPort : mapiv1alpha1.PortOpts) =>
        ∃ warns errs, convertCAPOPortOptsToMAPOPort (fldPath.Index p.1) p.2 =
          .ret (mapoPort, warns, errs))
      ((capoPorts.enumFrom i).filter (fun p => !(p.2.Network.bind (·.Filter)).isSome))
      ports := by
  induction capoPorts generalizing i networks ports warnings errors with
  | nil =>
    simp only [convertCAPOPortOptsLoop, Run.ret.injEq, Prod.mk.injEq] at h
    obtain ⟨h1, h2, -, -⟩ := h
    subst h1 h2
    exact ⟨rfl, List.Forall₂.nil, List.Forall₂.nil⟩
  | cons capoPort rest ih =>
    rcases convertCAPOPortOptsLoop_cons_ret fldPath i capoPort rest networks ports warnings
      errors h with
      ⟨hv, mapoNetwork, warns, errs, networks1, warnings1, errors1, hhelper, hrest, hn, -, -⟩ |
      ⟨hv, mapoPort, warns, errs, ports1, warnings1, errors1, hhelper, hrest, hp, -, -⟩
    · obtain ⟨hlen, hnets, hports⟩ := ih (i + 1) networks1 ports warnings1 errors1 hrest
      subst hn
      refine ⟨by simp only [List.length_cons]; omega, ?_, ?_⟩
      · simp only [List.enumFrom_cons, List.filter_cons, hv, if_true]
        exact List.Forall₂.cons ⟨warns, errs, hhelper⟩ hnets
      · simp only [List.enumFrom_cons, List.filter_cons, hv, Bool.not_true, Bool.false_eq_true,
          if_false]
        exact hports
    · obtain ⟨hlen, hnets, hports⟩ := ih (i + 1) networks ports1 warnings1 errors1 hrest
      subst hp
      refine ⟨by simp only [List.length_cons]; omega, ?_, ?_⟩
      · simp only [List.enumFrom_cons, List.filter_cons, hv, Bool.false_eq_true, if_false]
        exact hnets
      · simp only [List.enumFrom_cons, List.filter_cons, hv, Bool.not_false, if_true]
        exact List.Forall₂.cons ⟨warns, errs, hhelper⟩ hports

/-- Whenever the loop over the ports returns, it returns no warning. -/
theorem convertCAPOPortOptsLoop_warnings (fldPath : field.Path) (i : Nat)
    (capoPorts : List capov1.PortOpts)
    (networks : List mapiv1alpha1.NetworkParam) (ports : List mapiv1alpha1.PortOpts)
    (warnings : List Warning) (errors : List field.Error)
    (h : convertCAPOPortOptsLoop fldPath i capoPorts =
      .ret (networks, ports, warnings, errors)) :
    warnings = [] := by
  induction capoPorts generalizing i networks ports warnings errors with
  | nil =>
    simp only [convertCAPOPortOptsLoop, Run.ret.injEq, Prod.mk.injEq] at h
    exact h.2.2.1.symm
  | cons capoPort rest ih =>
    rcases convertCAPOPortOptsLoop_cons_ret fldPath i capoPort rest networks ports warnings
      errors h with
      ⟨-, mapoNetwork, warns, errs, networks1, warnings1, errors1, hhelper, hrest, -, hw, -⟩ |
      ⟨-, mapoPort, warns, errs, ports1, warnings1, errors1, hhelper, hrest, -, hw, -⟩
    · have h1 := (convertCAPOPortOptsToMAPONetwork_ret _ _ _ _ _ hhelper).1
      have h2 := ih (i + 1) networks1 ports warnings1 errors1 hrest
      rw [hw, h1, h2]; rfl
    · have h1 := (convertCAPOPortOptsToMAPOPort_ret _ _ _ _ _ hhelper).2.1
      have h2 := ih (i + 1) networks ports1 warnings1 errors1 hrest
      rw [hw, h1, h2]; rfl

/-- Every error of the security-group loop of the port helper carries the
message of that loop. -/
theorem convertCAPOPortSecurityGroups_detail (fldPath : field.Path) (i : Nat)
    (groups : List capov1.SecurityGroupParam) :
    ∀ err ∈ (convertCAPOPortSecurityGroups fldPath i groups).2,
      err.Detail = "MAPO only supports defining port security groups by ID" := by
  induction groups generalizing i with
  | nil => intro err herr; simp [convertCAPOPortSecurityGroups] at herr
  | cons g rest ih =>
    intro err herr
    simp only [convertCAPOPortSecurityGroups] at herr
    have := ih (i + 1)
    obtain ⟨id, filter⟩ := g
    rcases id with _ | id <;> rcases filter with _ | filter <;>
      simp only [List.mem_cons] at herr
    · rcases herr with rfl | herr
      · rfl
      · exact this err herr
    · rcases herr with rfl | herr
      · rfl
      · exact this err herr
    · exact this err herr
    · rcases herr with rfl | herr
      · rfl
      · exact this err herr

/-- Whenever the port helper returns, none of its errors carries the message of
the network helper for a network without ID and filter. -/
theorem convertCAPOPortOptsToMAPOPort_detail (fldPath : field.Path)
    (capoPort : capov1.PortOpts) (mapoPort : mapiv1alpha1.PortOpts)
    (warnings : GoSlice Warning) (errors : field.ErrorList)
    (h : convertCAPOPortOptsToMAPOPort fldPath capoPort = .ret (mapoPort, warnings, errors)) :
    ∀ err ∈ errors.toList,
      err.Detail ≠ "A network must be referenced by a UUID or filter" := by
  intro err herr
  rw [(convertCAPOPortOptsToMAPOPort_ret _ _ _ _ _ h).2.2.2,
    convertCAPOFixedIPsToMAPOFixedIPs_snd] at herr
  simp only [List.mem_append, List.mem_map] at herr
  rcases herr with (((⟨p, -, rfl⟩ | herr) | herr) | herr) | herr
  · simp [field.Invalid]
  · split at herr
    · simp only [List.mem_singleton] at herr; subst herr; simp [field.Invalid]
    · simp at herr
  · split at herr
    · simp only [List.mem_singleton] at herr; subst herr; simp [field.Invalid]
    · simp at herr
  · split at herr
    · simp only [List.mem_singleton] at herr; subst herr; simp [field.Invalid]
    · simp at herr
  · rw [convertCAPOPortSecurityGroups_detail _ _ _ err herr]; decide

/-- Whenever the loop over the ports returns, none of its errors carries the
message of the network helper for a network without ID and filter. -/
theorem convertCAPOPortOptsLoop_detail (fldPath : field.Path) (i : Nat)
    (capoPorts : List capov1.PortOpts)
    (networks : List mapiv1alpha1.NetworkParam) (ports : List mapiv1alpha1.PortOpts)
    (warnings : List Warning) (errors : List field.Error)
    (h : convertCAPOPortOptsLoop fldPath i capoPorts =
      .ret (networks, ports, warnings, errors)) :
    ∀ err ∈ errors, err.Detail ≠ "A network must be referenced by a UUID or filter" := by
  induction capoPorts generalizing i networks ports warnings errors with
  | nil =>
    simp only [convertCAPOPortOptsLoop, Run.ret.injEq, Prod.mk.injEq] at h
    intro err herr
    rw [← h.2.2.2] at herr
    simp at herr
  | cons capoPort rest ih =>
    intro err herr
    rcases convertCAPOPortOptsLoop_cons_ret fldPath i capoPort rest networks ports warnings
      errors h with
      ⟨hv, mapoNetwork, warns, errs, networks1, warnings1, errors1, hhelper, hrest, -, -, he⟩ |
      ⟨-, mapoPort, warns, errs, ports1, warnings1, errors1, hhelper, hrest, -, -, he⟩
    · obtain ⟨-, network, hnet, herrs⟩ :=
        convertCAPOPortOptsToMAPONetwork_ret _ _ _ _ _ hhelper
      have hfilter : network.Filter.isNone = false := by
        rw [hnet] at hv
        cases hf : network.Filter with
        | none => simp [hf] at hv
        | some f => rfl
      rw [hfilter, Bool.and_false] at herrs
      rw [he, herrs] at herr
      exact ih (i + 1) networks1 ports warnings1 errors1 hrest err (by simpa using herr)
    · rw [he, List.mem_append] at herr
      rcases herr with herr | herr
      · exact convertCAPOPortOptsToMAPOPort_detail _ _ _ _ _ hhelper err herr
      · exact ih (i + 1) networks ports1 warnings1 errors1 hrest err herr

/-- Whenever the image conversion returns, the image has a filter, and the
warnings are the one for the filter tags when these are non-nil and none
otherwise. -/
theorem convertCAPOImageParamToMAPO_warnings (fldPath : field.Path)
    (capoImage : capov1.ImageParam) (image : String) (warnings : GoSlice Warning)
    (errors : field.ErrorList)
    (h : convertCAPOImageParamToMAPO fldPath capoImage = .ret (image, warnings, errors)) :
    ∃ filter, capoImage.Filter = some filter ∧
      warnings.toList =
        if filter.Tags.isNil then []
        else [⟨field.Invalid (fldPath.Child "filter" ["tags"]) (.strings filter.Tags)
          "MAPO does not support filtering image by tags; ignoring"⟩] := by
  simp only [convertCAPOImageParamToMAPO] at h
  cases hf : capoImage.Filter with
  | none => simp [hf] at h
  | some filter =>
    cases hname : filter.Name with
    | none => simp [hf, hname] at h
    | some name =>
      simp only [hf, hname, deref_some, Run.ret_bind, Run.pure_eq, Run.ret.injEq,
        Prod.mk.injEq] at h
      obtain ⟨-, hw, -⟩ := h
      subst hw
      refine ⟨filter, rfl, ?_⟩
      cases filter.Tags.isNil <;> simp [GoSlice.toList_push]

/-! ## Lemmas on the security groups and the port profile -/

/-- Go `joinTags` is the comma-join of the tags (the empty text for no tag). -/
theorem joinTags_eq_intercalate (tags : GoSlice String) :
    joinTags tags = String.intercalate "," tags.toList := by
  unfold joinTags
  split
  · rename_i h
    rw [GoSlice.toList_eq_nil_of_len tags h]
    rfl
  · rfl

/-- Entries of the loop of the machine-level security-group conversion. -/
theorem convertCAPOSecurityGroupsLoop_fst (fldPath : field.Path) (i : Nat)
    (groups : List capov1.SecurityGroupParam) :
    (convertCAPOSecurityGroupsLoop fldPath i groups).1 =
      groups.map (fun g => (convertCAPOSecurityGroup fldPath 0 g).1) := by
  induction groups generalizing i with
  | nil => rfl
  | cons g rest ih =>
    simp only [convertCAPOSecurityGroupsLoop, List.map_cons]
    rw [← ih (i + 1)]
    rfl

/-- Errors of the loop of the machine-level security-group conversion: one for
each group with neither ID nor filter, at its index, in order. -/
theorem convertCAPOSecurityGroupsLoop_snd (fldPath : field.Path) (i : Nat)
    (groups : List capov1.SecurityGroupParam) :
    (convertCAPOSecurityGroupsLoop fldPath i groups).2 =
      ((groups.enumFrom i).filter (fun p => p.2.ID.isNone && p.2.Filter.isNone)).map
        (fun p => field.Invalid (fldPath.Index p.1) (.securityGroupParam p.2)
          "A security group must be referenced by a UUID or filter") := by
  induction groups generalizing i with
  | nil => rfl
  | cons g rest ih =>
    simp only [convertCAPOSecurityGroupsLoop, List.enumFrom_cons, List.filter_cons]
    rw [ih (i + 1)]
    simp only [convertCAPOSecurityGroup]
    cases hc : (g.ID.isNone && g.Filter.isNone) <;> simp [hc]

/-- Whenever the network helper returns, the profile of the result is nil for a
nil profile and the map built from the profile otherwise. -/
theorem convertCAPOPortOptsToMAPONetwork_profile (fldPath : field.Path)
    (capoPort : capov1.PortOpts) (mapoNetwork : mapiv1alpha1.NetworkParam)
    (warnings : GoSlice Warning) (errors : field.ErrorList)
    (h : convertCAPOPortOptsToMAPONetwork fldPath capoPort =
      .ret (mapoNetwork, warnings, errors)) :
    mapoNetwork.Profile = capoPort.Profile.map convertCAPOBindingProfile := by
  simp only [convertCAPOPortOptsToMAPONetwork] at h
  cases hn : capoPort.Network with
  | none => simp [hn] at h
  | some network =>
    cases hs : convertCAPOFixedIPsToMAPOSubnets capoPort capoPort.FixedIPs.toList with
    | panic => simp [hn, hs] at h
    | ret subnets =>
      simp only [hn, hs, deref_some, Run.ret_bind, Run.pure_eq, Run.ret.injEq,
        Prod.mk.injEq] at h
      obtain ⟨h1, -, -⟩ := h
      subst h1
      obtain ⟨nid, nfilter⟩ := network
      cases nid <;> cases nfilter <;> cases capoPort.Profile <;> rfl

/-- Whenever the port helper returns, the profile of the result is nil for a nil
profile and the map built from the profile otherwise. -/
theorem convertCAPOPortOptsToMAPOPort_profile (fldPath : field.Path)
    (capoPort : capov1.PortOpts) (mapoPort : mapiv1alpha1.PortOpts)
    (warnings : GoSlice Warning) (errors : field.ErrorList)
    (h : convertCAPOPortOptsToMAPOPort fldPath capoPort = .ret (mapoPort, warnings, errors)) :
    mapoPort.Profile = capoPort.Profile.map convertCAPOBindingProfile := by
  simp only [convertCAPOPortOptsToMAPOPort] at h
  cases hn : capoPort.Network with
  | none => simp [hn] at h
  | some network =>
    cases hi : network.ID with
    | none => simp [hn, hi] at h
    | some networkID =>
      simp only [hn, hi, deref_some, Run.ret_bind, Run.pure_eq, Run.ret.injEq,
        Prod.mk.injEq] at h
      obtain ⟨h1, -, -⟩ := h
      subst h1
      cases capoPort.Profile <;> rfl

/-- The keys and values of the map built from a binding profile. -/
theorem convertCAPOBindingProfile_get (profile : capov1.BindingProfile) :
    GoMap.get (convertCAPOBindingProfile profile) "capabilities" =
      (if profile.OVSHWOffload = some true then some "switchdev" else none) ∧
    GoMap.get (convertCAPOBindingProfile profile) "trusted" =
      (if profile.TrustedVF = some true then some "true" else none) ∧
    ∀ k, (GoMap.get (convertCAPOBindingProfile profile) k).isSome = true →
      k = "capabilities" ∨ k = "trusted" := by
  obtain ⟨offload, trusted⟩ := profile
  rcases offload with _ | _ | _ <;> rcases trusted with _ | _ | _ <;>
    refine ⟨by decide, by decide, ?_⟩ <;> intro k hk <;>
    simp only [convertCAPOBindingProfile, GoMap.set, GoMap.get, reduceCtorEq, if_false,
      if_true, Option.isSome_none, Bool.false_eq_true, Option.some.injEq, Bool.true_eq_false,
      Bool.false_eq_true] at hk <;>
    · repeat' split at hk
      all_goals first
        | (subst_vars; simp)
        | simp at hk

/-! ## Lemmas on the map of server metadata -/

/-- Reading a key just written gives the value written. -/
theorem GoMap.get_set_self (m : GoMap) (k v : String) : GoMap.get (GoMap.set m k v) k = some v := by
  induction m with
  | nil => simp [GoMap.set, GoMap.get]
  | cons e rest ih =>
    obtain ⟨k0, v0⟩ := e
    simp only [GoMap.set]
    split
    · simp [GoMap.get]
    · rename_i hne
      simp [GoMap.get, hne, ih]

/-- Writing a key leaves every other key as it was. -/
theorem GoMap.get_set_other (m : GoMap) (k v k1 : String) (h : k ≠ k1) :
    GoMap.get (GoMap.set m k v) k1 = GoMap.get m k1 := by
  induction m with
  | nil => simp [GoMap.set, GoMap.get, h]
  | cons e rest ih =>
    obtain ⟨k0, v0⟩ := e
    simp only [GoMap.set]
    split
    · rename_i heq
      subst heq
      simp [GoMap.get, h]
    · simp only [GoMap.get, ih]

/-- Writing a key adds an entry exactly when the key was not bound. -/
theorem GoMap.length_set (m : GoMap) (k v : String) :
    (GoMap.set m k v).length = if (GoMap.get m k).isSome then m.length else m.length + 1 := by
  induction m with
  | nil => simp [GoMap.set, GoMap.get]
  | cons e rest ih =>
    obtain ⟨k0, v0⟩ := e
    simp only [GoMap.set, GoMap.get]
    split
    · simp
    · simp only [List.length_cons, ih]
      split <;> rfl

/-- A key is bound exactly when it is among the keys of the map. -/
theorem GoMap.get_isSome_iff_mem (m : GoMap) (k : String) :
    (GoMap.get m k).isSome = true ↔ k ∈ m.map (·.1) := by
  induction m with
  | nil => simp [GoMap.get]
  | cons e rest ih =>
    obtain ⟨k0, v0⟩ := e
    simp only [GoMap.get, List.map_cons, List.mem_cons]
    split
    · rename_i heq
      simp [heq]
    · rename_i hne
      rw [ih]
      constructor
      · exact Or.inr
      · rintro (h | h)
        · exact absurd h.symm hne
        · exact h

/-- The keys of a map after a write: the old keys, and the written key at the
end when it was not bound. -/
theorem GoMap.keys_set (m : GoMap) (k v : String) :
    (GoMap.set m k v).map (·.1) =
      if k ∈ m.map (·.1) then m.map (·.1) else m.map (·.1) ++ [k] := by
  induction m with
  | nil => simp [GoMap.set]
  | cons e rest ih =>
    obtain ⟨k0, v0⟩ := e
    simp only [GoMap.set]
    split
    · rename_i heq
      subst heq
      simp
    · rename_i hne
      simp only [List.map_cons, ih, List.mem_cons]
      have hne1 : ¬ k = k0 := fun h => hne h.symm
      by_cases hmem : k ∈ rest.map (·.1)
      · simp [hmem]
      · simp [hmem, hne1]

/-- The map that the metadata loop builds from a map `acc`: each key of the list
is bound to the value of its last occurrence, every other key is as in `acc`. -/
theorem serverMetadata_foldl_get (entries : List capov1.ServerMetadata) (acc : GoMap)
    (k : String) :
    GoMap.get (entries.foldl (fun m e => GoMap.set m e.Key e.Value) acc) k =
      match entries.reverse.find? (fun e => e.Key = k) with
      | some e => some e.Value
      | none => GoMap.get acc k := by
  induction entries generalizing acc with
  | nil => rfl
  | cons e rest ih =>
    simp only [List.foldl_cons, List.reverse_cons, List.find?_append, ih]
    cases hfind : rest.reverse.find? (fun e => e.Key = k) with
    | some e1 => rfl
    | none =>
      simp only [Option.none_or, List.find?_cons, List.find?_nil]
      by_cases hk : e.Key = k
      · subst hk
        simp [GoMap.get_set_self]
      · simp [hk, GoMap.get_set_other _ _ _ _ hk]

/-- The keys of the map that the metadata loop builds stay distinct, and they
are the keys of `acc` followed by the new keys of the list. -/
theorem serverMetadata_foldl_keys (entries : List capov1.ServerMetadata) (acc : GoMap)
    (hacc : (acc.map (·.1)).Nodup) :
    ((entries.foldl (fun m e => GoMap.set m e.Key e.Value) acc).map (·.1)).Nodup := by
  induction entries generalizing acc with
  | nil => exact hacc
  | cons e rest ih =>
    apply ih
    rw [GoMap.keys_set]
    split
    · exact hacc
    · rename_i hmem
      exact List.Nodup.append hacc (List.nodup_singleton _) (by simpa using hmem)

/-- The number of entries of the map that the metadata loop builds from `acc`,
for a list of distinct keys none of which is bound in `acc`. -/
theorem serverMetadata_foldl_length (entries : List capov1.ServerMetadata) (acc : GoMap)
    (hnodup : (entries.map (·.Key)).Nodup)
    (hfresh : ∀ e ∈ entries, GoMap.get acc e.Key = none) :
    (entries.foldl (fun m e => GoMap.set m e.Key e.Value) acc).length =
      acc.length + entries.length := by
  induction entries generalizing acc with
  | nil => rfl
  | cons e rest ih =>
    simp only [List.map_cons, List.nodup_cons] at hnodup
    simp only [List.foldl_cons]
    rw [ih _ hnodup.2]
    · rw [GoMap.length_set, hfresh e (List.mem_cons_self _ _)]
      simp only [Option.isSome_none, Bool.false_eq_true, if_false, List.length_cons]
      omega
    · intro e1 he1
      have hne : e.Key ≠ e1.Key := by
        intro heq
        exact hnodup.1 (heq ▸ List.mem_map_of_mem _ he1)
      rw [GoMap.get_set_other _ _ _ _ hne]
      exact hfresh e1 (List.mem_cons_of_mem _ he1)

/-! ## Lemmas on the IPClaim webhook -/

/-- The result of `ValidateUpdate` on an IP claim and an old object that is a
non-nil IP claim. -/
theorem ValidateUpdate_eq (c oldIPClaim : ipamv1.IPClaim) :
    ipamv1.IPClaim.ValidateUpdate (some c) (.ipClaim (some oldIPClaim)) =
      .ret (.nil,
        if c.Spec.Pool.Name ≠ oldIPClaim.Spec.Pool.Name ∨
            c.Spec.Pool.Namespace ≠ oldIPClaim.Spec.Pool.Namespace ∨
            c.Spec.Pool.Kind ≠ oldIPClaim.Spec.Pool.Kind then
          some (.NewInvalid { Group := "ipam.metal3.io", Kind := "IPClaim" } c.ObjectMeta.Name
            (.ofList [field.Invalid (field.NewPath "spec" ["pool"])
              (.objectReference c.Spec.Pool) "cannot be modified"]))
        else none) := by
  by_cases hname : c.Spec.Pool.Name = oldIPClaim.Spec.Pool.Name
  · by_cases hns : c.Spec.Pool.Namespace = oldIPClaim.Spec.Pool.Namespace
    · by_cases hkind : c.Spec.Pool.Kind = oldIPClaim.Spec.Pool.Kind
      · simp [ipamv1.IPClaim.ValidateUpdate, hname, hns, hkind, GoSlice.len]
      · simp [ipamv1.IPClaim.ValidateUpdate, hname, hns, hkind, GoSlice.len, GoSlice.push,
          GoSlice.append, ipamv1.GroupVersion, schema.GroupVersion.WithKindGroupKind]
    · simp [ipamv1.IPClaim.ValidateUpdate, hname, hns, GoSlice.len, GoSlice.push,
        GoSlice.append, ipamv1.GroupVersion, schema.GroupVersion.WithKindGroupKind]
  · simp [ipamv1.IPClaim.ValidateUpdate, hname, GoSlice.len, GoSlice.push,
      GoSlice.append, ipamv1.GroupVersion, schema.GroupVersion.WithKindGroupKind]

/-! ## Sample conversions -/

/-- The conversion of three security groups, the second with neither ID nor
filter: three groups come back, and one error, at index 1. -/
theorem sampleSecurityGroups_converted :
    convertCAPOSecurityGroupstoMAPO (field.NewPath "spec" ["securityGroups"])
        sampleSecurityGroups =
      (.ofList [
          { UUID := "sg-uuid" },
          {},
          { Name := "default", Filter := { Tags := "a,b", NotTags := "c" } } ],
        .ofList [
          { Type_ := .ErrorTypeInvalid
            Field := "spec.securityGroups[1]"
            BadValue := .securityGroupParam {}
            Detail := "A security group must be referenced by a UUID or filter" } ]) := by
  decide

/-- The map of three metadata entries with a repeated key: two entries, the
repeated key bound to its last value. -/
theorem sampleServerMetadata_converted :
    convertCAPOServerMetadataToMAPO sampleServerMetadata =
      [("role", "infra"), ("zone", "az1")] := by
  decide

/-- The conversion of an identity reference with a name, and of the same
reference without its name. -/
theorem sampleIdentityRef_converted :
    convertCAPOOpenStackIdentityReferenceToMAPO (some sampleIdentityRef) =
      ("openstack", some { Name := "openstack-cloud-credentials" }) ∧
    convertCAPOOpenStackIdentityReferenceToMAPO (some { sampleIdentityRef with Name := "" }) =
      ("", none) := by
  decide

/-- The fuzz functions on the filter side: the UUID is cleared, and so are the
fields of the drawn filter that the conversion does not support. -/
theorem sampleContinueFilterSide_fuzzed :
    openstackProviderSpecFuzzerFuncs.networkParam { UUID := "old" } sampleContinueFilterSide =
      { Filter := { Name := "net-a" } } ∧
    openstackProviderSpecFuzzerFuncs.securityGroupParam { UUID := "old" }
        sampleContinueFilterSide =
      { Name := "fuzzed", Filter := { Description := "group" } } := by
  decide

/-- The webhook on an unchanged claim, on a claim whose pool reference moved to
another namespace, and on an old object that is a nil `*IPClaim`. -/
theorem sampleIPClaim_validated :
    ipamv1.IPClaim.ValidateUpdate (some sampleIPClaim) (.ipClaim (some sampleIPClaim)) =
      .ret (.nil, none) ∧
    ipamv1.IPClaim.ValidateUpdate (some sampleIPClaimMoved) (.ipClaim (some sampleIPClaim)) =
      .ret (.nil, some (.NewInvalid { Group := "ipam.metal3.io", Kind := "IPClaim" } "claim"
        (.ofList [
          { Type_ := .ErrorTypeInvalid
            Field := "spec.pool"
            BadValue := .objectReference sampleIPClaimMoved.Spec.Pool
            Detail := "cannot be modified" } ]))) ∧
    ipamv1.IPClaim.ValidateUpdate (some sampleIPClaim) (.ipClaim none) =
      .ret (.nil, some (.NewInternalError (.errorsNew "unable to convert existing object"))) := by
  decide

/-! ## Claims C31 to C40 -/

/-- Claim C31: when every port has a non-nil `Network` and either (a) a non-nil
`Network.Filter` and only fixed IPs whose `Subnet` is non-nil with a non-nil
`ID` and a non-nil `Filter`, or (b) a nil `Network.Filter` and a non-nil
`Network.ID`, `convertCAPOPortOptsToMAPO` returns: no nil pointer is
dereferenced. -/
theorem ports_conversion_returns (fldPath : field.Path) (capoPorts : GoSlice capov1.PortOpts)
    (h : ∀ capoPort ∈ capoPorts.toList,
      capoPort.Network.isSome = true ∧
      (((capoPort.Network.bind (·.Filter)).isSome = true ∧
          ∀ fip ∈ capoPort.FixedIPs.toList,
            fip.Subnet.isSome = true ∧ (fip.Subnet.bind (·.ID)).isSome = true ∧
              (fip.Subnet.bind (·.Filter)).isSome = true) ∨
        ((capoPort.Network.bind (·.Filter)).isNone = true ∧
          (capoPort.Network.bind (·.ID)).isSome = true))) :
    ∃ networks ports warnings errors,
      convertCAPOPortOptsToMAPO fldPath capoPorts = .ret (networks, ports, warnings, errors) := by
  obtain ⟨r, hr⟩ := convertCAPOPortOptsLoop_returns fldPath 0 capoPorts.toList h
  exact ⟨.ofList r.1, .ofList r.2.1, .ofList r.2.2.1, .ofList r.2.2.2, by
    simp [convertCAPOPortOptsToMAPO, hr]⟩

/-- Witness for C31: a list of three ports, two converted through the network
helper and one through the port helper. -/
theorem ports_conversion_returns_witness :
    ∃ networks ports warnings errors,
      convertCAPOPortOptsToMAPO (field.NewPath "spec" ["ports"]) samplePortsConvertible =
        .ret (networks, ports, warnings, errors) :=
  ports_conversion_returns (field.NewPath "spec" ["ports"]) samplePortsConvertible (by decide)

/-- Claim C32: whenever `convertCAPOPortOptsToMAPO` returns, the networks and the
ports it returns are together as many as the input ports; the networks are, in
input order, the results of the network helper on exactly the ports whose
`Network` is non-nil with a non-nil `Filter`, and the ports are, in input order,
the results of the port helper on exactly the remaining ports. -/
theorem ports_split_by_network_filter (fldPath : field.Path)
    (capoPorts : GoSlice capov1.PortOpts)
    (networks : GoSlice mapiv1alpha1.NetworkParam) (ports : GoSlice mapiv1alpha1.PortOpts)
    (warnings : GoSlice Warning) (errors : field.ErrorList)
    (h : convertCAPOPortOptsToMAPO fldPath capoPorts = .ret (networks, ports, warnings, errors)) :
    networks.len + ports.len = capoPorts.len ∧
    List.Forall₂
      (fun (p : Nat × capov1.PortOpts) (mapoNetwork : mapiv1alpha1.NetworkParam) =>
        ∃ warns errs, convertCAPOPortOptsToMAPONetwork (fldPath.Index p.1) p.2 =
          .ret (mapoNetwork, warns, errs))
      (capoPorts.toList.enum.filter (fun p => (p.2.Network.bind (·.Filter)).isSome))
      networks.toList ∧
    List.Forall₂
      (fun (p : Nat × capov1.PortOpts) (mapoPort : mapiv1alpha1.PortOpts) =>
        ∃ warns errs, convertCAPOPortOptsToMAPOPort (fldPath.Index p.1) p.2 =
          .ret (mapoPort, warns, errs))
      (capoPorts.toList.enum.filter (fun p => !(p.2.Network.bind (·.Filter)).isSome))
      ports.toList :=
  convertCAPOPortOptsLoop_split fldPath 0 capoPorts.toList networks.toList ports.toList
    warnings.toList errors.toList (convertCAPOPortOptsToMAPO_ret _ _ _ _ _ _ h).1

/-- Witness for C32: of three ports, the first and the third carry a network
filter and give the two networks, the second gives the one port. -/
theorem ports_split_by_network_filter_witness :
    ∃ networks ports warnings errors,
      convertCAPOPortOptsToMAPO (field.NewPath "spec" ["ports"]) samplePortsConvertible =
        .ret (networks, ports, warnings, errors) ∧
      networks.len = 2 ∧ ports.len = 1 ∧
      networks.len + ports.len = samplePortsConvertible.len :=
  ⟨_, _, _, _, rfl, rfl, rfl,
    (ports_split_by_network_filter (field.NewPath "spec" ["ports"]) samplePortsConvertible
      _ _ _ _ rfl).1⟩

/-- Claim C33: whenever `convertCAPOPortOptsToMAPO` returns, its warnings list is
empty (and non-nil); so whenever `toProviderSpec` returns, its warnings list is
non-empty exactly when the image has a filter whose `Tags` is non-nil. -/
theorem warnings_only_from_image_tags (m : machineAndOpenStackMachineAndOpenStackCluster)
    (openstackMachine : capov1.OpenStackMachine)
    (spec : Option mapiv1alpha1.OpenstackProviderSpec) (warnings : GoSlice Warning)
    (errors : field.ErrorList)
    (hosm : m.openstackMachine = some openstackMachine)
    (h : toProviderSpec m = .ret (spec, warnings, errors)) :
    (∀ (fldPath : field.Path) (capoPorts : GoSlice capov1.PortOpts)
        (networks : GoSlice mapiv1alpha1.NetworkParam) (ports : GoSlice mapiv1alpha1.PortOpts)
        (portWarnings : GoSlice Warning) (portErrors : field.ErrorList),
      convertCAPOPortOptsToMAPO fldPath capoPorts =
        .ret (networks, ports, portWarnings, portErrors) →
      portWarnings = .ofList []) ∧
    (warnings.len > 0 ↔
      ∃ filter, openstackMachine.Spec.Image.Filter = some filter ∧
        filter.Tags.isNil = false) := by
  have hports : ∀ (fldPath : field.Path) (capoPorts : GoSlice capov1.PortOpts)
      (networks : GoSlice mapiv1alpha1.NetworkParam) (ports : GoSlice mapiv1alpha1.PortOpts)
      (portWarnings : GoSlice Warning) (portErrors : field.ErrorList),
      convertCAPOPortOptsToMAPO fldPath capoPorts =
        .ret (networks, ports, portWarnings, portErrors) →
      portWarnings = .ofList [] := by
    intro fldPath capoPorts networks ports portWarnings portErrors hret
    obtain ⟨hloop, hw, -⟩ := convertCAPOPortOptsToMAPO_ret _ _ _ _ _ _ hret
    rw [hw, convertCAPOPortOptsLoop_warnings _ _ _ _ _ _ _ hloop]
  refine ⟨hports, ?_⟩
  obtain ⟨osm, machine, abd, e1, image, w2, e2, nets, ports, w3, e3, sgID, sgName, e5, rv,
    hosm1, hmachine, h1, h2, h3, h5, h6⟩ := toProviderSpec_ret_inv m _ h
  have hsame : osm = openstackMachine := by
    rw [hosm] at hosm1
    exact (Option.some.inj hosm1).symm
  subst hsame
  obtain ⟨cfg, errs, -, heq⟩ :=
    toProviderSpec_eq m osm machine abd e1 image w2 e2 nets ports w3 e3 sgID sgName e5 rv
      hosm hmachine h1 h2 h3 h5 h6
  have hw3 : w3 = .ofList [] := hports _ _ _ _ _ _ h3
  obtain ⟨filter, hfilter, hw2⟩ := convertCAPOImageParamToMAPO_warnings _ _ _ _ _ h2
  have hwarn : warnings.toList = w2.toList := by
    rw [heq] at h
    split at h <;>
      · simp only [Run.ret.injEq, Prod.mk.injEq] at h
        rw [← h.2.1, hw3]
        simp only [GoSlice.toList_append, GoSlice.toList_nil, GoSlice.toList_ofList,
          List.nil_append, List.append_nil]
  rw [GoSlice.len, hwarn, hw2, hfilter]
  cases ht : filter.Tags.isNil <;> simp [ht]

/-- Witness for C33: a machine whose image filter carries tags; the conversion
returns one warning. -/
theorem warnings_only_from_image_tags_witness :
    ∃ spec warnings errors,
      toProviderSpec (FromMachineAndOpenStackMachineAndOpenStackCluster (some {})
        (some sampleOpenStackMachineImageTags) (some {})) = .ret (spec, warnings, errors) ∧
      warnings.len = 1 ∧
      (warnings.len > 0 ↔
        ∃ filter, sampleOpenStackMachineImageTags.Spec.Image.Filter = some filter ∧
          filter.Tags.isNil = false) :=
  ⟨_, _, _, rfl, rfl,
    (warnings_only_from_image_tags
      (FromMachineAndOpenStackMachineAndOpenStackCluster (some {})
        (some sampleOpenStackMachineImageTags) (some {}))
      sampleOpenStackMachineImageTags _ _ _ rfl rfl).2⟩

/-- Claim C34: `convertCAPOSecurityGroupstoMAPO` returns one group for each input
group, in order, also for a group in error: the i-th result has the ID of the
i-th input as its UUID (empty for no ID) and, for an input with a filter, the
name of the filter as its Name and the comma-join of each tag list of the filter
as the tag field; the errors are exactly one Invalid error at path index i for
each group i with neither ID nor filter, in order. -/
theorem security_groups_converted (fldPath : field.Path)
    (capoSecurityGroups : GoSlice capov1.SecurityGroupParam) :
    (convertCAPOSecurityGroupstoMAPO fldPath capoSecurityGroups).1.len = capoSecurityGroups.len ∧
    (∀ (i : Nat) (capoSecurityGroup : capov1.SecurityGroupParam),
      capoSecurityGroups.toList[i]? = some capoSecurityGroup →
      ∃ mapoSecurityGroup,
        (convertCAPOSecurityGroupstoMAPO fldPath capoSecurityGroups).1.toList[i]? =
          some mapoSecurityGroup ∧
        mapoSecurityGroup.UUID = capoSecurityGroup.ID.getD "" ∧
        (capoSecurityGroup.Filter = none →
          mapoSecurityGroup.Name = "" ∧ mapoSecurityGroup.Filter = {}) ∧
        (∀ filter, capoSecurityGroup.Filter = some filter →
          mapoSecurityGroup.Name = filter.Name ∧
          mapoSecurityGroup.Filter.Tags = String.intercalate "," filter.Tags.toList ∧
          mapoSecurityGroup.Filter.TagsAny = String.intercalate "," filter.TagsAny.toList ∧
          mapoSecurityGroup.Filter.NotTags = String.intercalate "," filter.NotTags.toList ∧
          mapoSecurityGroup.Filter.NotTagsAny =
            String.intercalate "," filter.NotTagsAny.toList)) ∧
    (convertCAPOSecurityGroupstoMAPO fldPath capoSecurityGroups).2.toList =
      (capoSecurityGroups.toList.enum.filter (fun p => p.2.ID.isNone && p.2.Filter.isNone)).map
        (fun p => field.Invalid (fldPath.Index p.1) (.securityGroupParam p.2)
          "A security group must be referenced by a UUID or filter") := by
  have hfst : (convertCAPOSecurityGroupstoMAPO fldPath capoSecurityGroups).1.toList =
      capoSecurityGroups.toList.map (fun g => (convertCAPOSecurityGroup fldPath 0 g).1) := by
    rw [← convertCAPOSecurityGroupsLoop_fst fldPath 0]
    rfl
  refine ⟨?_, ?_, ?_⟩
  · rw [GoSlice.len, hfst, List.length_map]
    rfl
  · intro i g hg
    refine ⟨(convertCAPOSecurityGroup fldPath 0 g).1, ?_, ?_, ?_, ?_⟩
    · rw [hfst, List.getElem?_map, hg]
      rfl
    · simp only [convertCAPOSecurityGroup]
      cases hf : g.Filter <;> cases hid : g.ID <;> rfl
    · intro hf
      simp [convertCAPOSecurityGroup, hf]
    · intro filter hf
      simp [convertCAPOSecurityGroup, hf, joinTags_eq_intercalate]
  · exact convertCAPOSecurityGroupsLoop_snd fldPath 0 capoSecurityGroups.toList

/-- Claim C35: the port profile is mapped in the same way by
`convertCAPOPortOptsToMAPONetwork` and by `convertCAPOPortOptsToMAPOPort`. For the
profile that either helper returns: it is nil exactly when the input profile is
nil; otherwise it is a map in which `capabilities` is bound, to `switchdev`,
exactly when `OVSHWOffload` is set and true, `trusted` is bound, to `true`,
exactly when `TrustedVF` is set and true, and no other key is bound. On a port on
which both helpers return, they return the same profile. -/
theorem port_profile_mapping (fldPath : field.Path) (capoPort : capov1.PortOpts)
    (mapoProfile : Option GoMap)
    (h : (∃ mapoNetwork warns errs,
          convertCAPOPortOptsToMAPONetwork fldPath capoPort = .ret (mapoNetwork, warns, errs) ∧
          mapoNetwork.Profile = mapoProfile) ∨
        (∃ mapoPort warns errs,
          convertCAPOPortOptsToMAPOPort fldPath capoPort = .ret (mapoPort, warns, errs) ∧
          mapoPort.Profile = mapoProfile)) :
    (mapoProfile = none ↔ capoPort.Profile = none) ∧
    (∀ profile, capoPort.Profile = some profile →
      ∃ mapoPortProfile, mapoProfile = some mapoPortProfile ∧
        GoMap.get mapoPortProfile "capabilities" =
          (if profile.OVSHWOffload = some true then some "switchdev" else none) ∧
        GoMap.get mapoPortProfile "trusted" =
          (if profile.TrustedVF = some true then some "true" else none) ∧
        ∀ k, (GoMap.get mapoPortProfile k).isSome = true →
          k = "capabilities" ∨ k = "trusted") ∧
    (∀ (p1 p2 : field.Path) (mapoNetwork : mapiv1alpha1.NetworkParam)
        (mapoPort : mapiv1alpha1.PortOpts) (w1 w2 : GoSlice Warning) (e1 e2 : field.ErrorList),
      convertCAPOPortOptsToMAPONetwork p1 capoPort = .ret (mapoNetwork, w1, e1) →
      convertCAPOPortOptsToMAPOPort p2 capoPort = .ret (mapoPort, w2, e2) →
      mapoNetwork.Profile = mapoPort.Profile) := by
  have hprofile : mapoProfile = capoPort.Profile.map convertCAPOBindingProfile := by
    rcases h with ⟨mapoNetwork, warns, errs, hret, hp⟩ | ⟨mapoPort, warns, errs, hret, hp⟩
    · rw [← hp]; exact convertCAPOPortOptsToMAPONetwork_profile _ _ _ _ _ hret
    · rw [← hp]; exact convertCAPOPortOptsToMAPOPort_profile _ _ _ _ _ hret
  refine ⟨?_, ?_, ?_⟩
  · rw [hprofile]
    cases capoPort.Profile <;> simp
  · intro profile hp
    refine ⟨convertCAPOBindingProfile profile, by rw [hprofile, hp]; rfl, ?_⟩
    exact convertCAPOBindingProfile_get profile
  · intro p1 p2 mapoNetwork mapoPort w1 w2 e1 e2 h1 h2
    rw [convertCAPOPortOptsToMAPONetwork_profile _ _ _ _ _ h1,
      convertCAPOPortOptsToMAPOPort_profile _ _ _ _ _ h2]

/-- Witness for C35: a port by network ID whose profile asks for hardware
offload only: both helpers return the map with the one key `capabilities`. -/
theorem port_profile_mapping_witness :
    (∃ mapoPort warns errs,
      convertCAPOPortOptsToMAPOPort (field.NewPath "spec") samplePortProfile =
        .ret (mapoPort, warns, errs) ∧
      mapoPort.Profile = some [("capabilities", "switchdev")]) ∧
    (∃ mapoNetwork warns errs,
      convertCAPOPortOptsToMAPONetwork (field.NewPath "spec") samplePortProfile =
        .ret (mapoNetwork, warns, errs) ∧
      mapoNetwork.Profile = some [("capabilities", "switchdev")]) ∧
    ((some [("capabilities", "switchdev")] : Option GoMap) = none ↔
      samplePortProfile.Profile = none) :=
  ⟨⟨_, _, _, rfl, rfl⟩, ⟨_, _, _, rfl, rfl⟩,
    (port_profile_mapping (field.NewPath "spec") samplePortProfile
      (some [("capabilities", "switchdev")]) (Or.inr ⟨_, _, _, rfl, rfl⟩)).1⟩

/-- Claim C36: the map `convertCAPOServerMetadataToMAPO` returns binds exactly
the keys of the list, each to the value of its last occurrence in the list; its
keys are distinct, so for a list without duplicate keys it has as many entries
as the list. The map is never nil: the result type has no nil map, and the
provider spec that `toProviderSpec` returns holds it as a non-nil pointer. -/
theorem server_metadata_map (capoServerMeta : GoSlice capov1.ServerMetadata) :
    (∀ k, (GoMap.get (convertCAPOServerMetadataToMAPO capoServerMeta) k).isSome = true ↔
      k ∈ capoServerMeta.toList.map (·.Key)) ∧
    (∀ k, GoMap.get (convertCAPOServerMetadataToMAPO capoServerMeta) k =
      (capoServerMeta.toList.reverse.find? (fun e => e.Key = k)).map (·.Value)) ∧
    ((convertCAPOServerMetadataToMAPO capoServerMeta).map (·.1)).Nodup ∧
    ((capoServerMeta.toList.map (·.Key)).Nodup →
      (convertCAPOServerMetadataToMAPO capoServerMeta).length = capoServerMeta.len) ∧
    (∀ (m : machineAndOpenStackMachineAndOpenStackCluster)
        (openstackMachine : capov1.OpenStackMachine)
        (spec : mapiv1alpha1.OpenstackProviderSpec) (warnings : GoSlice Warning)
        (errors : field.ErrorList),
      m.openstackMachine = some openstackMachine →
      openstackMachine.Spec.ServerMetadata = capoServerMeta →
      toProviderSpec m = .ret (some spec, warnings, errors) →
      spec.ServerMetadata = some (convertCAPOServerMetadataToMAPO capoServerMeta)) := by
  have hget : ∀ k, GoMap.get (convertCAPOServerMetadataToMAPO capoServerMeta) k =
      (capoServerMeta.toList.reverse.find? (fun e => e.Key = k)).map (·.Value) := by
    intro k
    rw [convertCAPOServerMetadataToMAPO, serverMetadata_foldl_get]
    cases capoServerMeta.toList.reverse.find? (fun e => e.Key = k) <;> rfl
  refine ⟨?_, hget, ?_, ?_, ?_⟩
  · intro k
    rw [hget]
    simp only [Option.isSome_map', List.find?_isSome, List.mem_reverse, decide_eq_true_eq,
      List.mem_map]
  · exact serverMetadata_foldl_keys _ [] List.nodup_nil
  · intro hnodup
    rw [convertCAPOServerMetadataToMAPO,
      serverMetadata_foldl_length _ [] hnodup (fun _ _ => rfl)]
    simp [GoSlice.len]
  · intro m openstackMachine spec warnings errors hosm hmeta h
    obtain ⟨osm, machine, abd, e1, image, w2, e2, nets, ports, w3, e3, sgID, sgName, e5, rv,
      hosm1, -, -, -, -, -, -, hspec⟩ := toProviderSpec_spec m spec warnings errors h
    rw [hosm] at hosm1
    rw [hspec, ← Option.some.inj hosm1, hmeta]

/-- Claim C37: `convertCAPOOpenStackIdentityReferenceToMAPO` returns the empty
cloud name and a nil secret reference when the identity reference is nil or its
Name is empty (whatever its CloudName), and otherwise the CloudName of the
reference and a secret reference with the Name of the reference and an empty
Namespace. -/
theorem identity_reference_conversion
    (capoIdentityRef : Option capov1.OpenStackIdentityReference) :
    (capoIdentityRef = none →
      convertCAPOOpenStackIdentityReferenceToMAPO capoIdentityRef = ("", none)) ∧
    (∀ ref, capoIdentityRef = some ref → ref.Name = "" →
      convertCAPOOpenStackIdentityReferenceToMAPO capoIdentityRef = ("", none)) ∧
    (∀ ref, capoIdentityRef = some ref → ref.Name ≠ "" →
      convertCAPOOpenStackIdentityReferenceToMAPO capoIdentityRef =
        (ref.CloudName, some { Name := ref.Name, Namespace := "" })) := by
  refine ⟨?_, ?_, ?_⟩
  · intro h
    rw [h]
    rfl
  · intro ref h hname
    rw [h]
    simp [convertCAPOOpenStackIdentityReferenceToMAPO, hname]
  · intro ref h hname
    rw [h]
    simp [convertCAPOOpenStackIdentityReferenceToMAPO, hname]

/-- Claim C38: whatever the random generator draws, the `NetworkParam` fuzz
function leaves a network whose UUID is empty or whose Filter is the empty
filter, and the `SecurityGroupParam` fuzz function leaves a security group whose
UUID is empty or whose Name is empty and whose Filter is the empty filter, and
whose `Filter.Name` is empty. -/
theorem fuzz_unions_one_sided (c : fuzz.Continue) :
    (∀ network : mapiv1alpha1.NetworkParam,
      (openstackProviderSpecFuzzerFuncs.networkParam network c).UUID = "" ∨
      (openstackProviderSpecFuzzerFuncs.networkParam network c).Filter = {}) ∧
    (∀ securityGroup : mapiv1alpha1.SecurityGroupParam,
      ((openstackProviderSpecFuzzerFuncs.securityGroupParam securityGroup c).UUID = "" ∨
        ((openstackProviderSpecFuzzerFuncs.securityGroupParam securityGroup c).Name = "" ∧
          (openstackProviderSpecFuzzerFuncs.securityGroupParam securityGroup c).Filter = {})) ∧
      (openstackProviderSpecFuzzerFuncs.securityGroupParam securityGroup c).Filter.Name = "") := by
  obtain ⟨choice, s, f, sgf⟩ := c
  refine ⟨?_, ?_⟩
  · intro network
    fin_cases choice
    · exact Or.inr rfl
    · exact Or.inl rfl
  · intro securityGroup
    fin_cases choice
    · exact ⟨Or.inr ⟨rfl, rfl⟩, rfl⟩
    · exact ⟨Or.inl rfl, rfl⟩

/-- Claim C39: for an IP claim and an old object that is a non-nil IP claim,
`ValidateUpdate` returns nil warnings, and an error exactly when the Name, the
Namespace or the Kind of the pool reference differs from the old one; the error
is then the invalid error of the claim, which carries exactly one field error,
of type Invalid, at path `spec.pool`. When the old object is nil, is a nil
`*IPClaim` or is not an IP claim, it returns the internal error. -/
theorem ValidateUpdate_pool_reference (c : ipamv1.IPClaim) :
    (∀ oldIPClaim : ipamv1.IPClaim,
      ∃ err, ipamv1.IPClaim.ValidateUpdate (some c) (.ipClaim (some oldIPClaim)) =
          .ret (.nil, err) ∧
        (err.isSome = true ↔
          (c.Spec.Pool.Name ≠ oldIPClaim.Spec.Pool.Name ∨
            c.Spec.Pool.Namespace ≠ oldIPClaim.Spec.Pool.Namespace ∨
            c.Spec.Pool.Kind ≠ oldIPClaim.Spec.Pool.Kind)) ∧
        (∀ e, err = some e →
          ∃ fieldError, e = .NewInvalid { Group := "ipam.metal3.io", Kind := "IPClaim" }
              c.ObjectMeta.Name (.ofList [fieldError]) ∧
            fieldError.Type_ = .ErrorTypeInvalid ∧ fieldError.Field = "spec.pool" ∧
            fieldError.BadValue = .objectReference c.Spec.Pool ∧
            fieldError.Detail = "cannot be modified")) ∧
    (∀ old : runtime.Object, (∀ oldIPClaim, old ≠ .ipClaim (some oldIPClaim)) →
      ipamv1.IPClaim.ValidateUpdate (some c) old =
        .ret (.nil,
          some (.NewInternalError (.errorsNew "unable to convert existing object")))) := by
  refine ⟨?_, ?_⟩
  · intro oldIPClaim
    refine ⟨_, ValidateUpdate_eq c oldIPClaim, ?_, ?_⟩
    · split <;> simp_all
    · intro e he
      split at he
      · exact ⟨_, (Option.some.inj he).symm, rfl, rfl, rfl, rfl⟩
      · simp at he
  · intro old hold
    cases old with
    | nil => rfl
    | other kind => rfl
    | ipClaim p =>
      cases p with
      | none => rfl
      | some oldIPClaim => exact absurd rfl (hold oldIPClaim)

/-- Claim C40: the error "A network must be referenced by a UUID or filter" of
`convertCAPOPortOptsToMAPONetwork` is never recorded through
`convertCAPOPortOptsToMAPO`: whenever the conversion of a port list returns, no
returned error carries that message, and the network helper returns no error at
all on a port that is routed to it (a port whose `Network` is non-nil with a
non-nil `Filter`). -/
theorem network_error_branch_unreachable (fldPath : field.Path)
    (capoPorts : GoSlice capov1.PortOpts)
    (networks : GoSlice mapiv1alpha1.NetworkParam) (ports : GoSlice mapiv1alpha1.PortOpts)
    (warnings : GoSlice Warning) (errors : field.ErrorList)
    (h : convertCAPOPortOptsToMAPO fldPath capoPorts = .ret (networks, ports, warnings, errors)) :
    (∀ err ∈ errors.toList,
      err.Detail ≠ "A network must be referenced by a UUID or filter") ∧
    (∀ (p : field.Path) (capoPort : capov1.PortOpts) (mapoNetwork : mapiv1alpha1.NetworkParam)
        (warns : GoSlice Warning) (errs : field.ErrorList),
      (capoPort.Network.bind (·.Filter)).isSome = true →
      convertCAPOPortOptsToMAPONetwork p capoPort = .ret (mapoNetwork, warns, errs) →
      errs = .ofList []) := by
  refine ⟨convertCAPOPortOptsLoop_detail fldPath 0 capoPorts.toList networks.toList
    ports.toList warnings.toList errors.toList
    (convertCAPOPortOptsToMAPO_ret _ _ _ _ _ _ h).1, ?_⟩
  intro p capoPort mapoNetwork warns errs hv hhelper
  obtain ⟨-, network, hnet, herrs⟩ := convertCAPOPortOptsToMAPONetwork_ret _ _ _ _ _ hhelper
  have hfilter : network.Filter.isNone = false := by
    rw [hnet] at hv
    cases hf : network.Filter with
    | none => simp [hf] at hv
    | some f => rfl
  rw [hfilter, Bool.and_false] at herrs
  exact herrs

/-- Witness for C40: a list of three ports whose conversion returns one error,
for the `HostID` of the second port. -/
theorem network_error_branch_unreachable_witness :
    ∃ networks ports warnings errors,
      convertCAPOPortOptsToMAPO (field.NewPath "spec" ["ports"]) samplePortsConvertible =
        .ret (networks, ports, warnings, errors) ∧
      errors.len = 1 ∧
      ∀ err ∈ errors.toList,
        err.Detail ≠ "A network must be referenced by a UUID or filter" :=
  ⟨_, _, _, _, rfl, rfl,
    (network_error_branch_unreachable (field.NewPath "spec" ["ports"]) samplePortsConvertible
      _ _ _ _ rfl).1⟩

end Capi2Mapi
